import Mathlib

/-! NVMe-Strom: extra kernel symbols and the SSD-to-GPU test client

A shallow embedding of `kmod/extra_ksyms.c` (run-time resolution of kernel
symbols with module reference counting), of `utils/ssd2gpu_test.c` (handle
listing and description, chunk-id construction, the submit/wait protocol of a
worker, `main` with its pool of worker threads on the shared file position)
and of the snapshot differences of `utils/nvme_stat.c`, with the properties
proved about them.

Conventions: a C pointer to code or data is a `Nat` address with `0` for
`NULL`; a `struct module *` is an `Option Nat`; calls into the kernel, the
driver or CUDA are recorded as events of a trace, and what they answer is
supplied by an environment argument. The threads of the test client share
only the counter `curr_fpos`: the environment gives the order in which their
atomic fetch-adds take effect, and the point at which a thread is stopped
because the process ends.
-/

set_option linter.unusedVariables false

namespace NvmeStrom

/-! ## kmod/extra_ksyms.c : data model -/

/-- Kernel error number `ENOENT` (include/uapi/asm-generic/errno-base.h). -/
def ENOENT : Int := 2

/-- Kernel-internal error number `ENOTSUPP` (include/linux/errno.h). -/
def ENOTSUPP : Int := 524

/-- The `SYMBOL` arguments given to `LOOKUP_MANDATORY_EXTRA_SYMBOL` and
`LOOKUP_OPTIONAL_EXTRA_SYMBOL`; each one owns the two static variables
`p_SYMBOL` and `mod_SYMBOL`. -/
inductive ExtraSymbol
  | nvme_alloc_request
  | nvidia_p2p_get_pages
  | nvidia_p2p_put_pages
  | nvidia_p2p_free_page_table
  | ext4_get_block
  | xfs_get_blocks
  deriving DecidableEq, Repr

/-- The string `#SYMBOL` produced by the preprocessor for a symbol. -/
def ExtraSymbol.symbol_name : ExtraSymbol → String
  | .nvme_alloc_request => "nvme_alloc_request"
  | .nvidia_p2p_get_pages => "nvidia_p2p_get_pages"
  | .nvidia_p2p_put_pages => "nvidia_p2p_put_pages"
  | .nvidia_p2p_free_page_table => "nvidia_p2p_free_page_table"
  | .ext4_get_block => "ext4_get_block"
  | .xfs_get_blocks => "xfs_get_blocks"

/-- The five symbols resolved by `strom_update_extra_symbols`, in source order. -/
def optional_symbols : List ExtraSymbol :=
  [.nvidia_p2p_get_pages, .nvidia_p2p_put_pages, .nvidia_p2p_free_page_table,
   .ext4_get_block, .xfs_get_blocks]

/-- All symbols that have a `mod_SYMBOL` variable. -/
def all_symbols : List ExtraSymbol := .nvme_alloc_request :: optional_symbols

/-- The pair of statics `p_SYMBOL` (function pointer, `0` is `NULL`) and
`mod_SYMBOL` (owning module, `none` is `NULL`). -/
structure ExtraSlot where
  p : Nat
  mod : Option Nat
  deriving DecidableEq, Repr

/-- Calls that leave extra_ksyms.c. `module_get` carries the `symbol_name`
argument of the enclosing lookup, `module_put` the name of the `mod_SYMBOL`
variable it is applied to (`none` is `module_put(NULL)`). -/
inductive KEvent
  | module_get (symbol_name : String) (mod : Nat)
  | module_put (symbol_name : String) (mod : Option Nat)
  | prError (is_optional : Bool) (symbol_name : String)
  | prNotice (symbol_name : String) (addr : Nat) (mod : Option Nat)
  | register_module_notifier (rc : Int)
  | unregister_module_notifier
  deriving DecidableEq, Repr

/-- The static variables of extra_ksyms.c together with the trace of the
kernel calls made so far. -/
structure KsymState where
  slot : ExtraSymbol → ExtraSlot
  trace : List KEvent

/-- What the running kernel answers: `kallsyms_lookup_name` (`0` when the
name is unknown) and `__module_text_address` (`none` for the core kernel). -/
structure KernelSymtab where
  kallsyms_lookup_name : String → Nat
  module_text_address : Nat → Option Nat

/-- The state at module load: every `p_SYMBOL` and `mod_SYMBOL` is `NULL`. -/
def ksym_init_state : KsymState :=
  { slot := fun _ => { p := 0, mod := none }, trace := [] }

/-- Assignment to the statics of one symbol. -/
def set_slot (f : ExtraSymbol → ExtraSlot) (x : ExtraSymbol) (v : ExtraSlot) :
    ExtraSymbol → ExtraSlot :=
  fun y => if y = x then v else f y

/-! ## kmod/extra_ksyms.c : functions -/

/-- Function `__strom_lookup_extra_symbol`: `cur` holds `*symbol_addr` and `*symbol_mod`
on entry; the result is the return code, their values on return and the
kernel calls made. -/
def __strom_lookup_extra_symbol (k : KernelSymtab) (symbol_name : String)
    (cur : ExtraSlot) (is_optional : Bool) : Int × ExtraSlot × List KEvent :=
  let addr := k.kallsyms_lookup_name symbol_name
  if addr = 0 then
    (-ENOENT, cur, [KEvent.prError is_optional symbol_name])
  else
    match k.module_text_address addr with
    | some mod =>
      (0, { p := addr, mod := some mod },
        [KEvent.module_get symbol_name mod, KEvent.prNotice symbol_name addr (some mod)])
    | none =>
      (0, { p := addr, mod := none }, [KEvent.prNotice symbol_name addr none])

/-- One expansion of `LOOKUP_OPTIONAL_EXTRA_SYMBOL(SYMBOL)`; the return code
of the lookup is discarded. -/
def LOOKUP_OPTIONAL_EXTRA_SYMBOL (k : KernelSymtab) (SYMBOL : ExtraSymbol)
    (s : KsymState) : KsymState :=
  if (s.slot SYMBOL).p = 0 then
    let r := __strom_lookup_extra_symbol k SYMBOL.symbol_name (s.slot SYMBOL) true
    { slot := set_slot s.slot SYMBOL r.2.1, trace := s.trace ++ r.2.2 }
  else s

/-- Function `strom_update_extra_symbols`, the module notifier callback. -/
def strom_update_extra_symbols (k : KernelSymtab) (nb action data : Nat)
    (s : KsymState) : Int × KsymState :=
  let s := LOOKUP_OPTIONAL_EXTRA_SYMBOL k .nvidia_p2p_get_pages s
  let s := LOOKUP_OPTIONAL_EXTRA_SYMBOL k .nvidia_p2p_put_pages s
  let s := LOOKUP_OPTIONAL_EXTRA_SYMBOL k .nvidia_p2p_free_page_table s
  let s := LOOKUP_OPTIONAL_EXTRA_SYMBOL k .ext4_get_block s
  let s := LOOKUP_OPTIONAL_EXTRA_SYMBOL k .xfs_get_blocks s
  (0, s)

/-- The call `module_put(mod_SYMBOL)`. -/
def put_module (SYMBOL : ExtraSymbol) (s : KsymState) : KsymState :=
  { s with trace := s.trace ++ [KEvent.module_put SYMBOL.symbol_name (s.slot SYMBOL).mod] }

/-- Function `strom_put_all_extra_modules`; `use_extra_nvme_alloc_request` says whether
`USE_EXTRA__NVME_ALLOC_REQUEST` is defined. -/
def strom_put_all_extra_modules (use_extra_nvme_alloc_request : Bool)
    (s : KsymState) : KsymState :=
  let s := if use_extra_nvme_alloc_request then put_module .nvme_alloc_request s else s
  let s := put_module .nvidia_p2p_get_pages s
  let s := put_module .nvidia_p2p_put_pages s
  let s := put_module .nvidia_p2p_free_page_table s
  let s := put_module .ext4_get_block s
  let s := put_module .xfs_get_blocks s
  s

/-- Function `strom_exit_extra_symbols`. -/
def strom_exit_extra_symbols (use_extra_nvme_alloc_request : Bool)
    (s : KsymState) : KsymState :=
  strom_put_all_extra_modules use_extra_nvme_alloc_request
    { s with trace := s.trace ++ [KEvent.unregister_module_notifier] }

/-- One expansion of `LOOKUP_MANDATORY_EXTRA_SYMBOL(SYMBOL)` up to its
`goto cleanup`: the value of `rc` and the state after the lookup. -/
def LOOKUP_MANDATORY_EXTRA_SYMBOL (k : KernelSymtab) (SYMBOL : ExtraSymbol)
    (s : KsymState) : Int × KsymState :=
  let r := __strom_lookup_extra_symbol k SYMBOL.symbol_name (s.slot SYMBOL) false
  (r.1, { slot := set_slot s.slot SYMBOL r.2.1, trace := s.trace ++ r.2.2 })

/-- Function `strom_init_extra_symbols`; `register_rc` is what
`register_module_notifier` returns if it is reached. -/
def strom_init_extra_symbols (use_extra_nvme_alloc_request : Bool)
    (k : KernelSymtab) (register_rc : Int) (s : KsymState) : Int × KsymState :=
  let r :=
    if use_extra_nvme_alloc_request then
      LOOKUP_MANDATORY_EXTRA_SYMBOL k .nvme_alloc_request s
    else (0, s)
  if r.1 ≠ 0 then
    (r.1, strom_put_all_extra_modules use_extra_nvme_alloc_request r.2)
  else
    let s2 : KsymState :=
      { r.2 with trace := r.2.trace ++ [KEvent.register_module_notifier register_rc] }
    if register_rc ≠ 0 then
      (register_rc, strom_put_all_extra_modules use_extra_nvme_alloc_request s2)
    else (0, s2)

/-! ## kmod/extra_ksyms.c : the capability wrappers -/

/-- The answer of an indirect call: the `int` returned by the code at address
`fn` when called with the given argument list. -/
abbrev Invoke := Nat → List Nat → Int

/-- Wrapper `__nvidia_p2p_get_pages`: the value returned and the indirect calls made
(address called, arguments in call order). -/
def __nvidia_p2p_get_pages (s : KsymState) (invoke : Invoke)
    (p2p_token va_space virtual_address length page_table free_callback data : Nat) :
    Int × List (Nat × List Nat) :=
  if (s.slot .nvidia_p2p_get_pages).p = 0 then (-ENOTSUPP, [])
  else
    let args := [p2p_token, va_space, virtual_address, length, page_table, free_callback, data]
    (invoke (s.slot .nvidia_p2p_get_pages).p args,
      [((s.slot .nvidia_p2p_get_pages).p, args)])

/-- Wrapper `__nvidia_p2p_put_pages`. -/
def __nvidia_p2p_put_pages (s : KsymState) (invoke : Invoke)
    (p2p_token va_space virtual_address page_table : Nat) :
    Int × List (Nat × List Nat) :=
  if (s.slot .nvidia_p2p_put_pages).p = 0 then (-ENOTSUPP, [])
  else
    let args := [p2p_token, va_space, virtual_address, page_table]
    (invoke (s.slot .nvidia_p2p_put_pages).p args,
      [((s.slot .nvidia_p2p_put_pages).p, args)])

/-- Wrapper `__nvidia_p2p_free_page_table`. -/
def __nvidia_p2p_free_page_table (s : KsymState) (invoke : Invoke)
    (page_table : Nat) : Int × List (Nat × List Nat) :=
  if (s.slot .nvidia_p2p_free_page_table).p = 0 then (-ENOTSUPP, [])
  else
    (invoke (s.slot .nvidia_p2p_free_page_table).p [page_table],
      [((s.slot .nvidia_p2p_free_page_table).p, [page_table])])

/-! ## kmod/extra_ksyms.c : reference accounting over the trace -/

/-- The event is `__module_get(m)`. -/
def KEvent.is_get_on (m : Nat) : KEvent → Bool
  | .module_get _ m1 => m1 == m
  | _ => false

/-- The event is `module_put(m)` for the module `m` (never `module_put(NULL)`,
which touches no module). -/
def KEvent.is_put_on (m : Nat) : KEvent → Bool
  | .module_put _ (some m1) => m1 == m
  | _ => false

/-- The event is a `__module_get` made while resolving `name`. -/
def KEvent.is_get_for (name : String) : KEvent → Bool
  | .module_get n _ => n == name
  | _ => false

/-- The event is a `module_put` of a non-null `mod_name`. -/
def KEvent.is_put_for (name : String) : KEvent → Bool
  | .module_put n (some _) => n == name
  | _ => false

/-- Number of `__module_get` calls on module `m`. -/
def module_gets (m : Nat) (t : List KEvent) : Nat := t.countP (KEvent.is_get_on m)

/-- Number of `module_put` calls on module `m`. -/
def module_puts (m : Nat) (t : List KEvent) : Nat := t.countP (KEvent.is_put_on m)

/-- Number of references acquired on behalf of the symbol called `name`. -/
def symbol_gets (name : String) (t : List KEvent) : Nat := t.countP (KEvent.is_get_for name)

/-- Number of references released through `mod_name`. -/
def symbol_puts (name : String) (t : List KEvent) : Nat := t.countP (KEvent.is_put_for name)

/-- Number of `mod_SYMBOL` variables that point to module `m`. -/
def held (s : KsymState) (m : Nat) : Nat :=
  all_symbols.countP (fun x => (s.slot x).mod == some m)

/-- States of a loaded module: `strom_init_extra_symbols` succeeded on the
load-time state, then the notifier ran any number of times, each time with
its own arguments and its own kernel symbol table. -/
inductive Reachable (use_extra_nvme_alloc_request : Bool) : KsymState → Prop
  | init (k : KernelSymtab) (register_rc : Int) :
      (strom_init_extra_symbols use_extra_nvme_alloc_request k register_rc
        ksym_init_state).1 = 0 →
      Reachable use_extra_nvme_alloc_request
        (strom_init_extra_symbols use_extra_nvme_alloc_request k register_rc
          ksym_init_state).2
  | update (k : KernelSymtab) (nb action data : Nat) (s : KsymState) :
      Reachable use_extra_nvme_alloc_request s →
      Reachable use_extra_nvme_alloc_request
        (strom_update_extra_symbols k nb action data s).2

/-- The accounting invariant of extra_ksyms.c between calls: an unresolved
symbol has no module, each symbol has acquired one reference exactly when its
module pointer is set, each module has been acquired once per pointer to it,
and nothing has been released. -/
structure KsymInv (s : KsymState) : Prop where
  null_mod : ∀ x, (s.slot x).p = 0 → (s.slot x).mod = none
  per_symbol : ∀ x, symbol_gets x.symbol_name s.trace = if (s.slot x).mod.isSome then 1 else 0
  per_module : ∀ m, module_gets m s.trace = held s m
  no_put : ∀ name mod, KEvent.module_put name mod ∉ s.trace

/-! ## kmod/extra_ksyms.c : concrete kernels used as examples -/

/-- A kernel in which `ext4_get_block` lives at address 4096 inside the
loadable module 7 and no other extra symbol is known. -/
def symtab_ext4 : KernelSymtab :=
  { kallsyms_lookup_name := fun n => if n = "ext4_get_block" then 4096 else 0,
    module_text_address := fun a => if a = 4096 then some 7 else none }

/-- A kernel that knows none of the extra symbols. -/
def symtab_empty : KernelSymtab :=
  { kallsyms_lookup_name := fun _ => 0, module_text_address := fun _ => none }

/-- The state after a successful init (without `USE_EXTRA__NVME_ALLOC_REQUEST`)
followed by one notifier call, both under `symtab_ext4`. -/
def state_ext4_loaded : KsymState :=
  (strom_update_extra_symbols symtab_ext4 0 1 0
    (strom_init_extra_symbols false symtab_ext4 0 ksym_init_state).2).2

/-- A kernel in which `nvme_alloc_request` lives at address 8192 inside the
loadable module 3. -/
def symtab_nvme : KernelSymtab :=
  { kallsyms_lookup_name := fun n => if n = "nvme_alloc_request" then 8192 else 0,
    module_text_address := fun a => if a = 8192 then some 3 else none }

/-! ## utils/ssd2gpu_test.c : the handle-listing loop of ioctl_print_gpu_memory -/

/-- User-space error number `ENOBUFS` (asm-generic/errno.h). -/
def ENOBUFS : Int := 105

/-- What one `nvme_strom_ioctl(STROM_IOCTL__LIST_GPU_MEMORY, cmd_list)` call
does: its return value, the value it stores to `errno` (`none` when it leaves
`errno` alone) and `cmd_list->nitems` afterwards (`nrooms` and `nitems` are
read as `uint32_t` fields; nvme_strom.h is not among the sources). -/
structure ListReply where
  rv : Int
  set_errno : Option Int
  nitems : Nat
  deriving DecidableEq, Repr

/-- A `StromCmd__ListGpuMemory` buffer: `call` is the index of the ioctl call
it was allocated for, `live` is false once it has been passed to `free`. -/
structure ListBuffer where
  call : Nat
  nrooms : Nat
  nitems : Nat
  live : Bool
  deriving DecidableEq, Repr

/-- How the `do ... while (errno != 0)` loop ends. -/
inductive ListOutcome
  | done (cmd_list : ListBuffer) (nrooms : Nat)
  | exited (status : Nat)
  | assert_failed
  | out_of_fuel
  deriving DecidableEq, Repr

/-- The loop `do ... while (errno != 0)` of `ioctl_print_gpu_memory`, one
iteration per unit of fuel. `ioctl n nrooms` is the answer to the `n`-th
LIST_GPU_MEMORY call when sent capacity `nrooms`; `malloc_ok n` says whether
the `n`-th `malloc` succeeds; `ncalls`, `nrooms` and `errno` are the number of
calls made so far and the current values of the two C variables. -/
def list_gpu_memory_loop (ioctl : Nat → Nat → ListReply) (malloc_ok : Nat → Bool) :
    Nat → Nat → Nat → Int → ListOutcome
  | 0, _, _, _ => .out_of_fuel
  | fuel + 1, ncalls, nrooms, errno =>
    if malloc_ok ncalls = false then .exited 1
    else
      let r := ioctl ncalls nrooms
      let errno1 := r.set_errno.getD errno
      if r.rv ≠ 0 then
        if errno1 ≠ ENOBUFS ∧ errno1 ≠ 0 then .exited 1
        else if ¬ (r.nitems > nrooms) then .assert_failed
        else
          let nrooms1 := (r.nitems + 100) % 2 ^ 32
          if errno1 ≠ 0 then
            list_gpu_memory_loop ioctl malloc_ok fuel (ncalls + 1) nrooms1 errno1
          else .done { call := ncalls, nrooms := nrooms, nitems := r.nitems, live := false } nrooms1
      else
        if errno1 ≠ 0 then
          list_gpu_memory_loop ioctl malloc_ok fuel (ncalls + 1) nrooms errno1
        else .done { call := ncalls, nrooms := nrooms, nitems := r.nitems, live := true } nrooms

/-- A driver with 2001 mapped handles: the first call (capacity 2000) fails
with `ENOBUFS` and reports 2001 items, every later call succeeds, reports
2001 items and leaves `errno` alone. -/
def ioctl_list_2001 : Nat → Nat → ListReply :=
  fun n _ =>
    if n = 0 then { rv := -1, set_errno := some ENOBUFS, nitems := 2001 }
    else { rv := 0, set_errno := none, nitems := 2001 }

/-! ## utils/ssd2gpu_test.c : chunk ids of a segment -/

/-- The constant `BLCKSZ`. -/
def BLCKSZ : Nat := 8192

/-- The initialiser `nr_chunks = segment_sz / BLCKSZ`, stored into an `unsigned int`. -/
def nr_chunks_of (segment_sz : Nat) : Nat := (segment_sz / BLCKSZ) % 2 ^ 32

/-- The assignment `chunk_base = next_fpos / BLCKSZ`, stored into a `uint32_t`. -/
def chunk_base_of (next_fpos : Nat) : Nat := (next_fpos / BLCKSZ) % 2 ^ 32

/-- The loop `for (i=0; i < nr_chunks; i++)
uarg.chunk_ids[nr_chunks - (i+1)] = chunk_base + i;` over the `uint32_t`
array `chunk_ids` (the stored value is truncated to 32 bits). -/
def build_chunk_ids (nr_chunks chunk_base : Nat) (chunk_ids : List Nat) : List Nat :=
  (List.range nr_chunks).foldl
    (fun ids i => ids.set (nr_chunks - (i + 1)) ((chunk_base + i) % 2 ^ 32)) chunk_ids

/-- The assignment `j = uarg.chunk_ids[i] - chunk_base`: a subtraction of two `uint32_t`
values, done modulo 2^32 and then converted to `ssize_t`. -/
def recovered_index (chunk_base id : Nat) : Nat := (id + 2 ^ 32 - chunk_base) % 2 ^ 32

/-- How the corruption check over the chunks of a segment ends. -/
inductive CheckOutcome
  | ok
  | assert_failed (i : Nat)
  | corrupted (i j : Nat)
  deriving DecidableEq, Repr

/-- The loop body of the corruption check for the indexes `i` still to visit:
`differs i j` says whether `memcmp` finds chunk `i` of `dst_buffer` different
from chunk `j` of `src_buffer` (`memdump_on_corruption` then aborts). -/
def check_chunks_from (nr_chunks chunk_base : Nat) (chunk_ids : List Nat)
    (differs : Nat → Nat → Bool) : List Nat → CheckOutcome
  | [] => .ok
  | i :: rest =>
    let j := recovered_index chunk_base (chunk_ids.getD i 0)
    if ¬ (j < nr_chunks) then .assert_failed i
    else if differs i j then .corrupted i j
    else check_chunks_from nr_chunks chunk_base chunk_ids differs rest

/-- The loop `for (i=0; i < nr_chunks; i++)` of the corruption check. -/
def check_chunks (nr_chunks chunk_base : Nat) (chunk_ids : List Nat)
    (differs : Nat → Nat → Bool) : CheckOutcome :=
  check_chunks_from nr_chunks chunk_base chunk_ids differs (List.range nr_chunks)

/-! ## utils/ssd2gpu_test.c : exec_test_by_strom -/

/-- The globals of ssd2gpu_test.c that a worker reads, and one constant of the
build: `cmd_bits` is the width in bits of the unsigned type that nvme_strom.h
(a header that is not among the sources) gives the fields `nr_chunks` and
`nr_ram2gpu` of `StromCmd__MemCopySsdToGpu`, 32 for `unsigned int` (the type
of the local `nr_chunks` the field is assigned from) or 64 for
`unsigned long`; arithmetic on these fields is done modulo `2 ^ cmd_bits`. -/
structure TestGlobals where
  segment_sz : Nat
  filesize : Nat
  file_desc : Int
  enable_checks : Bool
  cmd_bits : Nat

/-- The fields of `worker_context` that `exec_test_by_strom` reads. -/
structure WorkerContext where
  mgmem_handle : Nat
  mgmem_offset : Nat
  src_buffer : Nat
  dst_buffer : Nat
  dev_buffer : Nat

/-- The input fields of `StromCmd__MemCopySsdToGpu` as the worker fills them. -/
structure MemCopyRequest where
  handle : Nat
  offset : Nat
  file_desc : Int
  nr_chunks : Nat
  chunk_sz : Nat
  relseg_sz : Nat
  chunk_ids : List Nat
  wb_buffer : Nat
  deriving DecidableEq, Repr

/-- What the driver answers to `STROM_IOCTL__MEMCPY_SSD2GPU`: the return value
of the ioctl and the output fields of the command, `chunk_ids` being what the
driver stores into the array `uarg.chunk_ids` (see `chunk_ids_after`). The
header nvme_strom.h is not among the sources; `nr_ram2gpu` is read as an
unsigned field of `cmd_bits` bits (see `TestGlobals`), the input fields are
taken to come back unchanged. -/
structure MemCopyReply where
  rv : Int
  dma_task_id : Nat
  nr_ram2gpu : Nat
  nr_ssd2gpu : Nat
  nr_dma_submit : Nat
  nr_dma_blocks : Nat
  chunk_ids : List Nat
  deriving DecidableEq, Repr

/-- Everything the outside world decides during one iteration of a worker:
the driver's answer to the submit, the `CUresult` codes (`0` is
`CUDA_SUCCESS`), the results of MEMCPY_WAIT and `pread`, the `memcmp` result
`differs i j` of the corruption check, and `cut`: `some k` says that the
process is ended from outside this thread (`exit(1)` or `abort()` in another
thread, a crash of `main`) when the worker has made `k` of the calls of this
iteration that follow its fetch-add. -/
structure IterEnv where
  submit : MemCopyReply
  htod_rc : Nat
  sync_rc : Nat
  wait_rv : Int
  dtoh_rc : Nat
  pread_nbytes : Int
  differs : Nat → Nat → Bool
  cut : Option Nat

/-- The number of calls a worker still makes in an iteration of `n` calls when
the process is ended from outside inside that iteration. -/
def IterEnv.cut_within (e : IterEnv) (n : Nat) : Option Nat :=
  match e.cut with
  | some k => if k < n then some k else none
  | none => none

/-- The calls a worker makes, with their arguments and results. -/
inductive CEvent
  | atomic_fetch_add (old : Nat)
  | memcpy_ssd2gpu (req : MemCopyRequest) (rv : Int) (dma_task_id : Nat)
  | cuMemcpyHtoD (dst src nbytes : Nat) (rc : Nat)
  | cuStreamSynchronize (rc : Nat)
  | memcpy_wait (dma_task_id : Nat) (rv : Int)
  | cuMemcpyDtoH (dst src nbytes : Nat) (rc : Nat)
  | pread (fd : Int) (buf count offset : Nat) (nbytes : Int)
  deriving DecidableEq, Repr

/-- How a worker stops: `return NULL`, `exit`, `abort` (failed assertion or
`memdump_on_corruption`), `killed` inside an iteration because the process is
ended from outside this thread, or still looping, between two iterations, when
the described part of the run ends. -/
inductive WorkerOutcome
  | returned
  | exited (status : Nat)
  | aborted
  | killed
  | running
  deriving DecidableEq, Repr

/-- The array `wcontext->chunk_ids` once the driver has handled the command:
it keeps its cells, and cell `i` holds the `uint32_t` the driver stored there
(`reply[i]`) or, where the driver stored nothing, what the worker wrote. -/
def chunk_ids_after (request reply : List Nat) : List Nat :=
  (List.range request.length).map (fun i => (reply.getD i (request.getD i 0)) % 2 ^ 32)

/-- The corruption check made when `enable_checks` is set: the events and
`some` outcome when the worker stops there; `chunk_ids` is the array
`uarg.chunk_ids` as the driver left it. -/
def strom_checks (g : TestGlobals) (w : WorkerContext) (e : IterEnv) (next_fpos : Nat)
    (chunk_ids : List Nat) : List CEvent × Option WorkerOutcome :=
  let nr_chunks := nr_chunks_of g.segment_sz
  let chunk_base := chunk_base_of next_fpos
  let ev1 := CEvent.cuMemcpyDtoH w.dst_buffer w.dev_buffer g.segment_sz e.dtoh_rc
  if e.dtoh_rc ≠ 0 then ([ev1], some (.exited 1))
  else
    let ev2 := CEvent.pread g.file_desc w.src_buffer g.segment_sz next_fpos e.pread_nbytes
    if (e.pread_nbytes % 2 ^ 64).toNat < g.segment_sz then ([ev1, ev2], some (.exited 1))
    else
      match check_chunks nr_chunks chunk_base chunk_ids e.differs with
      | .ok => ([ev1, ev2], none)
      | _ => ([ev1, ev2], some .aborted)

/-- One execution of the body of the `for (;;)` loop of `exec_test_by_strom`
after the end-of-file test: the events, and `some` outcome when the worker
stops inside the body. `chunk_ids` is the content of `wcontext->chunk_ids` on
entry. The statistics counters of `wcontext` and the `status` printed by
`ioctl_wait_memcpy`, which decide nothing inside the worker, are left out. -/
def strom_iteration (g : TestGlobals) (w : WorkerContext) (e : IterEnv) (next_fpos : Nat)
    (chunk_ids : List Nat) : List CEvent × Option WorkerOutcome :=
  let nr_chunks := nr_chunks_of g.segment_sz
  let chunk_base := chunk_base_of next_fpos
  let req : MemCopyRequest :=
    { handle := w.mgmem_handle, offset := w.mgmem_offset, file_desc := g.file_desc,
      nr_chunks := nr_chunks, chunk_sz := BLCKSZ, relseg_sz := 0,
      chunk_ids := build_chunk_ids nr_chunks chunk_base chunk_ids,
      wb_buffer := w.src_buffer }
  let submit := CEvent.memcpy_ssd2gpu req e.submit.rv e.submit.dma_task_id
  if e.submit.rv ≠ 0 then ([submit], some (.exited 1))
  else
    let nr_ram2gpu := e.submit.nr_ram2gpu % 2 ^ g.cmd_bits
    let off := (BLCKSZ * ((nr_chunks + 2 ^ g.cmd_bits - nr_ram2gpu) % 2 ^ g.cmd_bits))
      % 2 ^ g.cmd_bits
    let htod := CEvent.cuMemcpyHtoD (w.dev_buffer + off) (w.src_buffer + off)
      ((BLCKSZ * nr_ram2gpu) % 2 ^ g.cmd_bits) e.htod_rc
    let sync := CEvent.cuStreamSynchronize e.sync_rc
    let wait := CEvent.memcpy_wait e.submit.dma_task_id e.wait_rv
    let copy : List CEvent := if nr_ram2gpu > 0 then [htod, sync] else []
    if nr_ram2gpu > 0 ∧ e.htod_rc ≠ 0 then ([submit, htod], some (.exited 1))
    else if nr_ram2gpu > 0 ∧ e.sync_rc ≠ 0 then
      ([submit, htod, sync], some (.exited 1))
    else if e.wait_rv ≠ 0 then (submit :: copy ++ [wait], some (.exited 1))
    else if g.enable_checks then
      let c := strom_checks g w e next_fpos (chunk_ids_after req.chunk_ids e.submit.chunk_ids)
      (submit :: copy ++ wait :: c.1, c.2)
    else (submit :: copy ++ [wait], none)

/-- The `for (;;)` loop of `exec_test_by_strom`, one iteration per element of
the list: the value `next_fpos` that the worker's `__atomic_fetch_add` on the
shared `curr_fpos` returns, and what the outside world decides during the
iteration. `chunk_ids` is the content of `wcontext->chunk_ids`. The run ends
with the list (`running`), at the end of the file, where the worker itself
exits or aborts, or where the process is ended from outside (`killed`). -/
def strom_loop (g : TestGlobals) (w : WorkerContext) :
    List (Nat × IterEnv) → List Nat → List CEvent × WorkerOutcome
  | [], _ => ([], .running)
  | (next_fpos, e) :: es, chunk_ids =>
    if next_fpos ≥ g.filesize then ([CEvent.atomic_fetch_add next_fpos], .returned)
    else
      let r := strom_iteration g w e next_fpos chunk_ids
      match e.cut_within r.1.length with
      | some k => (CEvent.atomic_fetch_add next_fpos :: r.1.take k, .killed)
      | none =>
        match r.2 with
        | some o => (CEvent.atomic_fetch_add next_fpos :: r.1, o)
        | none =>
          let rest := strom_loop g w es
            (chunk_ids_after
              (build_chunk_ids (nr_chunks_of g.segment_sz) (chunk_base_of next_fpos) chunk_ids)
              e.submit.chunk_ids)
          (CEvent.atomic_fetch_add next_fpos :: (r.1 ++ rest.1), rest.2)

/-- Function `exec_test_by_strom`: `ctx_rc` is the result of `cuCtxSetCurrent`,
`fetched` the values its fetch-adds return, each with the environment of the
iteration that follows. -/
def exec_test_by_strom (g : TestGlobals) (w : WorkerContext) (ctx_rc : Nat)
    (fetched : List (Nat × IterEnv)) (chunk_ids : List Nat) :
    List CEvent × WorkerOutcome :=
  if ctx_rc ≠ 0 then ([], .exited 1) else strom_loop g w fetched chunk_ids

/-- Reading a trace against the rule "wait once per submitted task": `pending`
is the id of a successfully submitted task that has not been waited for yet.
The result is `none` when a submit is issued while a task is pending or a
wait names anything but the pending task, and otherwise the task left pending
at the end of the trace (`some none` when every task has been waited for). -/
def wait_scan : Option Nat → List CEvent → Option (Option Nat)
  | pending, [] => some pending
  | pending, CEvent.memcpy_ssd2gpu _ rv id :: t =>
    if pending.isSome then none
    else if rv = 0 then wait_scan (some id) t else wait_scan none t
  | pending, CEvent.memcpy_wait id _ :: t =>
    if pending = some id then wait_scan none t else none
  | pending, CEvent.atomic_fetch_add _ :: t => wait_scan pending t
  | pending, CEvent.cuMemcpyHtoD _ _ _ _ :: t => wait_scan pending t
  | pending, CEvent.cuStreamSynchronize _ :: t => wait_scan pending t
  | pending, CEvent.cuMemcpyDtoH _ _ _ _ :: t => wait_scan pending t
  | pending, CEvent.pread _ _ _ _ _ :: t => wait_scan pending t

/-- The test configuration of the examples: 1 MiB segments (128 chunks) of a
2 MiB file, checks off. -/
def globals_2m : TestGlobals :=
  { segment_sz := 1048576, filesize := 2097152, file_desc := 3, enable_checks := false,
    cmd_bits := 32 }

/-- The worker context of the examples. -/
def worker_0 : WorkerContext :=
  { mgmem_handle := 1, mgmem_offset := 0, src_buffer := 1048576, dst_buffer := 2097152,
    dev_buffer := 4194304 }

/-- An iteration in which the submit succeeds with task id 7 and one fallback
chunk, and `cuMemcpyHtoD` then fails with code 1. -/
def env_htod_fails : IterEnv :=
  { submit := { rv := 0, dma_task_id := 7, nr_ram2gpu := 1, nr_ssd2gpu := 127,
                nr_dma_submit := 1, nr_dma_blocks := 1, chunk_ids := [] },
    htod_rc := 1, sync_rc := 0, wait_rv := 0, dtoh_rc := 0,
    pread_nbytes := 0, differs := fun _ _ => false, cut := none }

/-- An iteration in which everything succeeds: task id 7, one fallback chunk. -/
def env_all_ok : IterEnv :=
  { submit := { rv := 0, dma_task_id := 7, nr_ram2gpu := 1, nr_ssd2gpu := 127,
                nr_dma_submit := 1, nr_dma_blocks := 1, chunk_ids := [] },
    htod_rc := 0, sync_rc := 0, wait_rv := 0, dtoh_rc := 0,
    pread_nbytes := 0, differs := fun _ _ => false, cut := none }

/-- The event is a `STROM_IOCTL__MEMCPY_WAIT` command. -/
def CEvent.is_wait : CEvent → Bool
  | .memcpy_wait _ _ => true
  | _ => false

/-- The event is a `STROM_IOCTL__MEMCPY_SSD2GPU` command that returned 0. -/
def CEvent.is_submit_ok : CEvent → Bool
  | .memcpy_ssd2gpu _ rv _ => rv == 0
  | _ => false

/-! ## kmod/extra_ksyms.c : the filesystem wrappers -/

/-- How a call of a wrapper that starts with `BUG_ON(!p_SYMBOL)` ends: `bug`
when the assertion fires (the kernel stops the calling context and nothing is
returned to the caller), otherwise the value returned and the indirect calls
made. -/
inductive GuardedCall
  | bug
  | returned (value : Int) (calls : List (Nat × List Nat))
  deriving DecidableEq, Repr

/-- Wrapper `__ext4_get_block`. -/
def __ext4_get_block (s : KsymState) (invoke : Invoke)
    (inode offset bh create : Nat) : GuardedCall :=
  if (s.slot .ext4_get_block).p = 0 then .bug
  else
    .returned (invoke (s.slot .ext4_get_block).p [inode, offset, bh, create])
      [((s.slot .ext4_get_block).p, [inode, offset, bh, create])]

/-- Wrapper `__xfs_get_blocks`. -/
def __xfs_get_blocks (s : KsymState) (invoke : Invoke)
    (inode offset bh create : Nat) : GuardedCall :=
  if (s.slot .xfs_get_blocks).p = 0 then .bug
  else
    .returned (invoke (s.slot .xfs_get_blocks).p [inode, offset, bh, create])
      [((s.slot .xfs_get_blocks).p, [inode, offset, bh, create])]

/-- A kernel in which every extra symbol is known: the name of length `n`
lives at address `4096 + n` inside the loadable module 9. -/
def symtab_all : KernelSymtab :=
  { kallsyms_lookup_name := fun n => 4096 + n.length,
    module_text_address := fun _ => some 9 }

/-! ## utils/nvme_stat.c : snapshot differencing -/

/-- The counters of `StromCmd__StatInfo` that `print_stat_verbose` and
`print_stat_normal` apply `DECL_DIFF` to. -/
inductive StatField
  | nr_ioctl_memcpy_submit
  | clk_ioctl_memcpy_submit
  | nr_ioctl_memcpy_wait
  | clk_ioctl_memcpy_wait
  | nr_ssd2gpu
  | clk_ssd2gpu
  | nr_setup_prps
  | clk_setup_prps
  | nr_submit_dma
  | clk_submit_dma
  | nr_wait_dtask
  | clk_wait_dtask
  | nr_wrong_wakeup
  | total_dma_length
  | nr_debug1
  | nr_debug2
  | nr_debug3
  | nr_debug4
  | clk_debug1
  | clk_debug2
  | clk_debug3
  | clk_debug4
  deriving DecidableEq, Repr

/-- Modelled from the spec: the declaration of `StromCmd__StatInfo` is in a
header that is not among the sources; its counters are 64-bit unsigned
integers (spec 4.5, "Counters are 64-bit"), so a snapshot gives every counter
a value that `DECL_DIFF` reads modulo 2^64. -/
structure StromCmd__StatInfo where
  counter : StatField → Nat

/-- One expansion of `DECL_DIFF(C,P,FIELD)`: the value of the `uint64_t` local
`FIELD`, the difference of two 64-bit unsigned fields. -/
def DECL_DIFF (C P : StromCmd__StatInfo) (FIELD : StatField) : Nat :=
  (C.counter FIELD % 2 ^ 64 + 2 ^ 64 - P.counter FIELD % 2 ^ 64) % 2 ^ 64

/-- The locals declared at the top of `print_stat_verbose`, in source order,
each with the value `DECL_DIFF(c,p,FIELD)` gives it. -/
def print_stat_verbose_diffs (p c : StromCmd__StatInfo) : List (StatField × Nat) :=
  [(.nr_ioctl_memcpy_submit, DECL_DIFF c p .nr_ioctl_memcpy_submit),
   (.clk_ioctl_memcpy_submit, DECL_DIFF c p .clk_ioctl_memcpy_submit),
   (.nr_ioctl_memcpy_wait, DECL_DIFF c p .nr_ioctl_memcpy_wait),
   (.clk_ioctl_memcpy_wait, DECL_DIFF c p .clk_ioctl_memcpy_wait),
   (.nr_ssd2gpu, DECL_DIFF c p .nr_ssd2gpu),
   (.clk_ssd2gpu, DECL_DIFF c p .clk_ssd2gpu),
   (.nr_setup_prps, DECL_DIFF c p .nr_setup_prps),
   (.clk_setup_prps, DECL_DIFF c p .clk_setup_prps),
   (.nr_submit_dma, DECL_DIFF c p .nr_submit_dma),
   (.clk_submit_dma, DECL_DIFF c p .clk_submit_dma),
   (.nr_wait_dtask, DECL_DIFF c p .nr_wait_dtask),
   (.clk_wait_dtask, DECL_DIFF c p .clk_wait_dtask),
   (.nr_wrong_wakeup, DECL_DIFF c p .nr_wrong_wakeup),
   (.total_dma_length, DECL_DIFF c p .total_dma_length),
   (.nr_debug1, DECL_DIFF c p .nr_debug1),
   (.nr_debug2, DECL_DIFF c p .nr_debug2),
   (.nr_debug3, DECL_DIFF c p .nr_debug3),
   (.nr_debug4, DECL_DIFF c p .nr_debug4),
   (.clk_debug1, DECL_DIFF c p .clk_debug1),
   (.clk_debug2, DECL_DIFF c p .clk_debug2),
   (.clk_debug3, DECL_DIFF c p .clk_debug3),
   (.clk_debug4, DECL_DIFF c p .clk_debug4)]

/-- The locals declared at the top of `print_stat_normal`, in source order. -/
def print_stat_normal_diffs (p c : StromCmd__StatInfo) : List (StatField × Nat) :=
  [(.nr_ioctl_memcpy_submit, DECL_DIFF c p .nr_ioctl_memcpy_submit),
   (.clk_ioctl_memcpy_submit, DECL_DIFF c p .clk_ioctl_memcpy_submit),
   (.nr_ioctl_memcpy_wait, DECL_DIFF c p .nr_ioctl_memcpy_wait),
   (.clk_ioctl_memcpy_wait, DECL_DIFF c p .clk_ioctl_memcpy_wait),
   (.nr_ssd2gpu, DECL_DIFF c p .nr_ssd2gpu),
   (.clk_ssd2gpu, DECL_DIFF c p .clk_ssd2gpu),
   (.nr_submit_dma, DECL_DIFF c p .nr_submit_dma),
   (.nr_wait_dtask, DECL_DIFF c p .nr_wait_dtask),
   (.clk_wait_dtask, DECL_DIFF c p .clk_wait_dtask),
   (.nr_wrong_wakeup, DECL_DIFF c p .nr_wrong_wakeup),
   (.total_dma_length, DECL_DIFF c p .total_dma_length)]

/-- An earlier snapshot used as example: every counter is 10, except
`total_dma_length`, which is 2^63. -/
def stat_earlier : StromCmd__StatInfo :=
  { counter := fun f => if f = .total_dma_length then 2 ^ 63 else 10 }

/-- A later snapshot used as example: every counter is 25, except
`total_dma_length`, which is 2^64 - 1. -/
def stat_later : StromCmd__StatInfo :=
  { counter := fun f => if f = .total_dma_length then 2 ^ 64 - 1 else 25 }

/-- The event is a `cuMemcpyHtoD` call. -/
def CEvent.is_htod : CEvent → Bool
  | .cuMemcpyHtoD _ _ _ _ => true
  | _ => false

/-- The test configuration `-s 4096`: one 4 GiB segment (524288 chunks) of a
4 GiB file, checks off, `unsigned int` command fields. -/
def globals_4g : TestGlobals :=
  { segment_sz := 4294967296, filesize := 4294967296, file_desc := 3,
    enable_checks := false, cmd_bits := 32 }

/-- An iteration over a fully cached 4 GiB segment: the submit succeeds with
task id 7 and reports all 524288 chunks as fallback chunks, and every later
call succeeds. -/
def env_all_fallback : IterEnv :=
  { submit := { rv := 0, dma_task_id := 7, nr_ram2gpu := 524288, nr_ssd2gpu := 0,
                nr_dma_submit := 0, nr_dma_blocks := 0, chunk_ids := [] },
    htod_rc := 0, sync_rc := 0, wait_rv := 0, dtoh_rc := 0,
    pread_nbytes := 0, differs := fun _ _ => false, cut := none }

/-! ## utils/ssd2gpu_test.c : the INFO_GPU_MEMORY loop of ioctl_print_gpu_memory -/

/-- What one `nvme_strom_ioctl(STROM_IOCTL__INFO_GPU_MEMORY, cmd_info)` call
does: its return value, the value it stores to `errno` (`none` when it leaves
`errno` alone) and `cmd_info->nitems` afterwards (a `uint32_t`-sized field,
printed with `%u`). -/
structure InfoReply where
  rv : Int
  set_errno : Option Int
  nitems : Nat
  deriving DecidableEq, Repr

/-- The variables of the `while (i < cmd_list->nitems)` loop: the number of
INFO calls made so far, the handle index `i`, the capacity `nrooms` of the
current `cmd_info` buffer and `errno`. The index `i` is a C `int`; the model
follows it as a natural number, which is exact below 2^31 handles. -/
structure InfoState where
  ncalls : Nat
  i : Nat
  nrooms : Nat
  errno : Int
  deriving DecidableEq, Repr

/-- What the INFO loop does: `info_call` is one ioctl for `handles[i]` with
capacity `nrooms`, `described` the `printf` of a handle followed by all
`nitems` page-table lines, `skipped` the `i++` after `ENOENT`, `realloc` the
`free`/`malloc` pair that gives `cmd_info` the capacity `nrooms`. -/
inductive InfoEvent
  | info_call (i handle nrooms : Nat)
  | described (i handle nitems : Nat)
  | skipped (i : Nat)
  | realloc (nrooms : Nat)
  deriving DecidableEq, Repr

/-- How the INFO loop ends. -/
inductive InfoOutcome
  | done
  | exited (status : Nat)
  | assert_failed
  | out_of_fuel
  deriving DecidableEq, Repr

/-- The result of one execution of the loop body: the next values of the loop
variables, or the way the program stops, each with the events of the body. -/
inductive InfoStep
  | next (s : InfoState) (events : List InfoEvent)
  | stop (o : InfoOutcome) (events : List InfoEvent)
  deriving DecidableEq, Repr

/-- The body of `while (i < cmd_list->nitems)`. `ioctl n handle nrooms` is the
answer to the `n`-th INFO call, `malloc_ok n` says whether the `malloc` made
after `n` calls succeeds, `handles` is `cmd_list->handles`. -/
def info_step (ioctl : Nat → Nat → Nat → InfoReply) (malloc_ok : Nat → Bool)
    (handles : List Nat) (s : InfoState) : InfoStep :=
  let handle := handles.getD s.i 0
  let call := InfoEvent.info_call s.i handle s.nrooms
  let r := ioctl s.ncalls handle s.nrooms
  let errno1 := r.set_errno.getD s.errno
  if r.rv ≠ 0 then
    if errno1 = ENOENT then
      .next { ncalls := s.ncalls + 1, i := s.i + 1, nrooms := s.nrooms, errno := errno1 }
        [call, .skipped s.i]
    else if errno1 ≠ ENOBUFS ∧ errno1 ≠ 0 then .stop (.exited 1) [call]
    else if ¬ (r.nitems > s.nrooms) then .stop .assert_failed [call]
    else
      let nrooms1 := (r.nitems + 100) % 2 ^ 32
      if malloc_ok (s.ncalls + 1) = false then .stop (.exited 1) [call]
      else
        .next { ncalls := s.ncalls + 1, i := s.i, nrooms := nrooms1, errno := errno1 }
          [call, .realloc nrooms1]
  else
    .next { ncalls := s.ncalls + 1, i := s.i + 1, nrooms := s.nrooms, errno := errno1 }
      [call, .described s.i handle r.nitems]

/-- The loop `while (i < cmd_list->nitems)`, one iteration per unit of fuel;
`list_nitems` is `cmd_list->nitems`. -/
def info_gpu_memory_loop (ioctl : Nat → Nat → Nat → InfoReply) (malloc_ok : Nat → Bool)
    (handles : List Nat) (list_nitems : Nat) : Nat → InfoState → List InfoEvent × InfoOutcome
  | 0, _ => ([], .out_of_fuel)
  | fuel + 1, s =>
    if ¬ (s.i < list_nitems) then ([], .done)
    else
      match info_step ioctl malloc_ok handles s with
      | .next s1 events =>
        let r := info_gpu_memory_loop ioctl malloc_ok handles list_nitems fuel s1
        (events ++ r.1, r.2)
      | .stop o events => (events, o)

/-- The index of the handle an event gives its final answer for. -/
def InfoEvent.final_index : InfoEvent → Option Nat
  | .described i _ _ => some i
  | .skipped i => some i
  | _ => none

/-- Modelled from the spec: the INFO_GPU_MEMORY handler of the kernel module
is not among the sources; by the growable-buffer protocol (spec 4.2,
`describe(handle, capacity) -> page_table+owner+size | BufferTooSmall(required)`)
a call succeeds only when the page table fits the capacity it was given, and a
call that fails with `ENOBUFS` reports a required size above that capacity. -/
def info_respects_capacity (ioctl : Nat → Nat → Nat → InfoReply) : Prop :=
  ∀ n handle nrooms,
    ((ioctl n handle nrooms).rv = 0 → (ioctl n handle nrooms).nitems ≤ nrooms)
    ∧ ((ioctl n handle nrooms).rv ≠ 0 → (ioctl n handle nrooms).set_errno = some ENOBUFS →
        nrooms < (ioctl n handle nrooms).nitems)

/-- A driver with three handles: handle 11 has 5 pages; handle 12 has been
unmapped in the meantime (`ENOENT`); every other handle has 3000 pages, more
than the first capacity 2000. A call succeeds when the pages fit the capacity
and fails with `ENOBUFS`, reporting the number of pages, when they do not. -/
def ioctl_info_three : Nat → Nat → Nat → InfoReply :=
  fun _ handle nrooms =>
    if handle = 12 then { rv := -1, set_errno := some ENOENT, nitems := 0 }
    else if (if handle = 11 then 5 else 3000) ≤ nrooms then
      { rv := 0, set_errno := none, nitems := if handle = 11 then 5 else 3000 }
    else { rv := -1, set_errno := some ENOBUFS, nitems := if handle = 11 then 5 else 3000 }

/-! ## utils/ssd2gpu_test.c : exec_test_by_vfs, ioctl_print_gpu_memory and main -/

/-- One execution of the body of the `for (;;)` loop of `exec_test_by_vfs`
after the end-of-file test; of the environment it uses `pread_nbytes`,
`htod_rc`, `dtoh_rc` and `differs 0 0` (the `memcmp` of the whole segment). -/
def vfs_iteration (g : TestGlobals) (w : WorkerContext) (e : IterEnv) (next_fpos : Nat) :
    List CEvent × Option WorkerOutcome :=
  let rd := CEvent.pread g.file_desc w.src_buffer g.segment_sz next_fpos e.pread_nbytes
  if (e.pread_nbytes % 2 ^ 64).toNat ≠ g.segment_sz then ([rd], some (.exited 1))
  else
    let htod := CEvent.cuMemcpyHtoD w.dev_buffer w.src_buffer g.segment_sz e.htod_rc
    if e.htod_rc ≠ 0 then ([rd, htod], some (.exited 1))
    else if g.enable_checks then
      let dtoh := CEvent.cuMemcpyDtoH w.dst_buffer w.dev_buffer g.segment_sz e.dtoh_rc
      if e.dtoh_rc ≠ 0 then ([rd, htod, dtoh], some (.exited 1))
      else if e.differs 0 0 then ([rd, htod, dtoh], some .aborted)
      else ([rd, htod, dtoh], none)
    else ([rd, htod], none)

/-- The `for (;;)` loop of `exec_test_by_vfs`, one iteration per element of
the list, read as for `strom_loop`. -/
def vfs_loop (g : TestGlobals) (w : WorkerContext) :
    List (Nat × IterEnv) → List CEvent × WorkerOutcome
  | [] => ([], .running)
  | (next_fpos, e) :: es =>
    if next_fpos ≥ g.filesize then ([CEvent.atomic_fetch_add next_fpos], .returned)
    else
      let r := vfs_iteration g w e next_fpos
      match e.cut_within r.1.length with
      | some k => (CEvent.atomic_fetch_add next_fpos :: r.1.take k, .killed)
      | none =>
        match r.2 with
        | some o => (CEvent.atomic_fetch_add next_fpos :: r.1, o)
        | none =>
          let rest := vfs_loop g w es
          (CEvent.atomic_fetch_add next_fpos :: (r.1 ++ rest.1), rest.2)

/-- Function `exec_test_by_vfs`: `ctx_rc` is the result of `cuCtxSetCurrent`,
`fetched` the values its fetch-adds return, each with the environment of the
iteration that follows. -/
def exec_test_by_vfs (g : TestGlobals) (w : WorkerContext) (ctx_rc : Nat)
    (fetched : List (Nat × IterEnv)) : List CEvent × WorkerOutcome :=
  if ctx_rc ≠ 0 then ([], .exited 1) else vfs_loop g w fetched

/-- How the program, or a function that may end it, stops: `returned` with a
value, `exit(status)`, `abort()`, behaviour the C standard leaves undefined
(a division by zero, a read through a freed or null pointer), or still
running when the described part of the run ends. -/
inductive ProgOutcome
  | returned (code : Int)
  | exited (status : Nat)
  | aborted
  | undefined
  | running
  deriving DecidableEq, Repr

/-- What the driver and the allocator answer during `ioctl_print_gpu_memory`:
the LIST replies, the `handles` array written by the `n`-th LIST call, the
INFO replies and the results of the `malloc` calls of the two loops. -/
structure PrintEnv where
  ioctl_list : Nat → Nat → ListReply
  list_handles : Nat → List Nat
  malloc_list_ok : Nat → Bool
  ioctl_info : Nat → Nat → Nat → InfoReply
  malloc_info_ok : Nat → Bool

/-- Function `ioctl_print_gpu_memory`: the LIST loop, then the INFO loop over
the handles of the buffer the LIST loop ended with; `errno` is its value on
entry. -/
def ioctl_print_gpu_memory (env : PrintEnv) (fuel : Nat) (errno : Int) :
    List InfoEvent × ProgOutcome :=
  match list_gpu_memory_loop env.ioctl_list env.malloc_list_ok fuel 0 2000 errno with
  | .out_of_fuel => ([], .running)
  | .exited status => ([], .exited status)
  | .assert_failed => ([], .aborted)
  | .done cmd_list nrooms =>
    if cmd_list.live = false then ([], .undefined)
    else if env.malloc_info_ok 0 = false then ([], .exited 1)
    else
      let r := info_gpu_memory_loop env.ioctl_info env.malloc_info_ok
        (env.list_handles cmd_list.call) cmd_list.nitems fuel
        { ncalls := 0, i := 0, nrooms := nrooms, errno := 0 }
      match r.2 with
      | .done => (r.1, .returned 0)
      | .exited status => (r.1, .exited status)
      | .assert_failed => (r.1, .aborted)
      | .out_of_fuel => (r.1, .running)

/-- The option variables of ssd2gpu_test.c after the `getopt` loop of `main`:
`usage` says that `-h` or an unknown option made the loop call `usage()`,
`has_filename` that exactly one argument follows the options. -/
structure Options where
  usage : Bool
  device_index : Int
  nr_segments : Int
  segment_sz : Nat
  enable_checks : Bool
  print_mapping : Bool
  test_by_vfs : Bool
  vfs_io_size : Nat
  has_filename : Bool

/-- What the outside world decides for one worker thread: the result of its
`cuCtxSetCurrent` and, for each fetch-add of its loop in turn, the `IterEnv`
of the iteration that follows (unused where the fetch-add ends the loop). -/
structure WorkerEnv where
  ctx_rc : Nat
  iters : List IterEnv

/-- What the outside world decides during `main`: results of `open`, `fstat`
(with `st_size`), of the CHECK_FILE and MAP_GPU_MEMORY commands, of the CUDA
calls (`0` is `CUDA_SUCCESS`; `count` is the device count, `tesla_or_quadro d`
the result of the two `strstr` tests on the name of device `d`), the addresses
of the three buffers, the answers of the allocator to the checked `calloc`
(`calloc_ok`), to the unchecked `calloc` of the `wcontext` array
(`calloc_array_ok`) and to the unchecked `calloc` of the context of worker `i`
(`calloc_worker_ok i`), the result of `pthread_create` for worker `i`,
`mem_bytes`, the number of bytes of memory the process can obtain (no
allocation of more succeeds), `schedule`, the order in which the fetch-adds of
the workers on `curr_fpos` take effect (one entry per call, naming the
worker), the environment of each worker and of `ioctl_print_gpu_memory` with
its fuel and the entry value of `errno`, and the build constant `cmd_bits` of
`TestGlobals`. -/
structure MainEnv where
  open_fd : Int
  fstat_rc : Int
  st_size : Nat
  check_rc : Int
  cuInit_rc : Nat
  count_rc : Nat
  count : Nat
  get_rc : Nat → Nat
  name_rc : Nat → Nat
  tesla_or_quadro : Nat → Bool
  ctx_rc : Nat
  alloc_rc : Nat
  dev_buffer : Nat
  host_src_rc : Nat
  src_buffer : Nat
  host_dst_rc : Nat
  dst_buffer : Nat
  map_retval : Int
  map_handle : Nat
  calloc_ok : Bool
  calloc_array_ok : Bool
  calloc_worker_ok : Nat → Bool
  pthread_create_rc : Nat → Nat
  mem_bytes : Nat
  schedule : List Nat
  worker : Nat → WorkerEnv
  print : PrintEnv
  fuel : Nat
  errno : Int
  cmd_bits : Nat

/-- The calls of the main thread, with their arguments and results. -/
inductive MEvent
  | open (fd : Int)
  | fstat (fd : Int) (rc : Int)
  | check_file (fdesc : Int) (rc : Int)
  | cuda (api : String) (rc : Nat)
  | map_gpu_memory (vaddress length : Nat) (retval : Int) (handle : Nat)
  | print_gpu_memory (events : List InfoEvent)
  deriving DecidableEq, Repr

/-- The result of a run of `main`: the calls of the main thread in order, the
trace and outcome of every worker thread it created, and how the program
stopped. -/
structure MainResult where
  trace : List MEvent
  workers : List (List CEvent × WorkerOutcome)
  outcome : ProgOutcome

/-- The loop `for (device_index = 0; device_index < count; device_index++)`
of `main` from index `d`, with `n` devices left to look at: the calls made and
either the way the program stops or the index the loop ends with. -/
def select_device (env : MainEnv) : Nat → Nat → List MEvent × (ProgOutcome ⊕ Nat)
  | 0, d => ([], .inr d)
  | n + 1, d =>
    if env.get_rc d ≠ 0 then ([.cuda "cuDeviceGet" (env.get_rc d)], .inl (.exited 1))
    else if env.name_rc d ≠ 0 then
      ([.cuda "cuDeviceGet" 0, .cuda "cuDeviceGetName" (env.name_rc d)], .inl (.exited 1))
    else if env.tesla_or_quadro d then
      ([.cuda "cuDeviceGet" 0, .cuda "cuDeviceGetName" 0], .inr d)
    else
      let r := select_device env n (d + 1)
      (.cuda "cuDeviceGet" 0 :: .cuda "cuDeviceGetName" 0 :: r.1, r.2)

/-- The device lookup of `main`, both branches of `if (device_index < 0)`. -/
def find_device (opts : Options) (env : MainEnv) : List MEvent × Option ProgOutcome :=
  if opts.device_index < 0 then
    if env.count_rc ≠ 0 then ([.cuda "cuDeviceGetCount" env.count_rc], some (.exited 1))
    else
      let r := select_device env env.count 0
      match r.2 with
      | .inl o => (.cuda "cuDeviceGetCount" 0 :: r.1, some o)
      | .inr d =>
        if d = env.count then (.cuda "cuDeviceGetCount" 0 :: r.1, some (.returned 1))
        else (.cuda "cuDeviceGetCount" 0 :: r.1, none)
  else
    let d := opts.device_index.toNat
    if env.get_rc d ≠ 0 then ([.cuda "cuDeviceGet" (env.get_rc d)], some (.exited 1))
    else if env.name_rc d ≠ 0 then
      ([.cuda "cuDeviceGet" 0, .cuda "cuDeviceGetName" (env.name_rc d)], some (.exited 1))
    else ([.cuda "cuDeviceGet" 0, .cuda "cuDeviceGetName" 0], none)

/-- The context `wcontext[i]` that `main` fills for worker `i`. -/
def worker_context_of (opts : Options) (env : MainEnv) (i : Nat) : WorkerContext :=
  { mgmem_handle := env.map_handle,
    mgmem_offset := (i * opts.segment_sz) % 2 ^ 64,
    src_buffer := env.src_buffer + (i * opts.segment_sz) % 2 ^ 64,
    dst_buffer := env.dst_buffer + (i * opts.segment_sz) % 2 ^ 64,
    dev_buffer := env.dev_buffer + (i * opts.segment_sz) % 2 ^ 64 }

/-- The thread that `pthread_create` starts for worker `i`, as far as it gets
with the values `fetched` that its fetch-adds return; a thread that
`pthread_create` failed to start makes no call. -/
def run_worker (opts : Options) (env : MainEnv) (g : TestGlobals) (i : Nat)
    (fetched : List (Nat × IterEnv)) : List CEvent × WorkerOutcome :=
  if env.pthread_create_rc i ≠ 0 then ([], .killed)
  else if opts.test_by_vfs then
    exec_test_by_vfs g (worker_context_of opts env i) (env.worker i).ctx_rc fetched
  else
    exec_test_by_strom g (worker_context_of opts env i) (env.worker i).ctx_rc fetched
      (List.replicate (opts.segment_sz / BLCKSZ) 0)

/-- One worker of the pool: the values its fetch-adds have returned so far,
each with the environment of the iteration it then started, and the
environments of the iterations it has not started yet. -/
structure PoolThread where
  fetched : List (Nat × IterEnv)
  rest : List IterEnv

/-- The threads of `main` while they run: the shared counter `curr_fpos` and
the workers, in the order of their creation. -/
structure PoolState where
  curr_fpos : Nat
  threads : List PoolThread

/-- Worker `i` makes the next `__atomic_fetch_add(&curr_fpos, segment_sz,
__ATOMIC_SEQ_CST)`: the call returns the value of the `unsigned long` counter
and adds `segment_sz` to it. A worker makes a fetch-add only while it is in its
loop, between two iterations; an entry of the schedule that names a worker
that does not exist, has stopped, or has no further iteration described,
changes nothing. -/
def pool_turn (opts : Options) (env : MainEnv) (g : TestGlobals) (s : PoolState) (i : Nat) :
    PoolState :=
  match s.threads[i]? with
  | none => s
  | some t =>
    match t.rest with
    | [] => s
    | e :: es =>
      if (run_worker opts env g i t.fetched).2 = .running then
        { curr_fpos := (s.curr_fpos + g.segment_sz) % 2 ^ 64,
          threads := s.threads.set i { fetched := t.fetched ++ [(s.curr_fpos, e)], rest := es } }
      else s

/-- The run of `n` workers from `curr_fpos = 0`, their fetch-adds taking
effect in the order `env.schedule`. -/
def pool_run (opts : Options) (env : MainEnv) (g : TestGlobals) (n : Nat) : PoolState :=
  env.schedule.foldl (pool_turn opts env g)
    { curr_fpos := 0,
      threads := (List.range n).map (fun i => { fetched := [], rest := (env.worker i).iters }) }

/-- The trace and outcome of every worker of the pool. -/
def pool_workers (opts : Options) (env : MainEnv) (g : TestGlobals) (s : PoolState) :
    List (List CEvent × WorkerOutcome) :=
  (List.range s.threads.length).map
    (fun i => run_worker opts env g i
      (match s.threads[i]? with
       | some t => t.fetched
       | none => []))

/-- How the program stops once its workers have stopped: the first worker
that called `exit` or `abort` decides; a worker that was stopped from outside
or whose run is only partly described leaves the end of the program open
(`running`) unless a later worker decides it; otherwise `main` returns 0. -/
def join_workers : List (List CEvent × WorkerOutcome) → ProgOutcome
  | [] => .returned 0
  | (_, .exited status) :: _ => .exited status
  | (_, .aborted) :: _ => .aborted
  | (_, .killed) :: rest =>
    match join_workers rest with
    | .returned _ => .running
    | o => o
  | (_, .running) :: rest =>
    match join_workers rest with
    | .returned _ => .running
    | o => o
  | (_, .returned) :: rest => join_workers rest

/-- The size `offsetof(worker_context, chunk_ids[segment_sz / BLCKSZ])` of a
worker context: with 8-byte pointers and `long` the array `chunk_ids` starts
at byte 80 (six 8-byte fields and four `long` counters come first), and each
of its cells takes 4 bytes. -/
def worker_context_size (segment_sz : Nat) : Nat := 80 + 4 * (segment_sz / BLCKSZ)

/-- Whether a `calloc(nmemb, size)` returns memory: `ok` is the answer of the
allocator to a request it could serve, and no request for more than
`mem_bytes` bytes can be served. -/
def calloc_succeeds (env : MainEnv) (ok : Bool) (nmemb size : Nat) : Bool :=
  ok && decide (nmemb * size ≤ env.mem_bytes)

/-- The number of workers the set-up loop of `main` creates: none when the
unchecked `calloc` of the `wcontext` array has returned `NULL` (the first
`wcontext[i] = ...` writes through the null pointer), otherwise every worker
before the first one whose unchecked `calloc` returns `NULL` (the store to
`wcontext[i]->mgmem_handle` writes through it). -/
def created_workers (opts : Options) (env : MainEnv) : Nat :=
  if calloc_succeeds env env.calloc_array_ok (opts.nr_segments % 2 ^ 64).toNat
      (worker_context_size opts.segment_sz) then
    ((List.range opts.nr_segments.toNat).find?
      (fun i => !(calloc_succeeds env (env.calloc_worker_ok i) 1
        (worker_context_size opts.segment_sz)))).getD opts.nr_segments.toNat
  else 0

/-- Whether the set-up and join loops of `main` run into undefined behaviour:
a write through the `NULL` of an unchecked `calloc`, or the `pthread_join` on
the zeroed `thread` field of a worker that `pthread_create` failed to start. -/
def setup_crashes (opts : Options) (env : MainEnv) : Bool :=
  decide (created_workers opts env < opts.nr_segments.toNat)
    || (List.range (created_workers opts env)).any (fun i => decide (env.pthread_create_rc i ≠ 0))

/-- The part of `main` after `ioctl_check_file` has returned: CUDA set-up,
MAP_GPU_MEMORY, creation of the workers, their run and the join. -/
def main_after_check (opts : Options) (env : MainEnv) (file_desc : Int) (filesize : Nat) :
    MainResult :=
  let buffer_size := (opts.segment_sz * (opts.nr_segments % 2 ^ 64).toNat) % 2 ^ 64
  if env.cuInit_rc ≠ 0 then
    { trace := [.cuda "cuInit" env.cuInit_rc], workers := [], outcome := .exited 1 }
  else
    let dev := find_device opts env
    match dev.2 with
    | some o => { trace := .cuda "cuInit" 0 :: dev.1, workers := [], outcome := o }
    | none =>
      let t1 := .cuda "cuInit" 0 :: dev.1
      if env.ctx_rc ≠ 0 then
        { trace := t1 ++ [.cuda "cuCtxCreate" env.ctx_rc], workers := [],
          outcome := .exited 1 }
      else if env.alloc_rc ≠ 0 then
        { trace := t1 ++ [.cuda "cuCtxCreate" 0, .cuda "cuMemAlloc" env.alloc_rc],
          workers := [], outcome := .exited 1 }
      else if env.host_src_rc ≠ 0 then
        { trace := t1 ++ [.cuda "cuCtxCreate" 0, .cuda "cuMemAlloc" 0,
            .cuda "cuMemHostAlloc" env.host_src_rc],
          workers := [], outcome := .exited 1 }
      else if env.host_dst_rc ≠ 0 then
        { trace := t1 ++ [.cuda "cuCtxCreate" 0, .cuda "cuMemAlloc" 0,
            .cuda "cuMemHostAlloc" 0, .cuda "cuMemHostAlloc" env.host_dst_rc],
          workers := [], outcome := .exited 1 }
      else
        let t2 := t1 ++ [.cuda "cuCtxCreate" 0, .cuda "cuMemAlloc" 0,
          .cuda "cuMemHostAlloc" 0, .cuda "cuMemHostAlloc" 0,
          .map_gpu_memory env.dev_buffer buffer_size env.map_retval env.map_handle]
        if env.map_retval ≠ 0 then { trace := t2, workers := [], outcome := .exited 1 }
        else if calloc_succeeds env env.calloc_ok (opts.nr_segments % 2 ^ 64).toNat 8
            = false then
          { trace := t2, workers := [], outcome := .exited 1 }
        else
          let g : TestGlobals :=
            { segment_sz := opts.segment_sz, filesize := filesize, file_desc := file_desc,
              enable_checks := opts.enable_checks, cmd_bits := env.cmd_bits }
          let ws := pool_workers opts env g (pool_run opts env g (created_workers opts env))
          { trace := t2, workers := ws,
            outcome := if setup_crashes opts env then .undefined else join_workers ws }

/-- Function `main` of ssd2gpu_test.c, from the end of the `getopt` loop on. -/
def main (opts : Options) (env : MainEnv) : MainResult :=
  if opts.usage then { trace := [], workers := [], outcome := .exited 1 }
  else if opts.print_mapping then
    let r := ioctl_print_gpu_memory env.print env.fuel env.errno
    { trace := [.print_gpu_memory r.1], workers := [], outcome := r.2 }
  else if opts.has_filename = false then { trace := [], workers := [], outcome := .exited 1 }
  else if opts.vfs_io_size ≠ 0 ∧ opts.segment_sz % opts.vfs_io_size ≠ 0 then
    { trace := [], workers := [], outcome := .returned 1 }
  else if env.open_fd < 0 then
    { trace := [.open env.open_fd], workers := [], outcome := .returned 1 }
  else if env.fstat_rc ≠ 0 then
    { trace := [.open env.open_fd, .fstat env.open_fd env.fstat_rc], workers := [],
      outcome := .returned 1 }
  else if opts.segment_sz = 0 then
    { trace := [.open env.open_fd, .fstat env.open_fd 0], workers := [],
      outcome := .undefined }
  else
    let filesize := ((env.st_size / opts.segment_sz) * opts.segment_sz) % 2 ^ 64
    if filesize = 0 then
      { trace := [.open env.open_fd, .fstat env.open_fd 0], workers := [],
        outcome := .returned 1 }
    else if env.check_rc ≠ 0 then
      { trace := [.open env.open_fd, .fstat env.open_fd 0,
          .check_file env.open_fd env.check_rc],
        workers := [], outcome := .exited 1 }
    else
      let r := main_after_check opts env env.open_fd filesize
      { trace := .open env.open_fd :: .fstat env.open_fd 0 :: .check_file env.open_fd 0
          :: r.trace,
        workers := r.workers, outcome := r.outcome }

/-- The event is a CHECK_FILE command. -/
def MEvent.is_check_file : MEvent → Bool
  | .check_file _ _ => true
  | _ => false

/-- The event is a command sent to the driver by a worker: MEMCPY_SSD2GPU or
MEMCPY_WAIT. -/
def CEvent.is_strom_command : CEvent → Bool
  | .memcpy_ssd2gpu _ _ _ => true
  | .memcpy_wait _ _ => true
  | _ => false

/-- An environment of `main` in which the file has 3 MiB, every call
succeeds except CHECK_FILE, which returns -1, the process can obtain 1 TiB of
memory, and no worker gets anything to do. -/
def env_check_fails : MainEnv :=
  { open_fd := 3, fstat_rc := 0, st_size := 3145728, check_rc := -1,
    cuInit_rc := 0, count_rc := 0, count := 1, get_rc := fun _ => 0, name_rc := fun _ => 0,
    tesla_or_quadro := fun _ => true, ctx_rc := 0, alloc_rc := 0, dev_buffer := 4194304,
    host_src_rc := 0, src_buffer := 1048576, host_dst_rc := 0, dst_buffer := 2097152,
    map_retval := 0, map_handle := 1, calloc_ok := true, calloc_array_ok := true,
    calloc_worker_ok := fun _ => true, pthread_create_rc := fun _ => 0,
    mem_bytes := 1099511627776, schedule := [0, 1, 0, 1, 0, 1],
    worker := fun _ => { ctx_rc := 0, iters := [] },
    print := { ioctl_list := fun _ _ => { rv := 0, set_errno := none, nitems := 0 },
               list_handles := fun _ => [], malloc_list_ok := fun _ => true,
               ioctl_info := fun _ _ _ => { rv := 0, set_errno := none, nitems := 0 },
               malloc_info_ok := fun _ => true },
    fuel := 10, errno := 0, cmd_bits := 32 }

/-- The options `-n 2 -s 1 <filename>`: two workers, 1 MiB segments. -/
def opts_two_workers : Options :=
  { usage := false, device_index := -1, nr_segments := 2, segment_sz := 1048576,
    enable_checks := false, print_mapping := false, test_by_vfs := false,
    vfs_io_size := 0, has_filename := true }

/-- The environment `env_check_fails` with a CHECK_FILE that returns 0 and two
workers whose iterations all succeed; their fetch-adds take turns. -/
def env_check_ok : MainEnv :=
  { env_check_fails with
    check_rc := 0,
    worker := fun _ => { ctx_rc := 0, iters := [env_all_ok, env_all_ok, env_all_ok] } }

/-! ## utils/ssd2gpu_test.c : the offsets the workers obtain -/

/-- The iteration `env_all_ok` in a process that another thread ends when the
worker has made two calls after its fetch-add: the submit and `cuMemcpyHtoD`. -/
def env_killed_before_wait : IterEnv :=
  { env_all_ok with cut := some 2 }

theorem symbol_name_injective (x y : ExtraSymbol) (h : x.symbol_name = y.symbol_name) :
    x = y := by
  cases x <;> cases y <;> first | rfl | (exact absurd h (by decide))

theorem held_set_none (s : KsymState) (x : ExtraSymbol) (a m : Nat) (t : List KEvent)
    (hx : (s.slot x).mod = none) :
    held { slot := set_slot s.slot x { p := a, mod := none }, trace := t } m = held s m := by
  cases x <;>
    simp [held, all_symbols, optional_symbols, List.countP_cons, set_slot] at hx ⊢ <;>
    simp [hx]

theorem held_set_some (s : KsymState) (x : ExtraSymbol) (a m1 m : Nat) (t : List KEvent)
    (hx : (s.slot x).mod = none) :
    held { slot := set_slot s.slot x { p := a, mod := some m1 }, trace := t } m
      = held s m + (if m1 = m then 1 else 0) := by
  cases x <;>
    simp [held, all_symbols, optional_symbols, List.countP_cons, set_slot] at hx ⊢ <;>
    simp [hx] <;> omega

theorem set_slot_self (f : ExtraSymbol → ExtraSlot) (x : ExtraSymbol) :
    set_slot f x (f x) = f := by
  funext y
  by_cases hy : y = x <;> simp [set_slot, hy]

theorem set_slot_same (f : ExtraSymbol → ExtraSlot) (x : ExtraSymbol) (v : ExtraSlot) :
    set_slot f x v x = v := by
  simp [set_slot]

theorem set_slot_other (f : ExtraSymbol → ExtraSlot) (x y : ExtraSymbol) (v : ExtraSlot)
    (h : y ≠ x) : set_slot f x v y = f y := by
  simp [set_slot, h]

theorem inv_init_state : KsymInv ksym_init_state := by
  constructor <;> intros <;> simp [ksym_init_state, symbol_gets, module_gets, held]

/-- A lookup that stores into the statics of a symbol whose pointer is still
`NULL` keeps the accounting invariant. -/
theorem inv_lookup_step (k : KernelSymtab) (x : ExtraSymbol) (s : KsymState) (b : Bool)
    (h : KsymInv s) (hp : (s.slot x).p = 0) :
    KsymInv
      { slot := set_slot s.slot x (__strom_lookup_extra_symbol k x.symbol_name (s.slot x) b).2.1,
        trace := s.trace ++ (__strom_lookup_extra_symbol k x.symbol_name (s.slot x) b).2.2 } := by
  have hm := h.null_mod x hp
  have hg := h.per_symbol x
  rw [hm] at hg
  simp only [Option.isSome_none, Bool.false_eq_true, if_false] at hg
  unfold __strom_lookup_extra_symbol
  by_cases ha : k.kallsyms_lookup_name x.symbol_name = 0
  · simp only [ha, if_true, set_slot_self]
    constructor
    · exact h.null_mod
    · intro y
      simpa [symbol_gets, List.countP_append, KEvent.is_get_for] using h.per_symbol y
    · intro m
      simpa [module_gets, List.countP_append, KEvent.is_get_on, held] using h.per_module m
    · intro name mod hmem
      simp only [List.mem_append, List.mem_singleton] at hmem
      rcases hmem with hmem | hmem
      · exact h.no_put name mod hmem
      · cases hmem
  · simp only [ha, if_false]
    cases hmt : k.module_text_address (k.kallsyms_lookup_name x.symbol_name) with
    | none =>
      constructor
      · intro y hy
        by_cases hyx : y = x
        · subst hyx; simp [set_slot] at hy; exact absurd hy ha
        · simp only [set_slot_other _ _ _ _ hyx] at hy ⊢; exact h.null_mod y hy
      · intro y
        by_cases hyx : y = x
        · subst hyx
          simp [set_slot, symbol_gets, List.countP_append, KEvent.is_get_for]
          simpa [symbol_gets] using hg
        · simp only [set_slot_other _ _ _ _ hyx]
          simpa [symbol_gets, List.countP_append, KEvent.is_get_for] using h.per_symbol y
      · intro m
        rw [held_set_none s x _ m _ hm]
        simpa [module_gets, List.countP_append, KEvent.is_get_on] using h.per_module m
      · intro name mod hmem
        simp only [List.mem_append, List.mem_singleton] at hmem
        rcases hmem with hmem | hmem
        · exact h.no_put name mod hmem
        · cases hmem
    | some m1 =>
      constructor
      · intro y hy
        by_cases hyx : y = x
        · subst hyx; simp [set_slot] at hy; exact absurd hy ha
        · simp only [set_slot_other _ _ _ _ hyx] at hy ⊢; exact h.null_mod y hy
      · intro y
        by_cases hyx : y = x
        · subst hyx
          simp [set_slot, symbol_gets, List.countP_append, KEvent.is_get_for,
            List.countP_cons]
          simpa [symbol_gets] using hg
        · have hne : ¬ x.symbol_name = y.symbol_name := fun e =>
            hyx (symbol_name_injective _ _ e).symm
          simp only [set_slot_other _ _ _ _ hyx]
          simpa [symbol_gets, List.countP_append, KEvent.is_get_for, List.countP_cons, hne]
            using h.per_symbol y
      · intro m
        rw [held_set_some s x _ m1 m _ hm, ← h.per_module m]
        by_cases hmm : m1 = m <;>
          simp [module_gets, List.countP_append, KEvent.is_get_on, List.countP_cons, hmm]
      · intro name mod hmem
        simp only [List.mem_append, List.mem_cons, List.mem_singleton] at hmem
        rcases hmem with hmem | hmem | hmem | hmem
        · exact h.no_put name mod hmem
        · cases hmem
        · cases hmem
        · cases hmem

theorem inv_optional (k : KernelSymtab) (x : ExtraSymbol) (s : KsymState)
    (h : KsymInv s) : KsymInv (LOOKUP_OPTIONAL_EXTRA_SYMBOL k x s) := by
  unfold LOOKUP_OPTIONAL_EXTRA_SYMBOL
  by_cases hp : (s.slot x).p = 0
  · simp only [hp, if_true]
    exact inv_lookup_step k x s true h hp
  · simp only [hp, if_false]
    exact h

theorem inv_update (k : KernelSymtab) (nb action data : Nat) (s : KsymState)
    (h : KsymInv s) : KsymInv (strom_update_extra_symbols k nb action data s).2 := by
  unfold strom_update_extra_symbols
  exact inv_optional _ _ _ (inv_optional _ _ _ (inv_optional _ _ _
    (inv_optional _ _ _ (inv_optional _ _ _ h))))

theorem inv_register (s : KsymState) (rc : Int) (h : KsymInv s) :
    KsymInv { s with trace := s.trace ++ [KEvent.register_module_notifier rc] } := by
  constructor
  · exact h.null_mod
  · intro y
    simpa [symbol_gets, List.countP_append, KEvent.is_get_for] using h.per_symbol y
  · intro m
    simpa [module_gets, List.countP_append, KEvent.is_get_on, held] using h.per_module m
  · intro name mod hmem
    simp only [List.mem_append, List.mem_singleton] at hmem
    rcases hmem with hmem | hmem
    · exact h.no_put name mod hmem
    · cases hmem

theorem inv_mandatory (k : KernelSymtab) :
    KsymInv (LOOKUP_MANDATORY_EXTRA_SYMBOL k .nvme_alloc_request ksym_init_state).2 :=
  inv_lookup_step k .nvme_alloc_request ksym_init_state false inv_init_state rfl

theorem inv_init (u : Bool) (k : KernelSymtab) (rc : Int)
    (h : (strom_init_extra_symbols u k rc ksym_init_state).1 = 0) :
    KsymInv (strom_init_extra_symbols u k rc ksym_init_state).2 := by
  unfold strom_init_extra_symbols at h ⊢
  cases u with
  | false =>
    by_cases hrc : rc = 0
    · subst hrc
      simpa using inv_register _ 0 inv_init_state
    · simp [hrc] at h
  | true =>
    by_cases hl : (LOOKUP_MANDATORY_EXTRA_SYMBOL k .nvme_alloc_request ksym_init_state).1 = 0
    · by_cases hrc : rc = 0
      · subst hrc
        simpa [hl] using inv_register _ 0 (inv_mandatory k)
      · simp [hl, hrc] at h
    · simp [hl] at h

theorem inv_reachable (u : Bool) (s : KsymState) (h : Reachable u s) : KsymInv s := by
  induction h with
  | init k rc h0 => exact inv_init u k rc h0
  | update k nb action data s _ ih => exact inv_update k nb action data s ih

theorem optional_slot (k : KernelSymtab) (y : ExtraSymbol) (s : KsymState) (x : ExtraSymbol) :
    (LOOKUP_OPTIONAL_EXTRA_SYMBOL k y s).slot x =
      if x = y then
        (if (s.slot y).p = 0 then
          (__strom_lookup_extra_symbol k y.symbol_name (s.slot y) true).2.1
        else s.slot y)
      else s.slot x := by
  unfold LOOKUP_OPTIONAL_EXTRA_SYMBOL
  by_cases hp : (s.slot y).p = 0 <;> by_cases hx : x = y <;> simp [hp, hx, set_slot]

/-- What one notifier call does to the statics of an optional symbol. -/
theorem update_slot (k : KernelSymtab) (nb action data : Nat) (s : KsymState)
    (x : ExtraSymbol) (hx : x ∈ optional_symbols) :
    (strom_update_extra_symbols k nb action data s).2.slot x =
      if (s.slot x).p = 0 then
        (__strom_lookup_extra_symbol k x.symbol_name (s.slot x) true).2.1
      else s.slot x := by
  unfold strom_update_extra_symbols
  simp only [optional_slot]
  cases x <;> simp [optional_symbols] at hx ⊢

theorem mod_none_of_unresolved_nvme (s : KsymState) (h : Reachable false s) :
    (s.slot .nvme_alloc_request).mod = none := by
  induction h with
  | init k rc h0 =>
    unfold strom_init_extra_symbols
    by_cases hrc : rc = 0 <;>
      simp [hrc, ksym_init_state, strom_put_all_extra_modules, put_module]
  | update k nb action data s _ ih =>
    unfold strom_update_extra_symbols
    simpa [optional_slot] using ih

theorem state_ext4_loaded_reachable : Reachable false state_ext4_loaded :=
  Reachable.update symtab_ext4 0 1 0 _ (Reachable.init symtab_ext4 0 (by decide))

theorem is_put_on_module_put (m : Nat) (n : String) (mo : Option Nat) :
    KEvent.is_put_on m (KEvent.module_put n mo) = (mo == some m) := by
  cases mo <;> simp [KEvent.is_put_on]

theorem is_put_for_module_put (name n : String) (mo : Option Nat) :
    KEvent.is_put_for name (KEvent.module_put n mo) = (n == name && mo.isSome) := by
  cases mo <;> simp [KEvent.is_put_for]

theorem is_put_on_unregister (m : Nat) :
    KEvent.is_put_on m KEvent.unregister_module_notifier = false := rfl

theorem is_put_for_unregister (name : String) :
    KEvent.is_put_for name KEvent.unregister_module_notifier = false := rfl

theorem module_puts_zero (s : KsymState) (h : KsymInv s) (m : Nat) :
    module_puts m s.trace = 0 := by
  unfold module_puts
  rw [List.countP_eq_zero]
  intro e he hp
  cases e with
  | module_put n mo => exact h.no_put n mo he
  | _ => simp [KEvent.is_put_on] at hp

theorem symbol_puts_zero (s : KsymState) (h : KsymInv s) (name : String) :
    symbol_puts name s.trace = 0 := by
  unfold symbol_puts
  rw [List.countP_eq_zero]
  intro e he hp
  cases e with
  | module_put n mo => exact h.no_put n mo he
  | _ => simp [KEvent.is_put_for] at hp

theorem lookup_stores_address (k : KernelSymtab) (symbol_name : String) (cur : ExtraSlot)
    (b : Bool) (ha : k.kallsyms_lookup_name symbol_name ≠ 0) :
    (__strom_lookup_extra_symbol k symbol_name cur b).2.1.p
        = k.kallsyms_lookup_name symbol_name
    ∧ (__strom_lookup_extra_symbol k symbol_name cur b).2.1.mod
        = k.module_text_address (k.kallsyms_lookup_name symbol_name) := by
  unfold __strom_lookup_extra_symbol
  cases hmt : k.module_text_address (k.kallsyms_lookup_name symbol_name) <;>
    simp [ha, hmt]

/-! ## Theorems : extra_ksyms.c -/

/-- C1: in every state reachable from a successful `strom_init_extra_symbols`
by notifier calls, an optional symbol resolved to a loadable module has had
exactly one reference acquired on its behalf (and none released), an
unresolved one has a null module and no reference, the count never exceeds
one, and a notifier call neither overwrites a stored module pointer nor
acquires a further reference for that symbol. -/
theorem optional_symbol_refcount_invariant (u : Bool) (s : KsymState)
    (hr : Reachable u s) (x : ExtraSymbol) (hx : x ∈ optional_symbols) :
    (∀ m, (s.slot x).p ≠ 0 → (s.slot x).mod = some m →
        symbol_gets x.symbol_name s.trace = 1 ∧ symbol_puts x.symbol_name s.trace = 0)
    ∧ ((s.slot x).p = 0 →
        (s.slot x).mod = none ∧ symbol_gets x.symbol_name s.trace = 0)
    ∧ symbol_gets x.symbol_name s.trace ≤ 1
    ∧ (∀ (k : KernelSymtab) (nb action data : Nat), (s.slot x).mod ≠ none →
        (strom_update_extra_symbols k nb action data s).2.slot x = s.slot x
        ∧ symbol_gets x.symbol_name (strom_update_extra_symbols k nb action data s).2.trace
            = symbol_gets x.symbol_name s.trace) := by
  have hi := inv_reachable u s hr
  have hput : symbol_puts x.symbol_name s.trace = 0 := by
    unfold symbol_puts
    rw [List.countP_eq_zero]
    intro e he hp
    cases e with
    | module_put n mo => exact hi.no_put n mo he
    | _ => simp [KEvent.is_put_for] at hp
  refine ⟨?_, ?_, ?_, ?_⟩
  · intro m _ hm
    have := hi.per_symbol x
    rw [hm] at this
    exact ⟨by simpa using this, hput⟩
  · intro hp
    have hm := hi.null_mod x hp
    have := hi.per_symbol x
    rw [hm] at this
    exact ⟨hm, by simpa using this⟩
  · have := hi.per_symbol x
    split at this <;> omega
  · intro k nb action data hm
    have hp : (s.slot x).p ≠ 0 := fun h0 => hm (hi.null_mod x h0)
    have hslot : (strom_update_extra_symbols k nb action data s).2.slot x = s.slot x := by
      rw [update_slot k nb action data s x hx]
      simp [hp]
    refine ⟨hslot, ?_⟩
    have h1 := (inv_update k nb action data s hi).per_symbol x
    have h2 := hi.per_symbol x
    rw [hslot] at h1
    rw [h1, h2]

/-- C1 at `state_ext4_loaded`: `ext4_get_block` is resolved and holds one
reference, `xfs_get_blocks` is unresolved and holds none. -/
theorem optional_symbol_refcount_invariant_witness :
    Reachable false state_ext4_loaded
    ∧ symbol_gets "ext4_get_block" state_ext4_loaded.trace = 1
    ∧ symbol_gets "xfs_get_blocks" state_ext4_loaded.trace = 0 :=
  ⟨state_ext4_loaded_reachable,
   ((optional_symbol_refcount_invariant false state_ext4_loaded
      state_ext4_loaded_reachable .ext4_get_block (by decide)).1 7
        (by decide) (by decide)).1,
   ((optional_symbol_refcount_invariant false state_ext4_loaded
      state_ext4_loaded_reachable .xfs_get_blocks (by decide)).2.1 (by decide)).2⟩

/-- C2: when `strom_init_extra_symbols` returns a non-zero code from the
load-time state, every module has been released exactly as often as it was
acquired during the call, and the code is `-ENOENT` when the mandatory lookup
missed (the notifier is then never registered) and the code returned by
`register_module_notifier` otherwise. -/
theorem init_all_or_nothing (u : Bool) (k : KernelSymtab) (rc : Int)
    (hfail : (strom_init_extra_symbols u k rc ksym_init_state).1 ≠ 0) :
    (∀ m, module_puts m (strom_init_extra_symbols u k rc ksym_init_state).2.trace
        = module_gets m (strom_init_extra_symbols u k rc ksym_init_state).2.trace)
    ∧ ((u = true ∧ k.kallsyms_lookup_name "nvme_alloc_request" = 0) →
        (strom_init_extra_symbols u k rc ksym_init_state).1 = -ENOENT
        ∧ KEvent.register_module_notifier rc ∉
            (strom_init_extra_symbols u k rc ksym_init_state).2.trace)
    ∧ (¬ (u = true ∧ k.kallsyms_lookup_name "nvme_alloc_request" = 0) →
        (strom_init_extra_symbols u k rc ksym_init_state).1 = rc
        ∧ KEvent.register_module_notifier rc ∈
            (strom_init_extra_symbols u k rc ksym_init_state).2.trace) := by
  cases u with
  | false =>
    have hrc : rc ≠ 0 := by
      intro h0
      apply hfail
      simp [strom_init_extra_symbols, h0]
    simp [strom_init_extra_symbols, hrc, strom_put_all_extra_modules, put_module,
      ksym_init_state, module_puts, module_gets, List.countP_cons, KEvent.is_put_on,
      KEvent.is_get_on]
  | true =>
    by_cases ha : k.kallsyms_lookup_name "nvme_alloc_request" = 0
    · simp [strom_init_extra_symbols, LOOKUP_MANDATORY_EXTRA_SYMBOL,
        __strom_lookup_extra_symbol, ExtraSymbol.symbol_name, ha, ENOENT,
        strom_put_all_extra_modules, put_module, ksym_init_state, set_slot,
        module_puts, module_gets, List.countP_cons, KEvent.is_put_on, KEvent.is_get_on]
    · have hrc : rc ≠ 0 := by
        intro h0
        apply hfail
        cases hmt : k.module_text_address (k.kallsyms_lookup_name "nvme_alloc_request") <;>
          simp [strom_init_extra_symbols, LOOKUP_MANDATORY_EXTRA_SYMBOL,
            __strom_lookup_extra_symbol, ExtraSymbol.symbol_name, ha, hmt, h0]
      cases hmt : k.module_text_address (k.kallsyms_lookup_name "nvme_alloc_request") with
      | none =>
        simp [strom_init_extra_symbols, LOOKUP_MANDATORY_EXTRA_SYMBOL,
          __strom_lookup_extra_symbol, ExtraSymbol.symbol_name, ha, hmt, hrc,
          strom_put_all_extra_modules, put_module, ksym_init_state, set_slot,
          module_puts, module_gets, List.countP_cons, KEvent.is_put_on, KEvent.is_get_on]
      | some m1 =>
        simp [strom_init_extra_symbols, LOOKUP_MANDATORY_EXTRA_SYMBOL,
          __strom_lookup_extra_symbol, ExtraSymbol.symbol_name, ha, hmt, hrc,
          strom_put_all_extra_modules, put_module, ksym_init_state, set_slot,
          module_puts, module_gets, List.countP_cons, KEvent.is_put_on, KEvent.is_get_on]

/-- C2 at a kernel whose nvme module (3) provides the mandatory symbol while
`register_module_notifier` fails with -12: the one reference taken on module
3 is given back and -12 is returned. -/
theorem init_all_or_nothing_witness :
    (strom_init_extra_symbols true symtab_nvme (-12) ksym_init_state).1 ≠ 0
    ∧ module_gets 3 (strom_init_extra_symbols true symtab_nvme (-12) ksym_init_state).2.trace = 1
    ∧ module_puts 3 (strom_init_extra_symbols true symtab_nvme (-12) ksym_init_state).2.trace
        = module_gets 3 (strom_init_extra_symbols true symtab_nvme (-12) ksym_init_state).2.trace
    ∧ (strom_init_extra_symbols true symtab_nvme (-12) ksym_init_state).1 = -12 :=
  ⟨by decide, by decide,
   (init_all_or_nothing true symtab_nvme (-12) (by decide)).1 3,
   ((init_all_or_nothing true symtab_nvme (-12) (by decide)).2.2 (by decide)).1⟩

/-- C3: from every state reachable after a successful init,
`strom_exit_extra_symbols` unregisters the notifier and leaves every module
with as many `module_put` as `__module_get` calls; per symbol it releases one
reference when the module pointer is set and none otherwise. -/
theorem exit_releases_every_reference (u : Bool) (s : KsymState) (hr : Reachable u s) :
    KEvent.unregister_module_notifier ∈ (strom_exit_extra_symbols u s).trace
    ∧ (∀ m, module_puts m (strom_exit_extra_symbols u s).trace
          = module_gets m (strom_exit_extra_symbols u s).trace)
    ∧ (∀ x : ExtraSymbol,
          symbol_puts x.symbol_name (strom_exit_extra_symbols u s).trace
            = symbol_gets x.symbol_name (strom_exit_extra_symbols u s).trace
          ∧ symbol_puts x.symbol_name (strom_exit_extra_symbols u s).trace
            = if (s.slot x).mod.isSome then 1 else 0) := by
  have hi := inv_reachable u s hr
  refine ⟨?_, ?_, ?_⟩
  · cases u <;>
      simp [strom_exit_extra_symbols, strom_put_all_extra_modules, put_module]
  · intro m
    have hg := hi.per_module m
    have hp := module_puts_zero s hi m
    unfold module_puts at hp
    unfold module_gets at hg
    cases u with
    | true =>
      simp [strom_exit_extra_symbols, strom_put_all_extra_modules, put_module,
        module_puts, module_gets, List.countP_append, List.countP_cons,
        is_put_on_module_put, is_put_on_unregister, KEvent.is_get_on, hp, hg, held,
        all_symbols, optional_symbols]
    | false =>
      have hn := mod_none_of_unresolved_nvme s hr
      simp [strom_exit_extra_symbols, strom_put_all_extra_modules, put_module,
        module_puts, module_gets, List.countP_append, List.countP_cons,
        is_put_on_module_put, is_put_on_unregister, KEvent.is_get_on, hp, hg, held,
        all_symbols, optional_symbols, hn]
  · intro x
    have hg := hi.per_symbol x
    have hp := symbol_puts_zero s hi x.symbol_name
    unfold symbol_puts at hp
    unfold symbol_gets at hg
    have key : symbol_puts x.symbol_name (strom_exit_extra_symbols u s).trace
        = if (s.slot x).mod.isSome then 1 else 0 := by
      cases u with
      | true =>
        cases x <;>
          simp [strom_exit_extra_symbols, strom_put_all_extra_modules, put_module,
            symbol_puts, List.countP_append, List.countP_cons, is_put_for_module_put,
            is_put_for_unregister, hp, ExtraSymbol.symbol_name] at hp ⊢ <;>
          exact hp
      | false =>
        have hn := mod_none_of_unresolved_nvme s hr
        cases x <;>
          simp [strom_exit_extra_symbols, strom_put_all_extra_modules, put_module,
            symbol_puts, List.countP_append, List.countP_cons, is_put_for_module_put,
            is_put_for_unregister, hp, ExtraSymbol.symbol_name, hn] at hp ⊢ <;>
          exact hp
    refine ⟨?_, key⟩
    rw [key, ← hg]
    cases u <;>
      simp [strom_exit_extra_symbols, strom_put_all_extra_modules, put_module,
        symbol_gets, List.countP_append, List.countP_cons, KEvent.is_get_for]

/-- C3 at `state_ext4_loaded`: teardown gives back the one reference held on
module 7 (ext4) and unregisters the notifier. -/
theorem exit_releases_every_reference_witness :
    Reachable false state_ext4_loaded
    ∧ KEvent.unregister_module_notifier
        ∈ (strom_exit_extra_symbols false state_ext4_loaded).trace
    ∧ module_gets 7 (strom_exit_extra_symbols false state_ext4_loaded).trace = 1
    ∧ module_puts 7 (strom_exit_extra_symbols false state_ext4_loaded).trace
        = module_gets 7 (strom_exit_extra_symbols false state_ext4_loaded).trace :=
  ⟨state_ext4_loaded_reachable,
   (exit_releases_every_reference false state_ext4_loaded state_ext4_loaded_reachable).1,
   by decide,
   (exit_releases_every_reference false state_ext4_loaded state_ext4_loaded_reachable).2.1 7⟩

/-- C4: when `kallsyms_lookup_name` gives a non-zero address,
`__strom_lookup_extra_symbol` returns 0, stores that address and the module
found by `__module_text_address` (or `NULL`), calls `__module_get` exactly
once on that module when there is one and never otherwise, releases nothing,
and does all of this identically for both values of `is_optional`. -/
theorem lookup_success (k : KernelSymtab) (symbol_name : String) (cur : ExtraSlot)
    (is_optional : Bool) (ha : k.kallsyms_lookup_name symbol_name ≠ 0) :
    (__strom_lookup_extra_symbol k symbol_name cur is_optional).1 = 0
    ∧ (__strom_lookup_extra_symbol k symbol_name cur is_optional).2.1.p
        = k.kallsyms_lookup_name symbol_name
    ∧ (__strom_lookup_extra_symbol k symbol_name cur is_optional).2.1.mod
        = k.module_text_address (k.kallsyms_lookup_name symbol_name)
    ∧ (∀ m, module_gets m (__strom_lookup_extra_symbol k symbol_name cur is_optional).2.2
        = if k.module_text_address (k.kallsyms_lookup_name symbol_name) = some m
          then 1 else 0)
    ∧ (∀ m, module_puts m (__strom_lookup_extra_symbol k symbol_name cur is_optional).2.2 = 0)
    ∧ __strom_lookup_extra_symbol k symbol_name cur is_optional
        = __strom_lookup_extra_symbol k symbol_name cur (!is_optional) := by
  unfold __strom_lookup_extra_symbol
  cases hmt : k.module_text_address (k.kallsyms_lookup_name symbol_name) with
  | none =>
    simp [ha, hmt, module_gets, module_puts, KEvent.is_get_on, KEvent.is_put_on]
  | some m1 =>
    simp [ha, hmt, module_gets, module_puts, KEvent.is_get_on, KEvent.is_put_on,
      List.countP_cons]

/-- C4 at `symtab_ext4`: looking up `ext4_get_block` returns 0, stores address
4096 and module 7, and takes one reference on module 7. -/
theorem lookup_success_witness :
    symtab_ext4.kallsyms_lookup_name "ext4_get_block" ≠ 0
    ∧ (__strom_lookup_extra_symbol symtab_ext4 "ext4_get_block" ⟨0, none⟩ true).1 = 0
    ∧ (__strom_lookup_extra_symbol symtab_ext4 "ext4_get_block" ⟨0, none⟩ true).2.1
        = ⟨4096, some 7⟩
    ∧ module_gets 7
        (__strom_lookup_extra_symbol symtab_ext4 "ext4_get_block" ⟨0, none⟩ true).2.2 = 1 :=
  ⟨by decide,
   (lookup_success symtab_ext4 "ext4_get_block" ⟨0, none⟩ true (by decide)).1,
   by decide, by decide⟩

/-- C5: when `kallsyms_lookup_name` gives 0, `__strom_lookup_extra_symbol`
returns `-ENOENT`, leaves `*symbol_addr` and `*symbol_mod` as they were and
makes no `__module_get` or `module_put` call, whatever `is_optional` is. -/
theorem lookup_miss (k : KernelSymtab) (symbol_name : String) (cur : ExtraSlot)
    (is_optional : Bool) (ha : k.kallsyms_lookup_name symbol_name = 0) :
    (__strom_lookup_extra_symbol k symbol_name cur is_optional).1 = -ENOENT
    ∧ (__strom_lookup_extra_symbol k symbol_name cur is_optional).2.1 = cur
    ∧ (∀ m, module_gets m (__strom_lookup_extra_symbol k symbol_name cur is_optional).2.2 = 0)
    ∧ (∀ m, module_puts m (__strom_lookup_extra_symbol k symbol_name cur is_optional).2.2 = 0)
    ∧ symbol_gets symbol_name
        (__strom_lookup_extra_symbol k symbol_name cur is_optional).2.2 = 0 := by
  unfold __strom_lookup_extra_symbol
  simp [ha, module_gets, module_puts, symbol_gets, KEvent.is_get_on, KEvent.is_put_on,
    KEvent.is_get_for]

/-- C5 at `symtab_ext4`: `xfs_get_blocks` is unknown there, so a lookup into
statics holding (4096, module 7) returns -2 and leaves them untouched. -/
theorem lookup_miss_witness :
    symtab_ext4.kallsyms_lookup_name "xfs_get_blocks" = 0
    ∧ (__strom_lookup_extra_symbol symtab_ext4 "xfs_get_blocks" ⟨4096, some 7⟩ false).1 = -2
    ∧ (__strom_lookup_extra_symbol symtab_ext4 "xfs_get_blocks" ⟨4096, some 7⟩ false).2.1
        = ⟨4096, some 7⟩ :=
  ⟨by decide,
   (lookup_miss symtab_ext4 "xfs_get_blocks" ⟨4096, some 7⟩ false (by decide)).1,
   (lookup_miss symtab_ext4 "xfs_get_blocks" ⟨4096, some 7⟩ false (by decide)).2.1⟩

/-- C6: each of `__nvidia_p2p_get_pages`, `__nvidia_p2p_put_pages` and
`__nvidia_p2p_free_page_table` returns `-ENOTSUPP` and calls nothing while its
function pointer is `NULL`; otherwise it makes exactly one call, to the
resolved address with its own arguments in the same order, and returns what
that call returns. -/
theorem nvidia_wrappers_check_availability (s : KsymState) (invoke : Invoke)
    (p2p_token va_space virtual_address length page_table free_callback data : Nat) :
    ((s.slot .nvidia_p2p_get_pages).p = 0 →
        __nvidia_p2p_get_pages s invoke p2p_token va_space virtual_address length
          page_table free_callback data = (-ENOTSUPP, []))
    ∧ ((s.slot .nvidia_p2p_get_pages).p ≠ 0 →
        __nvidia_p2p_get_pages s invoke p2p_token va_space virtual_address length
          page_table free_callback data
          = (invoke (s.slot .nvidia_p2p_get_pages).p
              [p2p_token, va_space, virtual_address, length, page_table, free_callback, data],
             [((s.slot .nvidia_p2p_get_pages).p,
              [p2p_token, va_space, virtual_address, length, page_table, free_callback,
               data])]))
    ∧ ((s.slot .nvidia_p2p_put_pages).p = 0 →
        __nvidia_p2p_put_pages s invoke p2p_token va_space virtual_address page_table
          = (-ENOTSUPP, []))
    ∧ ((s.slot .nvidia_p2p_put_pages).p ≠ 0 →
        __nvidia_p2p_put_pages s invoke p2p_token va_space virtual_address page_table
          = (invoke (s.slot .nvidia_p2p_put_pages).p
              [p2p_token, va_space, virtual_address, page_table],
             [((s.slot .nvidia_p2p_put_pages).p,
              [p2p_token, va_space, virtual_address, page_table])]))
    ∧ ((s.slot .nvidia_p2p_free_page_table).p = 0 →
        __nvidia_p2p_free_page_table s invoke page_table = (-ENOTSUPP, []))
    ∧ ((s.slot .nvidia_p2p_free_page_table).p ≠ 0 →
        __nvidia_p2p_free_page_table s invoke page_table
          = (invoke (s.slot .nvidia_p2p_free_page_table).p [page_table],
             [((s.slot .nvidia_p2p_free_page_table).p, [page_table])])) := by
  refine ⟨?_, ?_, ?_, ?_, ?_, ?_⟩ <;> intro h <;>
    simp [__nvidia_p2p_get_pages, __nvidia_p2p_put_pages, __nvidia_p2p_free_page_table, h]

/-- C7: a notifier call returns 0 for every action and symbol table; an
optional symbol that was unresolved and is present in the table ends up
resolved to the table address and module, one that was unresolved and is
absent is left as it was, and one that was already resolved keeps its address
and module; a freshly resolved nvidia wrapper then calls the provider instead
of answering `-ENOTSUPP` itself. -/
theorem update_resolves_late_providers (k : KernelSymtab) (nb action data : Nat)
    (s : KsymState) :
    (strom_update_extra_symbols k nb action data s).1 = 0
    ∧ (∀ x ∈ optional_symbols,
        ((s.slot x).p = 0 → k.kallsyms_lookup_name x.symbol_name ≠ 0 →
          ((strom_update_extra_symbols k nb action data s).2.slot x).p
              = k.kallsyms_lookup_name x.symbol_name
          ∧ ((strom_update_extra_symbols k nb action data s).2.slot x).mod
              = k.module_text_address (k.kallsyms_lookup_name x.symbol_name))
        ∧ ((s.slot x).p = 0 → k.kallsyms_lookup_name x.symbol_name = 0 →
          (strom_update_extra_symbols k nb action data s).2.slot x = s.slot x)
        ∧ ((s.slot x).p ≠ 0 →
          (strom_update_extra_symbols k nb action data s).2.slot x = s.slot x))
    ∧ (∀ (invoke : Invoke) (a1 a2 a3 a4 a5 a6 a7 : Nat),
        ((s.slot .nvidia_p2p_get_pages).p = 0 →
          k.kallsyms_lookup_name "nvidia_p2p_get_pages" ≠ 0 →
          __nvidia_p2p_get_pages (strom_update_extra_symbols k nb action data s).2 invoke
              a1 a2 a3 a4 a5 a6 a7
            = (invoke (k.kallsyms_lookup_name "nvidia_p2p_get_pages")
                [a1, a2, a3, a4, a5, a6, a7],
               [(k.kallsyms_lookup_name "nvidia_p2p_get_pages",
                [a1, a2, a3, a4, a5, a6, a7])]))
        ∧ ((s.slot .nvidia_p2p_put_pages).p = 0 →
          k.kallsyms_lookup_name "nvidia_p2p_put_pages" ≠ 0 →
          __nvidia_p2p_put_pages (strom_update_extra_symbols k nb action data s).2 invoke
              a1 a2 a3 a4
            = (invoke (k.kallsyms_lookup_name "nvidia_p2p_put_pages") [a1, a2, a3, a4],
               [(k.kallsyms_lookup_name "nvidia_p2p_put_pages", [a1, a2, a3, a4])]))
        ∧ ((s.slot .nvidia_p2p_free_page_table).p = 0 →
          k.kallsyms_lookup_name "nvidia_p2p_free_page_table" ≠ 0 →
          __nvidia_p2p_free_page_table (strom_update_extra_symbols k nb action data s).2
              invoke a1
            = (invoke (k.kallsyms_lookup_name "nvidia_p2p_free_page_table") [a1],
               [(k.kallsyms_lookup_name "nvidia_p2p_free_page_table", [a1])]))) := by
  have hres : ∀ x ∈ optional_symbols, (s.slot x).p = 0 →
      k.kallsyms_lookup_name x.symbol_name ≠ 0 →
      ((strom_update_extra_symbols k nb action data s).2.slot x).p
          = k.kallsyms_lookup_name x.symbol_name
      ∧ ((strom_update_extra_symbols k nb action data s).2.slot x).mod
          = k.module_text_address (k.kallsyms_lookup_name x.symbol_name) := by
    intro x hx hp ha
    rw [update_slot k nb action data s x hx]
    simp only [hp, if_true]
    exact ⟨(lookup_stores_address k x.symbol_name (s.slot x) true ha).1,
      (lookup_stores_address k x.symbol_name (s.slot x) true ha).2⟩
  refine ⟨rfl, ?_, ?_⟩
  · intro x hx
    refine ⟨hres x hx, ?_, ?_⟩
    · intro hp ha
      rw [update_slot k nb action data s x hx]
      simp [hp, __strom_lookup_extra_symbol, ha]
    · intro hp
      rw [update_slot k nb action data s x hx]
      simp [hp]
  · intro invoke a1 a2 a3 a4 a5 a6 a7
    refine ⟨?_, ?_, ?_⟩
    · intro hp ha
      have h := hres .nvidia_p2p_get_pages (by decide) hp ha
      have h1 : ((strom_update_extra_symbols k nb action data s).2.slot
          .nvidia_p2p_get_pages).p = k.kallsyms_lookup_name "nvidia_p2p_get_pages" := h.1
      simp [__nvidia_p2p_get_pages, h1, ha]
    · intro hp ha
      have h := hres .nvidia_p2p_put_pages (by decide) hp ha
      have h1 : ((strom_update_extra_symbols k nb action data s).2.slot
          .nvidia_p2p_put_pages).p = k.kallsyms_lookup_name "nvidia_p2p_put_pages" := h.1
      simp [__nvidia_p2p_put_pages, h1, ha]
    · intro hp ha
      have h := hres .nvidia_p2p_free_page_table (by decide) hp ha
      have h1 : ((strom_update_extra_symbols k nb action data s).2.slot
          .nvidia_p2p_free_page_table).p
            = k.kallsyms_lookup_name "nvidia_p2p_free_page_table" := h.1
      simp [__nvidia_p2p_free_page_table, h1, ha]

/-! ## Lemmas and theorems : the handle-listing loop -/

/-- Once `errno` is non-zero and no call ever stores zero into it, the
listing loop cannot be left through its `while (errno != 0)` test. -/
theorem list_loop_never_done (ioctl : Nat → Nat → ListReply) (malloc_ok : Nat → Bool)
    (hz : ∀ n c, (ioctl n c).set_errno ≠ some 0)
    (fuel ncalls nrooms : Nat) (errno : Int) (he : errno ≠ 0)
    (b : ListBuffer) (r : Nat) :
    list_gpu_memory_loop ioctl malloc_ok fuel ncalls nrooms errno ≠ .done b r := by
  induction fuel generalizing ncalls nrooms errno with
  | zero => simp [list_gpu_memory_loop]
  | succ fuel ih =>
    have he1 : (ioctl ncalls nrooms).set_errno.getD errno ≠ 0 := by
      cases hs : (ioctl ncalls nrooms).set_errno with
      | none => simpa using he
      | some e =>
        have := hz ncalls nrooms
        rw [hs] at this
        simpa using this
    unfold list_gpu_memory_loop
    simp only []
    split
    · simp
    · split
      · split
        · simp
        · split
          · simp
          · simp only [he1, ne_eq, not_false_eq_true, if_true]
            exact ih _ _ _ he1
      · simp only [he1, ne_eq, not_false_eq_true, if_true]
        exact ih _ _ _ he1

/-- The loop does end when the very first call succeeds while `errno` is still
zero: `cmd_list` is then the live buffer of that call. -/
theorem list_loop_done_at_first_success (ioctl : Nat → Nat → ListReply)
    (malloc_ok : Nat → Bool) (fuel nrooms : Nat) (hm : malloc_ok 0 = true)
    (hrv : (ioctl 0 nrooms).rv = 0) (he : (ioctl 0 nrooms).set_errno = none) :
    list_gpu_memory_loop ioctl malloc_ok (fuel + 1) 0 nrooms 0
      = .done { call := 0, nrooms := nrooms, nitems := (ioctl 0 nrooms).nitems,
                live := true } nrooms := by
  unfold list_gpu_memory_loop
  simp [hm, hrv, he]

theorem list_2001_after_first (fuel ncalls : Nat) (h : 1 ≤ ncalls) :
    list_gpu_memory_loop ioctl_list_2001 (fun _ => true) fuel ncalls 2101 ENOBUFS
      = .out_of_fuel := by
  induction fuel generalizing ncalls with
  | zero => rfl
  | succ fuel ih =>
    have hn : ncalls ≠ 0 := by omega
    unfold list_gpu_memory_loop
    simp only [ioctl_list_2001, hn, if_false, Option.getD_none]
    simp only [ENOBUFS] at ih ⊢
    simpa using ih (ncalls + 1) (by omega)

/-- C8 (failing run): with 2001 mapped handles the first LIST_GPU_MEMORY call
(capacity 2000) fails with `ENOBUFS`, every retry with capacity 2101
succeeds, and yet the loop of `ioctl_print_gpu_memory` never ends: whatever
the number of iterations allowed, it is still running. -/
theorem list_loop_diverges_after_enobufs (fuel : Nat) :
    list_gpu_memory_loop ioctl_list_2001 (fun _ => true) fuel 0 2000 0 = .out_of_fuel := by
  cases fuel with
  | zero => rfl
  | succ fuel =>
    unfold list_gpu_memory_loop
    simp only [ioctl_list_2001, if_true]
    have := list_2001_after_first fuel 1 (le_refl 1)
    simpa [ENOBUFS] using this

/-! ## Lemmas and theorems : chunk ids -/

theorem build_prefix_getElem? (n base : Nat) (ids0 : List Nat) (hlen : ids0.length = n)
    (t : Nat) (ht : t ≤ n) :
    ((List.range t).foldl
        (fun ids i => ids.set (n - (i + 1)) ((base + i) % 2 ^ 32)) ids0).length = n
    ∧ ∀ k, ((List.range t).foldl
        (fun ids i => ids.set (n - (i + 1)) ((base + i) % 2 ^ 32)) ids0)[k]?
      = if k < n ∧ n - t ≤ k then some ((base + (n - 1 - k)) % 2 ^ 32) else ids0[k]? := by
  induction t with
  | zero =>
    refine ⟨by simpa using hlen, ?_⟩
    intro k
    have : ¬ (k < n ∧ n - 0 ≤ k) := by omega
    rw [if_neg this]
    rfl
  | succ t ih =>
    obtain ⟨hl, hk⟩ := ih (by omega)
    rw [List.range_succ, List.foldl_append]
    simp only [List.foldl_cons, List.foldl_nil]
    refine ⟨by rw [List.length_set]; exact hl, ?_⟩
    intro k
    rw [List.getElem?_set]
    by_cases hkt : n - (t + 1) = k
    · have h1 : k < n ∧ n - (t + 1) ≤ k := by omega
      have h2 : n - 1 - k = t := by omega
      have h3 : n - (t + 1) < n := by omega
      rw [if_pos hkt, if_pos h1, hl, if_pos h3, h2]
    · rw [if_neg hkt, hk k]
      by_cases h1 : k < n ∧ n - t ≤ k
      · have h2 : k < n ∧ n - (t + 1) ≤ k := by omega
        rw [if_pos h1, if_pos h2]
      · have h2 : ¬ (k < n ∧ n - (t + 1) ≤ k) := by omega
        rw [if_neg h1, if_neg h2]

/-- The request array after the fill loop: cell `i` holds
`(chunk_base + (nr_chunks - 1 - i)) mod 2^32`. -/
theorem build_chunk_ids_eq (n base : Nat) (ids0 : List Nat) (hlen : ids0.length = n) :
    build_chunk_ids n base ids0
      = (List.range n).map (fun i => (base + (n - 1 - i)) % 2 ^ 32) := by
  obtain ⟨hl, hk⟩ := build_prefix_getElem? n base ids0 hlen n (le_refl n)
  apply List.ext_getElem?
  intro k
  unfold build_chunk_ids
  rw [hk k, List.getElem?_map]
  by_cases hkn : k < n
  · have h1 : k < n ∧ n - n ≤ k := by omega
    rw [if_pos h1, List.getElem?_range hkn]
    rfl
  · have h1 : ¬ (k < n ∧ n - n ≤ k) := by omega
    rw [if_neg h1]
    have h2 : ids0[k]? = none := by
      apply List.getElem?_eq_none
      omega
    have h3 : (List.range n)[k]? = none := by
      apply List.getElem?_eq_none
      simp
      omega
    rw [h2, h3]
    rfl

theorem recovered_index_of_id (base k : Nat) (hb : base < 2 ^ 32) (hk : k < 2 ^ 32) :
    recovered_index base ((base + k) % 2 ^ 32) = k := by
  unfold recovered_index
  omega

theorem check_chunks_from_no_assert (n base : Nat) (ids : List Nat)
    (differs : Nat → Nat → Bool) (l : List Nat)
    (h : ∀ i ∈ l, recovered_index base (ids.getD i 0) < n) (i0 : Nat) :
    check_chunks_from n base ids differs l ≠ .assert_failed i0 := by
  induction l with
  | nil => simp [check_chunks_from]
  | cons i rest ih =>
    have hi := h i (List.mem_cons_self i rest)
    unfold check_chunks_from
    simp only [hi, not_true_eq_false, if_false]
    split
    · simp
    · exact ih (fun i1 h1 => h i1 (List.mem_cons_of_mem i h1))

theorem mem_request_iff (n base x : Nat) :
    x ∈ (List.range n).map (fun i => (base + (n - 1 - i)) % 2 ^ 32)
      ↔ ∃ k, k < n ∧ x = (base + k) % 2 ^ 32 := by
  rw [List.mem_map]
  constructor
  · rintro ⟨i, hi, rfl⟩
    rw [List.mem_range] at hi
    exact ⟨n - 1 - i, by omega, rfl⟩
  · rintro ⟨k, hk, rfl⟩
    refine ⟨n - 1 - k, List.mem_range.mpr (by omega), ?_⟩
    have : n - 1 - (n - 1 - k) = k := by omega
    simp only [this]

theorem request_nodup (n base : Nat) (hn : n < 2 ^ 32) :
    ((List.range n).map (fun i => (base + (n - 1 - i)) % 2 ^ 32)).Nodup := by
  apply List.Nodup.map_on _ (List.nodup_range n)
  intro x hx y hy hxy
  rw [List.mem_range] at hx hy
  simp only at hxy
  omega

theorem chunk_identity_aux (nr_chunks chunk_base : Nat) (ids0 : List Nat)
    (hn : nr_chunks < 2 ^ 32) (hb : chunk_base < 2 ^ 32)
    (hlen : ids0.length = nr_chunks) :
    (build_chunk_ids nr_chunks chunk_base ids0).length = nr_chunks
    ∧ (∀ k, k < nr_chunks →
        (build_chunk_ids nr_chunks chunk_base ids0)[nr_chunks - 1 - k]?
            = some ((chunk_base + k) % 2 ^ 32)
        ∧ (build_chunk_ids nr_chunks chunk_base ids0).count ((chunk_base + k) % 2 ^ 32) = 1)
    ∧ (chunk_base + nr_chunks ≤ 2 ^ 32 →
        (∀ i, i < nr_chunks →
          (build_chunk_ids nr_chunks chunk_base ids0)[i]?
            = some (chunk_base + (nr_chunks - 1 - i)))
        ∧ (build_chunk_ids nr_chunks chunk_base ids0).Pairwise (fun a b => a > b))
    ∧ (∀ echoed : List Nat, echoed.Perm (build_chunk_ids nr_chunks chunk_base ids0) →
        (∀ i, i < nr_chunks → recovered_index chunk_base (echoed.getD i 0) < nr_chunks)
        ∧ (∀ i1 i2, i1 < nr_chunks → i2 < nr_chunks →
            recovered_index chunk_base (echoed.getD i1 0)
              = recovered_index chunk_base (echoed.getD i2 0) → i1 = i2)
        ∧ (∀ j, j < nr_chunks →
            ∃ i, i < nr_chunks ∧ recovered_index chunk_base (echoed.getD i 0) = j)
        ∧ (∀ (differs : Nat → Nat → Bool) (i : Nat),
            check_chunks nr_chunks chunk_base echoed differs ≠ .assert_failed i)) := by
  rw [build_chunk_ids_eq nr_chunks chunk_base ids0 hlen]
  have hnd := request_nodup nr_chunks chunk_base hn
  refine ⟨by simp, ?_, ?_, ?_⟩
  · intro k hk
    refine ⟨?_, ?_⟩
    · rw [List.getElem?_map, List.getElem?_range (by omega)]
      have : nr_chunks - 1 - (nr_chunks - 1 - k) = k := by omega
      simp [this]
    · exact List.count_eq_one_of_mem hnd
        ((mem_request_iff nr_chunks chunk_base _).2 ⟨k, hk, rfl⟩)
  · intro hw
    refine ⟨?_, ?_⟩
    · intro i hi
      rw [List.getElem?_map, List.getElem?_range hi]
      have : (chunk_base + (nr_chunks - 1 - i)) % 2 ^ 32 = chunk_base + (nr_chunks - 1 - i) :=
        Nat.mod_eq_of_lt (by omega)
      simp only [Option.map_some', this]
    · rw [List.pairwise_iff_getElem]
      intro i j hi hj hij
      simp only [List.length_map, List.length_range] at hi hj
      simp only [List.getElem_map, List.getElem_range]
      omega
  · intro echoed hperm
    have hlen_e : echoed.length = nr_chunks := by
      rw [hperm.length_eq]; simp
    have hnd_e : echoed.Nodup := (hperm.nodup_iff).2 hnd
    have hmem : ∀ i, i < nr_chunks →
        ∃ k, k < nr_chunks ∧ echoed.getD i 0 = (chunk_base + k) % 2 ^ 32 := by
      intro i hi
      have h1 : echoed.getD i 0 ∈ echoed := by
        rw [List.getD_eq_getElem echoed 0 (by omega)]
        exact List.getElem_mem _
      exact (mem_request_iff nr_chunks chunk_base _).1 ((hperm.mem_iff).1 h1)
    have hrange : ∀ i, i < nr_chunks →
        recovered_index chunk_base (echoed.getD i 0) < nr_chunks := by
      intro i hi
      obtain ⟨k, hk, he⟩ := hmem i hi
      rw [he, recovered_index_of_id chunk_base k hb (by omega)]
      exact hk
    refine ⟨hrange, ?_, ?_, ?_⟩
    · intro i1 i2 h1 h2 heq
      obtain ⟨k1, hk1, he1⟩ := hmem i1 h1
      obtain ⟨k2, hk2, he2⟩ := hmem i2 h2
      rw [he1, he2, recovered_index_of_id chunk_base k1 hb (by omega),
        recovered_index_of_id chunk_base k2 hb (by omega)] at heq
      have hsame : echoed.getD i1 0 = echoed.getD i2 0 := by rw [he1, he2, heq]
      rw [List.getD_eq_getElem echoed 0 (by omega : i1 < echoed.length),
        List.getD_eq_getElem echoed 0 (by omega : i2 < echoed.length)] at hsame
      exact (hnd_e.getElem_inj_iff).1 hsame
    · intro j hj
      have h1 : (chunk_base + j) % 2 ^ 32 ∈ echoed :=
        (hperm.mem_iff).2 ((mem_request_iff nr_chunks chunk_base _).2 ⟨j, hj, rfl⟩)
      obtain ⟨i, hi, hget⟩ := List.mem_iff_getElem.1 h1
      refine ⟨i, by omega, ?_⟩
      rw [List.getD_eq_getElem echoed 0 hi, hget]
      exact recovered_index_of_id chunk_base j hb (by omega)
    · intro differs i
      apply check_chunks_from_no_assert
      intro i1 h1
      exact hrange i1 (List.mem_range.1 h1)

/-- C9 (amended): for the `nr_chunks` and `chunk_base` that
`exec_test_by_strom` computes for a segment, the request array holds, for
every `k < nr_chunks`, the id `(chunk_base + k) mod 2^32` exactly once, in
cell `nr_chunks - 1 - k`; when `chunk_base + nr_chunks <= 2^32` these are the
ids `chunk_base + k` themselves in strictly descending order. For every
echoed array that is a permutation of the request,
`j = chunk_ids[i] - chunk_base` (computed modulo 2^32) is below `nr_chunks`
for every `i < nr_chunks`, the map from `i` to `j` is injective and onto
`[0, nr_chunks)`, and the assertion of the corruption check never fails. -/
theorem chunk_identity_by_membership (segment_sz next_fpos nr_chunks chunk_base : Nat)
    (ids0 : List Nat)
    (hn : nr_chunks = nr_chunks_of segment_sz) (hb : chunk_base = chunk_base_of next_fpos)
    (hlen : ids0.length = nr_chunks) :
    (build_chunk_ids nr_chunks chunk_base ids0).length = nr_chunks
    ∧ (∀ k, k < nr_chunks →
        (build_chunk_ids nr_chunks chunk_base ids0)[nr_chunks - 1 - k]?
            = some ((chunk_base + k) % 2 ^ 32)
        ∧ (build_chunk_ids nr_chunks chunk_base ids0).count ((chunk_base + k) % 2 ^ 32) = 1)
    ∧ (chunk_base + nr_chunks ≤ 2 ^ 32 →
        (∀ i, i < nr_chunks →
          (build_chunk_ids nr_chunks chunk_base ids0)[i]?
            = some (chunk_base + (nr_chunks - 1 - i)))
        ∧ (build_chunk_ids nr_chunks chunk_base ids0).Pairwise (fun a b => a > b))
    ∧ (∀ echoed : List Nat, echoed.Perm (build_chunk_ids nr_chunks chunk_base ids0) →
        (∀ i, i < nr_chunks → recovered_index chunk_base (echoed.getD i 0) < nr_chunks)
        ∧ (∀ i1 i2, i1 < nr_chunks → i2 < nr_chunks →
            recovered_index chunk_base (echoed.getD i1 0)
              = recovered_index chunk_base (echoed.getD i2 0) → i1 = i2)
        ∧ (∀ j, j < nr_chunks →
            ∃ i, i < nr_chunks ∧ recovered_index chunk_base (echoed.getD i 0) = j)
        ∧ (∀ (differs : Nat → Nat → Bool) (i : Nat),
            check_chunks nr_chunks chunk_base echoed differs ≠ .assert_failed i)) := by
  have hn1 : nr_chunks < 2 ^ 32 := by
    rw [hn]; unfold nr_chunks_of; exact Nat.mod_lt _ (by norm_num)
  have hb1 : chunk_base < 2 ^ 32 := by
    rw [hb]; unfold chunk_base_of; exact Nat.mod_lt _ (by norm_num)
  exact chunk_identity_aux nr_chunks chunk_base ids0 hn1 hb1 hlen

/-- C9 at the 3 MiB segment at file offset 35184369991680 (384 chunks, first
chunk number 4294967040, ids wrapping after 256 chunks): the request has 384
cells, the id of chunk 256 is stored as 0 in cell 127, and an echoed array
equal to the request gives back index 256 from cell 127. -/
theorem chunk_identity_by_membership_witness :
    (384 = nr_chunks_of 3145728 ∧ 4294967040 = chunk_base_of 35184369991680
      ∧ (List.replicate 384 0).length = 384)
    ∧ (build_chunk_ids 384 4294967040 (List.replicate 384 0)).length = 384
    ∧ (build_chunk_ids 384 4294967040 (List.replicate 384 0))[127]? = some 0
    ∧ (∀ i, i < 384 →
        recovered_index 4294967040
          ((build_chunk_ids 384 4294967040 (List.replicate 384 0)).getD i 0) < 384) :=
  ⟨⟨by decide, by decide, List.length_replicate 384 0⟩,
   (chunk_identity_by_membership 3145728 35184369991680 384 4294967040
      (List.replicate 384 0) (by decide) (by decide) (List.length_replicate 384 0)).1,
   ((chunk_identity_by_membership 3145728 35184369991680 384 4294967040
      (List.replicate 384 0) (by decide) (by decide)
      (List.length_replicate 384 0)).2.1 256 (by decide)).1,
   ((chunk_identity_by_membership 3145728 35184369991680 384 4294967040
      (List.replicate 384 0) (by decide) (by decide)
      (List.length_replicate 384 0)).2.2.2 _ (List.Perm.refl _)).1⟩

/-- C9 as stated fails for the 3 MiB segment at file offset 35184369991680
(2 MiB below 32 TiB): there `nr_chunks = 384` and `chunk_base = 4294967040`,
cell 127 of the request holds 0 and cell 128 holds 4294967295, so the array is
not in descending order and does not contain the id `chunk_base + 256`. -/
theorem chunk_ids_wrap_counterexample :
    nr_chunks_of 3145728 = 384
    ∧ chunk_base_of 35184369991680 = 4294967040
    ∧ (build_chunk_ids 384 4294967040 (List.replicate 384 0))[127]? = some 0
    ∧ (build_chunk_ids 384 4294967040 (List.replicate 384 0))[128]? = some 4294967295
    ∧ (4294967040 + 256) ∉ build_chunk_ids 384 4294967040 (List.replicate 384 0)
    ∧ ¬ (build_chunk_ids 384 4294967040 (List.replicate 384 0)).Pairwise
          (fun a b => a > b) := by
  have h127 : (build_chunk_ids 384 4294967040 (List.replicate 384 0))[127]? = some 0 := by
    rw [build_chunk_ids_eq 384 4294967040 _ (List.length_replicate 384 0), List.getElem?_map,
      List.getElem?_range (by omega)]
    rfl
  have h128 : (build_chunk_ids 384 4294967040 (List.replicate 384 0))[128]?
      = some 4294967295 := by
    rw [build_chunk_ids_eq 384 4294967040 _ (List.length_replicate 384 0), List.getElem?_map,
      List.getElem?_range (by omega)]
    rfl
  refine ⟨by decide, by decide, h127, h128, ?_, ?_⟩
  · rw [build_chunk_ids_eq 384 4294967040 _ (List.length_replicate 384 0), mem_request_iff]
    rintro ⟨k, _, hk⟩
    omega
  · intro hp
    rw [List.pairwise_iff_getElem] at hp
    have hlen : (build_chunk_ids 384 4294967040 (List.replicate 384 0)).length = 384 := by
      rw [build_chunk_ids_eq 384 4294967040 _ (List.length_replicate 384 0),
        List.length_map, List.length_range]
    have h := hp 127 128 (by omega) (by omega) (by omega)
    have e127 := List.getElem?_eq_getElem (l := build_chunk_ids 384 4294967040
      (List.replicate 384 0)) (n := 127) (by omega)
    have e128 := List.getElem?_eq_getElem (l := build_chunk_ids 384 4294967040
      (List.replicate 384 0)) (n := 128) (by omega)
    rw [h127] at e127
    rw [h128] at e128
    simp only [Option.some.injEq] at e127 e128
    rw [← e127, ← e128] at h
    omega

/-! ## Lemmas and theorems : the submit/wait protocol of a worker -/

theorem wait_scan_append (p : Option Nat) (a b : List CEvent) :
    wait_scan p (a ++ b) = (wait_scan p a).bind (fun q => wait_scan q b) := by
  induction a generalizing p with
  | nil => simp [wait_scan]
  | cons x a ih =>
    cases x with
    | memcpy_ssd2gpu req rv id =>
      simp only [List.cons_append, wait_scan]
      split
      · rfl
      · split <;> exact ih _
    | memcpy_wait id rv =>
      simp only [List.cons_append, wait_scan]
      split
      · exact ih _
      · rfl
    | _ => simp only [List.cons_append, wait_scan]; exact ih _

/-- A prefix of a trace that obeys the rule obeys it too, and the task it
leaves pending is the one pending before, none, or one submitted with success
in the trace. -/
theorem wait_scan_take (l : List CEvent) (p r : Option Nat) (h : wait_scan p l = some r)
    (k : Nat) :
    wait_scan p (l.take k) = some p ∨ wait_scan p (l.take k) = some none
      ∨ ∃ req id, CEvent.memcpy_ssd2gpu req 0 id ∈ l
          ∧ wait_scan p (l.take k) = some (some id) := by
  induction l generalizing p k with
  | nil => left; simp [wait_scan]
  | cons x t ih =>
    cases k with
    | zero => left; simp [wait_scan]
    | succ k =>
      cases x with
      | memcpy_ssd2gpu req rv id =>
        simp only [wait_scan] at h
        simp only [List.take_succ_cons, wait_scan]
        by_cases hp : p.isSome = true
        · simp [hp] at h
        · simp only [hp, Bool.false_eq_true, if_false] at h ⊢
          have hpn : p = none := by
            cases p with
            | none => rfl
            | some v => simp at hp
          by_cases hrv : rv = 0
          · simp only [hrv, if_true] at h ⊢
            rcases ih (some id) h k with h1 | h1 | ⟨req2, id2, hm, h1⟩
            · exact Or.inr (Or.inr ⟨req, id, List.mem_cons_self _ _, h1⟩)
            · exact Or.inr (Or.inl h1)
            · exact Or.inr (Or.inr ⟨req2, id2, List.mem_cons_of_mem _ hm, h1⟩)
          · simp only [hrv, if_false] at h ⊢
            rcases ih none h k with h1 | h1 | ⟨req2, id2, hm, h1⟩
            · exact Or.inr (Or.inl h1)
            · exact Or.inr (Or.inl h1)
            · exact Or.inr (Or.inr ⟨req2, id2, List.mem_cons_of_mem _ hm, h1⟩)
      | memcpy_wait id rv =>
        simp only [wait_scan] at h
        simp only [List.take_succ_cons, wait_scan]
        by_cases hp : p = some id
        · simp only [hp, if_true] at h ⊢
          rcases ih none h k with h1 | h1 | ⟨req2, id2, hm, h1⟩
          · exact Or.inr (Or.inl h1)
          · exact Or.inr (Or.inl h1)
          · exact Or.inr (Or.inr ⟨req2, id2, List.mem_cons_of_mem _ hm, h1⟩)
        · simp [hp] at h
      | atomic_fetch_add o =>
        simp only [wait_scan] at h
        simp only [List.take_succ_cons, wait_scan]
        rcases ih p h k with h1 | h1 | ⟨req2, id2, hm, h1⟩
        · exact Or.inl h1
        · exact Or.inr (Or.inl h1)
        · exact Or.inr (Or.inr ⟨req2, id2, List.mem_cons_of_mem _ hm, h1⟩)
      | cuMemcpyHtoD a b c d =>
        simp only [wait_scan] at h
        simp only [List.take_succ_cons, wait_scan]
        rcases ih p h k with h1 | h1 | ⟨req2, id2, hm, h1⟩
        · exact Or.inl h1
        · exact Or.inr (Or.inl h1)
        · exact Or.inr (Or.inr ⟨req2, id2, List.mem_cons_of_mem _ hm, h1⟩)
      | cuStreamSynchronize a =>
        simp only [wait_scan] at h
        simp only [List.take_succ_cons, wait_scan]
        rcases ih p h k with h1 | h1 | ⟨req2, id2, hm, h1⟩
        · exact Or.inl h1
        · exact Or.inr (Or.inl h1)
        · exact Or.inr (Or.inr ⟨req2, id2, List.mem_cons_of_mem _ hm, h1⟩)
      | cuMemcpyDtoH a b c d =>
        simp only [wait_scan] at h
        simp only [List.take_succ_cons, wait_scan]
        rcases ih p h k with h1 | h1 | ⟨req2, id2, hm, h1⟩
        · exact Or.inl h1
        · exact Or.inr (Or.inl h1)
        · exact Or.inr (Or.inr ⟨req2, id2, List.mem_cons_of_mem _ hm, h1⟩)
      | pread a b c d e =>
        simp only [wait_scan] at h
        simp only [List.take_succ_cons, wait_scan]
        rcases ih p h k with h1 | h1 | ⟨req2, id2, hm, h1⟩
        · exact Or.inl h1
        · exact Or.inr (Or.inl h1)
        · exact Or.inr (Or.inr ⟨req2, id2, List.mem_cons_of_mem _ hm, h1⟩)

/-- Events other than the two driver commands leave the pending task alone. -/
theorem wait_scan_neutral (p : Option Nat) (l : List CEvent)
    (h : ∀ ev ∈ l, ev.is_strom_command = false) : wait_scan p l = some p := by
  induction l with
  | nil => simp [wait_scan]
  | cons x t ih =>
    have hx := h x (List.mem_cons_self _ _)
    have ht := ih (fun ev hev => h ev (List.mem_cons_of_mem _ hev))
    cases x with
    | memcpy_ssd2gpu req rv id => simp [CEvent.is_strom_command] at hx
    | memcpy_wait id rv => simp [CEvent.is_strom_command] at hx
    | _ => simpa [wait_scan] using ht

theorem strom_checks_no_command (g : TestGlobals) (w : WorkerContext) (e : IterEnv)
    (next_fpos : Nat) (ids : List Nat) :
    ∀ ev ∈ (strom_checks g w e next_fpos ids).1, ev.is_strom_command = false := by
  unfold strom_checks
  simp only []
  split
  · simp [CEvent.is_strom_command]
  · split
    · simp [CEvent.is_strom_command]
    · split <;> simp [CEvent.is_strom_command]

theorem strom_checks_scan (g : TestGlobals) (w : WorkerContext) (e : IterEnv)
    (next_fpos : Nat) (ids : List Nat) (p : Option Nat) :
    wait_scan p (strom_checks g w e next_fpos ids).1 = some p :=
  wait_scan_neutral p _ (strom_checks_no_command g w e next_fpos ids)

/-- Every MEMCPY_SSD2GPU command of an iteration names the file descriptor of
the globals and carries the return value and task id of the driver's reply. -/
theorem strom_iteration_submit (g : TestGlobals) (w : WorkerContext) (e : IterEnv)
    (next_fpos : Nat) (ids : List Nat) (req : MemCopyRequest) (rv : Int) (id : Nat)
    (h : CEvent.memcpy_ssd2gpu req rv id ∈ (strom_iteration g w e next_fpos ids).1) :
    req.file_desc = g.file_desc ∧ rv = e.submit.rv ∧ id = e.submit.dma_task_id := by
  have hc := fun ids2 =>
    strom_checks_no_command g w e next_fpos ids2 (CEvent.memcpy_ssd2gpu req rv id)
  unfold strom_iteration at h
  simp only [] at h
  repeat' split at h
  all_goals
    simp only [List.mem_cons, List.mem_append, List.mem_singleton, List.not_mem_nil,
      or_false, false_or, CEvent.memcpy_ssd2gpu.injEq, reduceCtorEq] at h
  all_goals
    first
    | (rcases h with ⟨h1, h2, h3⟩ | h
       exacts [⟨by rw [h1], h2, h3⟩, absurd (hc _ h) (by simp [CEvent.is_strom_command])])
    | (obtain ⟨h1, h2, h3⟩ := h; exact ⟨by rw [h1], h2, h3⟩)

/-- One loop body either pairs its submit with a wait, or stops before the
wait because the host-to-device copy failed. -/
theorem strom_iteration_scan (g : TestGlobals) (w : WorkerContext) (e : IterEnv)
    (next_fpos : Nat) (ids : List Nat) :
    wait_scan none (strom_iteration g w e next_fpos ids).1 = some none
    ∨ (wait_scan none (strom_iteration g w e next_fpos ids).1
          = some (some e.submit.dma_task_id)
        ∧ (strom_iteration g w e next_fpos ids).2 = some (.exited 1)
        ∧ e.submit.rv = 0 ∧ e.submit.nr_ram2gpu % 2 ^ g.cmd_bits > 0
        ∧ (e.htod_rc ≠ 0 ∨ e.sync_rc ≠ 0)) := by
  unfold strom_iteration
  simp only []
  by_cases hrv : e.submit.rv = 0
  · simp only [hrv, ne_eq, not_true_eq_false, if_false]
    by_cases hram : e.submit.nr_ram2gpu % 2 ^ g.cmd_bits > 0
    · by_cases hh : e.htod_rc = 0
      · by_cases hs : e.sync_rc = 0
        · left
          simp only [hram, hh, hs, ne_eq, not_true_eq_false, and_false, if_false, if_true]
          split
          · simp [wait_scan]
          · split
            · simp only [List.cons_append, List.nil_append, wait_scan, hrv]
              simp only [Option.isSome_none, Bool.false_eq_true, if_false, if_true]
              exact strom_checks_scan g w e next_fpos _ none
            · simp [wait_scan]
        · right
          have hram1 : 0 < e.submit.nr_ram2gpu % 2 ^ g.cmd_bits := hram
          simp [hram1, hh, hs, wait_scan, hrv]
      · right
        have hram1 : 0 < e.submit.nr_ram2gpu % 2 ^ g.cmd_bits := hram
        simp [hram1, hh, wait_scan, hrv]
    · left
      simp only [hram, false_and, if_false]
      split
      · simp [wait_scan, hrv]
      · split
        · simp only [List.cons_append, List.nil_append, wait_scan, hrv]
          simp only [Option.isSome_none, Bool.false_eq_true, if_false, if_true]
          exact strom_checks_scan g w e next_fpos _ none
        · simp [wait_scan, hrv]
  · left
    simp [hrv, wait_scan]

/-- An iteration that is cut short leaves no task pending, or the one it
submitted with success. -/
theorem strom_iteration_scan_take (g : TestGlobals) (w : WorkerContext) (e : IterEnv)
    (next_fpos : Nat) (ids : List Nat) (k : Nat) :
    wait_scan none ((strom_iteration g w e next_fpos ids).1.take k) = some none
    ∨ (wait_scan none ((strom_iteration g w e next_fpos ids).1.take k)
          = some (some e.submit.dma_task_id)
        ∧ e.submit.rv = 0) := by
  have hfull : ∃ r, wait_scan none (strom_iteration g w e next_fpos ids).1 = some r := by
    rcases strom_iteration_scan g w e next_fpos ids with h | h
    · exact ⟨_, h⟩
    · exact ⟨_, h.1⟩
  obtain ⟨r, hr⟩ := hfull
  rcases wait_scan_take _ none r hr k with h | h | ⟨req, id, hm, h⟩
  · exact Or.inl h
  · exact Or.inl h
  · obtain ⟨_, h2, h3⟩ := strom_iteration_submit g w e next_fpos ids req 0 id hm
    right
    rw [h, h3]
    exact ⟨rfl, h2.symm⟩

theorem cut_within_some (e : IterEnv) (n k : Nat) (h : e.cut_within n = some k) :
    e.cut = some k ∧ k < n := by
  unfold IterEnv.cut_within at h
  split at h
  · split at h
    · simp only [Option.some.injEq] at h
      subst h
      rename_i heq hlt
      exact ⟨heq, hlt⟩
    · cases h
  · cases h

/-- In every run of the loop of `exec_test_by_strom` the trace obeys the rule,
and a task is left pending at the end only where the worker exited on a failed
copy or was stopped from outside. -/
theorem strom_loop_scan (g : TestGlobals) (w : WorkerContext)
    (fetched : List (Nat × IterEnv)) (ids : List Nat) :
    wait_scan none (strom_loop g w fetched ids).1 = some none
    ∨ (∃ p ∈ fetched,
        wait_scan none (strom_loop g w fetched ids).1
          = some (some p.2.submit.dma_task_id)
        ∧ p.2.submit.rv = 0
        ∧ (((strom_loop g w fetched ids).2 = .exited 1
            ∧ p.2.submit.nr_ram2gpu % 2 ^ g.cmd_bits > 0
            ∧ (p.2.htod_rc ≠ 0 ∨ p.2.sync_rc ≠ 0))
          ∨ ((strom_loop g w fetched ids).2 = .killed ∧ ∃ k, p.2.cut = some k))) := by
  induction fetched generalizing ids with
  | nil => left; simp [strom_loop, wait_scan]
  | cons q es ih =>
    obtain ⟨next_fpos, e⟩ := q
    unfold strom_loop
    simp only []
    split
    · left; simp [wait_scan]
    · split
      · rename_i k hk
        rcases strom_iteration_scan_take g w e next_fpos ids k with h | ⟨h, hrv⟩
        · left
          simpa [wait_scan] using h
        · right
          refine ⟨(next_fpos, e), List.mem_cons_self _ _, ?_, hrv, Or.inr ⟨rfl, k, ?_⟩⟩
          · simpa [wait_scan] using h
          · exact (cut_within_some e _ k hk).1
      · rcases strom_iteration_scan g w e next_fpos ids with h | h
        · split
          · left
            simpa [wait_scan] using h
          · rcases ih (chunk_ids_after
                (build_chunk_ids (nr_chunks_of g.segment_sz) (chunk_base_of next_fpos) ids)
                e.submit.chunk_ids) with h2 | ⟨e2, he2, h2⟩
            · left
              simp only [wait_scan, wait_scan_append, h, Option.some_bind]
              exact h2
            · right
              refine ⟨e2, List.mem_cons_of_mem _ he2, ?_, h2.2⟩
              simp only [wait_scan, wait_scan_append, h, Option.some_bind]
              exact h2.1
        · obtain ⟨h1, h2, h3, h4⟩ := h
          right
          refine ⟨(next_fpos, e), List.mem_cons_self _ _, ?_, h3, Or.inl ⟨?_, h4⟩⟩
          · simp only [h2]
            simpa [wait_scan] using h1
          · simp only [h2]

/-! ## Theorems : the filesystem wrappers and the state after init -/

/-- C15 (amended): `__ext4_get_block` and `__xfs_get_blocks` stop in `BUG_ON`
while their function pointer is `NULL`, returning nothing to the caller; once
the pointer is resolved they make exactly one call, to the resolved address
with their own arguments in the same order, and return what it returns. -/
theorem filesystem_wrappers_assert_availability (s : KsymState) (invoke : Invoke)
    (inode offset bh create : Nat) :
    ((s.slot .ext4_get_block).p = 0 →
        __ext4_get_block s invoke inode offset bh create = .bug)
    ∧ ((s.slot .ext4_get_block).p ≠ 0 →
        __ext4_get_block s invoke inode offset bh create
          = .returned (invoke (s.slot .ext4_get_block).p [inode, offset, bh, create])
              [((s.slot .ext4_get_block).p, [inode, offset, bh, create])])
    ∧ ((s.slot .xfs_get_blocks).p = 0 →
        __xfs_get_blocks s invoke inode offset bh create = .bug)
    ∧ ((s.slot .xfs_get_blocks).p ≠ 0 →
        __xfs_get_blocks s invoke inode offset bh create
          = .returned (invoke (s.slot .xfs_get_blocks).p [inode, offset, bh, create])
              [((s.slot .xfs_get_blocks).p, [inode, offset, bh, create])]) := by
  refine ⟨?_, ?_, ?_, ?_⟩ <;> intro h <;> simp [__ext4_get_block, __xfs_get_blocks, h]

/-- C15 as stated fails right after a successful init: both filesystem
pointers are `NULL` there, and each wrapper ends in `BUG_ON` instead of handing
a failure status to its caller. -/
theorem filesystem_wrappers_bug_when_unresolved :
    (strom_init_extra_symbols false symtab_all 0 ksym_init_state).1 = 0
    ∧ __ext4_get_block (strom_init_extra_symbols false symtab_all 0 ksym_init_state).2
        (fun _ _ => 0) 1 2 3 0 = .bug
    ∧ __xfs_get_blocks (strom_init_extra_symbols false symtab_all 0 ksym_init_state).2
        (fun _ _ => 0) 1 2 3 0 = .bug
    ∧ (∀ v c, __ext4_get_block (strom_init_extra_symbols false symtab_all 0 ksym_init_state).2
        (fun _ _ => 0) 1 2 3 0 ≠ .returned v c) := by
  refine ⟨by decide, by decide, by decide, ?_⟩
  intro v c h
  have h2 : __ext4_get_block (strom_init_extra_symbols false symtab_all 0 ksym_init_state).2
        (fun _ _ => 0) 1 2 3 0 = .bug := by decide
  rw [h2] at h
  cases h

theorem init_keeps_optional_slots (u : Bool) (k : KernelSymtab) (rc : Int)
    (x : ExtraSymbol) (hx : x ∈ optional_symbols) :
    (strom_init_extra_symbols u k rc ksym_init_state).2.slot x = { p := 0, mod := none } := by
  have hne : x ≠ ExtraSymbol.nvme_alloc_request := by
    intro h0
    rw [h0] at hx
    simp [optional_symbols] at hx
  unfold strom_init_extra_symbols
  cases u <;>
    simp only [LOOKUP_MANDATORY_EXTRA_SYMBOL, strom_put_all_extra_modules, put_module,
      Bool.false_eq_true, if_false, if_true] <;>
    split <;> try split
  all_goals simp [ksym_init_state, set_slot, hne]

theorem init_code_depends_on_mandatory_only (u : Bool) (k k2 : KernelSymtab) (rc : Int)
    (hk : k2.kallsyms_lookup_name "nvme_alloc_request"
      = k.kallsyms_lookup_name "nvme_alloc_request") :
    (strom_init_extra_symbols u k2 rc ksym_init_state).1
      = (strom_init_extra_symbols u k rc ksym_init_state).1 := by
  cases u with
  | false => simp [strom_init_extra_symbols]
  | true =>
    by_cases ha : k.kallsyms_lookup_name "nvme_alloc_request" = 0
    · have ha2 : k2.kallsyms_lookup_name "nvme_alloc_request" = 0 := by rw [hk]; exact ha
      simp [strom_init_extra_symbols, LOOKUP_MANDATORY_EXTRA_SYMBOL,
        __strom_lookup_extra_symbol, ExtraSymbol.symbol_name, ha, ha2]
    · have ha2 : k2.kallsyms_lookup_name "nvme_alloc_request" ≠ 0 := by rw [hk]; exact ha
      have e1 : (__strom_lookup_extra_symbol k "nvme_alloc_request"
          (ksym_init_state.slot .nvme_alloc_request) false).1 = 0 := by
        unfold __strom_lookup_extra_symbol
        cases hmt : k.module_text_address (k.kallsyms_lookup_name "nvme_alloc_request") <;>
          simp [ha, hmt]
      have e2 : (__strom_lookup_extra_symbol k2 "nvme_alloc_request"
          (ksym_init_state.slot .nvme_alloc_request) false).1 = 0 := by
        unfold __strom_lookup_extra_symbol
        cases hmt : k2.module_text_address (k2.kallsyms_lookup_name "nvme_alloc_request") <;>
          simp [ha2, hmt]
      simp only [strom_init_extra_symbols, LOOKUP_MANDATORY_EXTRA_SYMBOL,
        ExtraSymbol.symbol_name, if_true, e1, e2]
      by_cases hrc : rc = 0 <;> simp [hrc]

/-- C18: after `strom_init_extra_symbols` has run on the load-time state
(whatever code it returns, in particular after it has returned 0), every
optional symbol still has a `NULL` function pointer and a `NULL` module
whatever the symbol table holds, so the three nvidia wrappers answer
`-ENOTSUPP` without calling anything; the first notifier call is what
resolves the symbols the table already knew; and the code returned by init is
the same for every table that gives the mandatory symbol the same address. -/
theorem init_resolves_no_optional_symbol (u : Bool) (k : KernelSymtab) (rc : Int) :
    (∀ x ∈ optional_symbols,
        (strom_init_extra_symbols u k rc ksym_init_state).2.slot x
          = { p := 0, mod := none })
    ∧ (∀ (invoke : Invoke) (a1 a2 a3 a4 a5 a6 a7 : Nat),
        __nvidia_p2p_get_pages (strom_init_extra_symbols u k rc ksym_init_state).2 invoke
            a1 a2 a3 a4 a5 a6 a7 = (-ENOTSUPP, [])
        ∧ __nvidia_p2p_put_pages (strom_init_extra_symbols u k rc ksym_init_state).2 invoke
            a1 a2 a3 a4 = (-ENOTSUPP, [])
        ∧ __nvidia_p2p_free_page_table (strom_init_extra_symbols u k rc ksym_init_state).2
            invoke a1 = (-ENOTSUPP, []))
    ∧ (∀ (nb action data : Nat), ∀ x ∈ optional_symbols,
        k.kallsyms_lookup_name x.symbol_name ≠ 0 →
        ((strom_update_extra_symbols k nb action data
            (strom_init_extra_symbols u k rc ksym_init_state).2).2.slot x).p
          = k.kallsyms_lookup_name x.symbol_name)
    ∧ (∀ k2 : KernelSymtab,
        k2.kallsyms_lookup_name "nvme_alloc_request"
          = k.kallsyms_lookup_name "nvme_alloc_request" →
        (strom_init_extra_symbols u k2 rc ksym_init_state).1
          = (strom_init_extra_symbols u k rc ksym_init_state).1) := by
  refine ⟨fun x hx => init_keeps_optional_slots u k rc x hx, ?_, ?_, ?_⟩
  · intro invoke a1 a2 a3 a4 a5 a6 a7
    have h1 := init_keeps_optional_slots u k rc .nvidia_p2p_get_pages (by decide)
    have h2 := init_keeps_optional_slots u k rc .nvidia_p2p_put_pages (by decide)
    have h3 := init_keeps_optional_slots u k rc .nvidia_p2p_free_page_table (by decide)
    simp [__nvidia_p2p_get_pages, __nvidia_p2p_put_pages, __nvidia_p2p_free_page_table,
      h1, h2, h3]
  · intro nb action data x hx ha
    rw [update_slot k nb action data _ x hx, init_keeps_optional_slots u k rc x hx]
    simp only [if_true]
    exact (lookup_stores_address k x.symbol_name _ true ha).1
  · intro k2 hk
    exact init_code_depends_on_mandatory_only u k k2 rc hk

/-- C18 at `symtab_all`, a kernel in which every provider is already loaded:
init succeeds and leaves `ext4_get_block` unresolved, and
`__nvidia_p2p_free_page_table` answers -524. -/
theorem init_resolves_no_optional_symbol_witness :
    (strom_init_extra_symbols false symtab_all 0 ksym_init_state).1 = 0
    ∧ symtab_all.kallsyms_lookup_name "ext4_get_block" ≠ 0
    ∧ (strom_init_extra_symbols false symtab_all 0 ksym_init_state).2.slot .ext4_get_block
        = { p := 0, mod := none }
    ∧ __nvidia_p2p_free_page_table
        (strom_init_extra_symbols false symtab_all 0 ksym_init_state).2 (fun _ _ => 0) 5
        = (-524, []) :=
  ⟨by decide, by decide,
   (init_resolves_no_optional_symbol false symtab_all 0).1 .ext4_get_block
     (by decide),
   ((init_resolves_no_optional_symbol false symtab_all 0).2.1
     (fun _ _ => 0) 5 0 0 0 0 0 0).2.2⟩

/-! ## Lemmas and theorems : snapshot differencing -/

theorem DECL_DIFF_exact (c p : StromCmd__StatInfo) (f : StatField)
    (hp : p.counter f < 2 ^ 64) (hc : c.counter f < 2 ^ 64)
    (hmono : p.counter f ≤ c.counter f) :
    DECL_DIFF c p f = c.counter f - p.counter f := by
  unfold DECL_DIFF
  omega

/-- C13: for two snapshots of 64-bit counters in which no counter decreased,
every local that `DECL_DIFF` declares in `print_stat_verbose` (22 of them)
and in `print_stat_normal` (11 of them) is the exact integer difference
`c.f - p.f` of its field, hence not negative. -/
theorem snapshot_diffs_exact (p c : StromCmd__StatInfo)
    (hp : ∀ f, p.counter f < 2 ^ 64) (hc : ∀ f, c.counter f < 2 ^ 64)
    (hmono : ∀ f, p.counter f ≤ c.counter f) :
    (print_stat_verbose_diffs p c).length = 22
    ∧ (print_stat_normal_diffs p c).length = 11
    ∧ (∀ d ∈ print_stat_verbose_diffs p c,
        (d.2 : Int) = (c.counter d.1 : Int) - (p.counter d.1 : Int) ∧ (0 : Int) ≤ (d.2 : Int))
    ∧ (∀ d ∈ print_stat_normal_diffs p c,
        (d.2 : Int) = (c.counter d.1 : Int) - (p.counter d.1 : Int) ∧ (0 : Int) ≤ (d.2 : Int))
    ∧ (∀ f, (DECL_DIFF c p f : Int) = (c.counter f : Int) - (p.counter f : Int)) := by
  have key : ∀ f, (DECL_DIFF c p f : Int) = (c.counter f : Int) - (p.counter f : Int) := by
    intro f
    rw [DECL_DIFF_exact c p f (hp f) (hc f) (hmono f)]
    have := hmono f
    omega
  refine ⟨rfl, rfl, ?_, ?_, key⟩
  · intro d hd
    simp only [print_stat_verbose_diffs, List.mem_cons, List.mem_singleton,
      List.not_mem_nil, or_false] at hd
    rcases hd with h | h | h | h | h | h | h | h | h | h | h | h | h | h | h | h | h | h | h
      | h | h | h <;> subst h <;> exact ⟨key _, Int.natCast_nonneg _⟩
  · intro d hd
    simp only [print_stat_normal_diffs, List.mem_cons, List.mem_singleton,
      List.not_mem_nil, or_false] at hd
    rcases hd with h | h | h | h | h | h | h | h | h | h | h <;> subst h <;>
      exact ⟨key _, Int.natCast_nonneg _⟩

/-- C13 at `stat_earlier` and `stat_later`: the delta of `nr_ssd2gpu` is 15 and
the delta of `total_dma_length` is 2^63 - 1. -/
theorem snapshot_diffs_exact_witness :
    ((∀ f, stat_earlier.counter f < 2 ^ 64) ∧ (∀ f, stat_later.counter f < 2 ^ 64)
      ∧ (∀ f, stat_earlier.counter f ≤ stat_later.counter f))
    ∧ (DECL_DIFF stat_later stat_earlier .nr_ssd2gpu : Int) = 25 - 10
    ∧ (DECL_DIFF stat_later stat_earlier .total_dma_length : Int)
        = ((2 ^ 64 - 1 : Nat) : Int) - ((2 ^ 63 : Nat) : Int) :=
  ⟨⟨fun f => by cases f <;> decide, fun f => by cases f <;> decide,
    fun f => by cases f <;> decide⟩,
   (snapshot_diffs_exact stat_earlier stat_later (fun f => by cases f <;> decide)
      (fun f => by cases f <;> decide) (fun f => by cases f <;> decide)).2.2.2.2
      .nr_ssd2gpu,
   (snapshot_diffs_exact stat_earlier stat_later (fun f => by cases f <;> decide)
      (fun f => by cases f <;> decide) (fun f => by cases f <;> decide)).2.2.2.2
      .total_dma_length⟩

/-! ## Lemmas and theorems : the host-to-device copy of the fallback chunks -/

theorem strom_checks_no_htod (g : TestGlobals) (w : WorkerContext) (e : IterEnv)
    (next_fpos : Nat) (ids : List Nat) :
    (strom_checks g w e next_fpos ids).1.filter CEvent.is_htod = [] := by
  unfold strom_checks
  simp only []
  split
  · rfl
  · split
    · rfl
    · split <;> rfl

/-- Without fallback chunks no host-to-device copy is issued. -/
theorem no_htod_copy_without_fallback (g : TestGlobals) (w : WorkerContext) (e : IterEnv)
    (next_fpos : Nat) (ids : List Nat) (h0 : e.submit.nr_ram2gpu = 0) :
    (strom_iteration g w e next_fpos ids).1.filter CEvent.is_htod = [] := by
  unfold strom_iteration
  simp only [h0, Nat.zero_mod, gt_iff_lt, lt_self_iff_false, false_and, if_false]
  split
  · rfl
  · split
    · rfl
    · split
      · simp [CEvent.is_htod, strom_checks_no_htod]
      · rfl

/-- As long as `BLCKSZ * nr_chunks` fits the width of the command fields, a
successful submit that reports `0 < nr_ram2gpu <= nr_chunks` is followed by
exactly one host-to-device copy, of `BLCKSZ * nr_ram2gpu` bytes, from offset
`BLCKSZ * (nr_chunks - nr_ram2gpu)` of the scratch buffer to the same offset
of the device segment, ending at byte `nr_chunks * BLCKSZ`. -/
theorem htod_copy_exact_without_overflow (g : TestGlobals) (w : WorkerContext)
    (e : IterEnv) (next_fpos : Nat) (ids : List Nat)
    (hrv : e.submit.rv = 0) (hpos : 0 < e.submit.nr_ram2gpu)
    (hle : e.submit.nr_ram2gpu ≤ nr_chunks_of g.segment_sz)
    (hfit : BLCKSZ * nr_chunks_of g.segment_sz < 2 ^ g.cmd_bits) :
    (strom_iteration g w e next_fpos ids).1.filter CEvent.is_htod
      = [CEvent.cuMemcpyHtoD
          (w.dev_buffer + BLCKSZ * (nr_chunks_of g.segment_sz - e.submit.nr_ram2gpu))
          (w.src_buffer + BLCKSZ * (nr_chunks_of g.segment_sz - e.submit.nr_ram2gpu))
          (BLCKSZ * e.submit.nr_ram2gpu) e.htod_rc]
    ∧ BLCKSZ * (nr_chunks_of g.segment_sz - e.submit.nr_ram2gpu)
        + BLCKSZ * e.submit.nr_ram2gpu = nr_chunks_of g.segment_sz * BLCKSZ := by
  have hB : BLCKSZ = 8192 := rfl
  have hn : nr_chunks_of g.segment_sz < 2 ^ g.cmd_bits := by rw [hB] at hfit; omega
  have hr : e.submit.nr_ram2gpu % 2 ^ g.cmd_bits = e.submit.nr_ram2gpu :=
    Nat.mod_eq_of_lt (by omega)
  have hsub : (nr_chunks_of g.segment_sz + 2 ^ g.cmd_bits - e.submit.nr_ram2gpu)
      % 2 ^ g.cmd_bits = nr_chunks_of g.segment_sz - e.submit.nr_ram2gpu := by
    have : nr_chunks_of g.segment_sz + 2 ^ g.cmd_bits - e.submit.nr_ram2gpu
        = (nr_chunks_of g.segment_sz - e.submit.nr_ram2gpu) + 2 ^ g.cmd_bits := by omega
    rw [this, Nat.add_mod_right]
    exact Nat.mod_eq_of_lt (by omega)
  have hoff : (BLCKSZ * (nr_chunks_of g.segment_sz - e.submit.nr_ram2gpu)) % 2 ^ g.cmd_bits
      = BLCKSZ * (nr_chunks_of g.segment_sz - e.submit.nr_ram2gpu) := by
    apply Nat.mod_eq_of_lt
    rw [hB] at hfit ⊢
    omega
  have hlen : (BLCKSZ * e.submit.nr_ram2gpu) % 2 ^ g.cmd_bits
      = BLCKSZ * e.submit.nr_ram2gpu := by
    apply Nat.mod_eq_of_lt
    rw [hB] at hfit ⊢
    omega
  refine ⟨?_, ?_⟩
  · unfold strom_iteration
    simp only [hrv, hr, hsub, hoff, hlen, hpos, gt_iff_lt, true_and, ne_eq,
      not_true_eq_false, if_false, if_true]
    split
    · rfl
    · split
      · rfl
      · split
        · rfl
        · split
          · simp [CEvent.is_htod, strom_checks_no_htod]
          · rfl
  · rw [hB]
    omega

/-- C12 (failing runs): with `unsigned int` command fields and `-s 4096`
(524288 chunks of 8 KiB), a submit that reports all 524288 chunks as fallback
chunks is followed by a host-to-device copy of 0 bytes, not of
`BLCKSZ * nr_ram2gpu = 4294967296` bytes; and with `-s 4097` (524416 chunks) and
one fallback chunk the copy starts at offset 1040384, not at
`BLCKSZ * (nr_chunks - nr_ram2gpu) = 4296007680`. -/
theorem htod_copy_wraps_at_4g :
    nr_chunks_of globals_4g.segment_sz = 524288
    ∧ BLCKSZ * env_all_fallback.submit.nr_ram2gpu = 4294967296
    ∧ (strom_iteration globals_4g worker_0 env_all_fallback 0
          (List.replicate 524288 0)).1.filter CEvent.is_htod
        = [CEvent.cuMemcpyHtoD worker_0.dev_buffer worker_0.src_buffer 0 0]
    ∧ nr_chunks_of 4296015872 = 524416
    ∧ BLCKSZ * (524416 - env_htod_fails.submit.nr_ram2gpu) = 4296007680
    ∧ (strom_iteration { globals_4g with segment_sz := 4296015872, filesize := 4296015872 }
          worker_0 env_htod_fails 0 (List.replicate 524416 0)).1.filter CEvent.is_htod
        = [CEvent.cuMemcpyHtoD (worker_0.dev_buffer + 1040384)
            (worker_0.src_buffer + 1040384) 8192 1] := by
  refine ⟨by decide, by decide, by decide, by decide, by decide, by decide⟩

/-! ## Lemmas and theorems : the INFO_GPU_MEMORY loop -/

/-- What one loop body can do to the handle index and to the list of final
answers. -/
theorem info_step_cases (ioctl : Nat → Nat → Nat → InfoReply) (malloc_ok : Nat → Bool)
    (handles : List Nat) (s : InfoState) :
    (∃ s1 evs, info_step ioctl malloc_ok handles s = .next s1 evs
        ∧ ((evs.filterMap InfoEvent.final_index = [s.i] ∧ s1.i = s.i + 1)
          ∨ (evs.filterMap InfoEvent.final_index = [] ∧ s1.i = s.i)))
    ∨ (∃ o evs, info_step ioctl malloc_ok handles s = .stop o evs
        ∧ evs.filterMap InfoEvent.final_index = [] ∧ o ≠ .done) := by
  unfold info_step
  simp only []
  split
  · split
    · exact Or.inl ⟨_, _, rfl, Or.inl ⟨rfl, rfl⟩⟩
    · split
      · exact Or.inr ⟨_, _, rfl, rfl, by simp⟩
      · split
        · exact Or.inr ⟨_, _, rfl, rfl, by simp⟩
        · split
          · exact Or.inr ⟨_, _, rfl, rfl, by simp⟩
          · exact Or.inl ⟨_, _, rfl, Or.inr ⟨rfl, rfl⟩⟩
  · exact Or.inl ⟨_, _, rfl, Or.inl ⟨rfl, rfl⟩⟩

/-- In every run of the INFO loop the final answers (described or skipped)
are given for consecutive handle indexes, each once, starting at `i`; when the
loop ends normally they reach the last listed handle. -/
theorem info_loop_final_answers (ioctl : Nat → Nat → Nat → InfoReply)
    (malloc_ok : Nat → Bool) (handles : List Nat) (list_nitems : Nat)
    (fuel : Nat) (s : InfoState) (hs : s.i ≤ list_nitems) :
    ∃ k, s.i + k ≤ list_nitems
      ∧ (info_gpu_memory_loop ioctl malloc_ok handles list_nitems fuel s).1.filterMap
          InfoEvent.final_index = List.range' s.i k
      ∧ ((info_gpu_memory_loop ioctl malloc_ok handles list_nitems fuel s).2 = .done →
          s.i + k = list_nitems) := by
  induction fuel generalizing s with
  | zero => exact ⟨0, by omega, by simp [info_gpu_memory_loop], by simp [info_gpu_memory_loop]⟩
  | succ fuel ih =>
    unfold info_gpu_memory_loop
    by_cases hlt : s.i < list_nitems
    · simp only [hlt, not_true_eq_false, if_false]
      rcases info_step_cases ioctl malloc_ok handles s with
        ⟨s1, evs, hstep, hcase⟩ | ⟨o, evs, hstep, hf, ho⟩
      · rw [hstep]
        simp only [List.filterMap_append]
        rcases hcase with ⟨hf, hi⟩ | ⟨hf, hi⟩
        · obtain ⟨k, hk1, hk2, hk3⟩ := ih s1 (by omega)
          refine ⟨k + 1, by omega, ?_, ?_⟩
          · rw [hf, hk2, hi, List.range'_succ]
            rfl
          · intro hd
            have := hk3 hd
            omega
        · obtain ⟨k, hk1, hk2, hk3⟩ := ih s1 (by omega)
          refine ⟨k, by omega, ?_, ?_⟩
          · rw [hf, hk2, hi]
            rfl
          · intro hd
            have := hk3 hd
            omega
      · rw [hstep]
        exact ⟨0, by omega, by simpa using hf, fun hd => absurd hd ho⟩
    · simp only [hlt, not_false_eq_true, if_true]
      exact ⟨0, by omega, by simp, fun _ => by omega⟩

theorem ioctl_info_three_respects_capacity : info_respects_capacity ioctl_info_three := by
  intro n handle nrooms
  by_cases h12 : handle = 12
  · simp [ioctl_info_three, h12, ENOBUFS, ENOENT]
  · by_cases hfit : (if handle = 11 then 5 else 3000) ≤ nrooms
    · simp only [ioctl_info_three, h12, if_false, hfit, if_true]
      simp
    · simp only [ioctl_info_three, h12, if_false, hfit]
      simp
      omega

theorem ioctl_info_three_small (n handle nrooms : Nat) :
    (ioctl_info_three n handle nrooms).nitems + 100 < 2 ^ 32 := by
  unfold ioctl_info_three
  split
  · simp
  · split <;> split <;> simp

/-- A loop body that stops the program does so by `exit(1)` or by the failed
assertion, and gives no final answer. -/
theorem info_step_stop (ioctl : Nat → Nat → Nat → InfoReply) (malloc_ok : Nat → Bool)
    (handles : List Nat) (s : InfoState) (o : InfoOutcome) (evs : List InfoEvent)
    (h : info_step ioctl malloc_ok handles s = .stop o evs) :
    (o = .exited 1 ∨ o = .assert_failed)
      ∧ evs = [.info_call s.i (handles.getD s.i 0) s.nrooms] := by
  unfold info_step at h
  simp only [] at h
  repeat' split at h
  all_goals cases h
  all_goals simp

/-- The capacity and the handle index after a loop body that goes on: the
index never goes back, and when it stays the capacity is the reported size
plus 100 (modulo 2^32), the reported size being above the old capacity. -/
theorem info_step_next (ioctl : Nat → Nat → Nat → InfoReply) (malloc_ok : Nat → Bool)
    (handles : List Nat) (s s1 : InfoState) (evs : List InfoEvent)
    (h : info_step ioctl malloc_ok handles s = .next s1 evs) :
    (s1.i = s.i + 1 ∧ s1.nrooms = s.nrooms
        ∧ ((ioctl s.ncalls (handles.getD s.i 0) s.nrooms).rv = 0
          ∨ ((ioctl s.ncalls (handles.getD s.i 0) s.nrooms).rv ≠ 0
            ∧ (ioctl s.ncalls (handles.getD s.i 0) s.nrooms).set_errno.getD s.errno = ENOENT)))
    ∨ (s1.i = s.i
        ∧ s.nrooms < (ioctl s.ncalls (handles.getD s.i 0) s.nrooms).nitems
        ∧ s1.nrooms = ((ioctl s.ncalls (handles.getD s.i 0) s.nrooms).nitems + 100) % 2 ^ 32
        ∧ (ioctl s.ncalls (handles.getD s.i 0) s.nrooms).rv ≠ 0
        ∧ (ioctl s.ncalls (handles.getD s.i 0) s.nrooms).set_errno.getD s.errno ≠ ENOENT) := by
  unfold info_step at h
  simp only [] at h
  by_cases hrv : (ioctl s.ncalls (handles.getD s.i 0) s.nrooms).rv = 0
  · simp only [hrv, ne_eq, not_true_eq_false, if_false, InfoStep.next.injEq] at h
    obtain ⟨h1, _⟩ := h
    subst h1
    exact Or.inl ⟨rfl, rfl, Or.inl hrv⟩
  · simp only [hrv, ne_eq, not_false_eq_true, if_true] at h
    by_cases hen : (ioctl s.ncalls (handles.getD s.i 0) s.nrooms).set_errno.getD s.errno = ENOENT
    · simp only [hen, if_true, InfoStep.next.injEq] at h
      obtain ⟨h1, _⟩ := h
      subst h1
      exact Or.inl ⟨rfl, rfl, Or.inr ⟨hrv, hen⟩⟩
    · simp only [hen, if_false] at h
      split at h
      · cases h
      · split at h
        · cases h
        · split at h
          · cases h
          · rename_i hgt _
            simp only [InfoStep.next.injEq] at h
            obtain ⟨h1, _⟩ := h
            subst h1
            have hgt1 : s.nrooms < (ioctl s.ncalls (handles.getD s.i 0) s.nrooms).nitems := by
              simpa using hgt
            exact Or.inr ⟨rfl, hgt1, rfl, hrv, hen⟩

/-- Every page table the loop prints was returned by the call just made for
that handle, and has no more entries than the capacity sent in that call. -/
theorem info_loop_described (ioctl : Nat → Nat → Nat → InfoReply) (malloc_ok : Nat → Bool)
    (handles : List Nat) (list_nitems : Nat) (hdrv : info_respects_capacity ioctl)
    (fuel : Nat) (s : InfoState) (i handle nitems : Nat)
    (h : InfoEvent.described i handle nitems
      ∈ (info_gpu_memory_loop ioctl malloc_ok handles list_nitems fuel s).1) :
    ∃ nrooms, InfoEvent.info_call i handle nrooms
        ∈ (info_gpu_memory_loop ioctl malloc_ok handles list_nitems fuel s).1
      ∧ nitems ≤ nrooms := by
  induction fuel generalizing s with
  | zero => simp [info_gpu_memory_loop] at h
  | succ fuel ih =>
    unfold info_gpu_memory_loop at h ⊢
    by_cases hlt : s.i < list_nitems
    · simp only [hlt, not_true_eq_false, if_false] at h ⊢
      cases hstep : info_step ioctl malloc_ok handles s with
      | stop o evs =>
        rw [hstep] at h
        simp only at h
        have := (info_step_stop ioctl malloc_ok handles s o evs hstep).2
        rw [this] at h
        simp at h
      | next s1 evs =>
        rw [hstep] at h
        simp only [List.mem_append] at h ⊢
        rcases h with h | h
        · unfold info_step at hstep
          simp only [] at hstep
          by_cases hrv : (ioctl s.ncalls (handles.getD s.i 0) s.nrooms).rv = 0
          · simp only [hrv, ne_eq, not_true_eq_false, if_false, InfoStep.next.injEq] at hstep
            obtain ⟨_, h2⟩ := hstep
            rw [← h2] at h ⊢
            simp only [List.mem_cons, reduceCtorEq, false_or, List.mem_singleton,
              InfoEvent.described.injEq, List.not_mem_nil, or_false] at h
            obtain ⟨hi, hh, hn⟩ := h
            refine ⟨s.nrooms, Or.inl ?_, ?_⟩
            · rw [hi, hh]
              simp
            · rw [hn]
              exact (hdrv _ _ _).1 hrv
          · simp only [hrv, ne_eq, not_false_eq_true, if_true] at hstep
            repeat' split at hstep
            all_goals cases hstep
            all_goals simp at h
        · obtain ⟨nrooms, h1, h2⟩ := ih s1 h
          exact ⟨nrooms, Or.inr h1, h2⟩
    · simp only [hlt, not_false_eq_true, if_true] at h
      simp at h

/-- The INFO loop always ends when the sizes the driver reports leave room
for the margin of 100: each body either moves to the next handle, raises the
capacity, or stops the program. -/
theorem info_loop_ends (ioctl : Nat → Nat → Nat → InfoReply) (malloc_ok : Nat → Bool)
    (handles : List Nat) (list_nitems : Nat)
    (hrep : ∀ n handle nrooms, (ioctl n handle nrooms).nitems + 100 < 2 ^ 32)
    (fuel : Nat) (s : InfoState) (hs : s.nrooms < 2 ^ 32)
    (hfuel : (list_nitems - s.i) + (2 ^ 32 - s.nrooms) < fuel) :
    (info_gpu_memory_loop ioctl malloc_ok handles list_nitems fuel s).2 ≠ .out_of_fuel := by
  induction fuel generalizing s with
  | zero => omega
  | succ fuel ih =>
    unfold info_gpu_memory_loop
    by_cases hlt : s.i < list_nitems
    · simp only [hlt, not_true_eq_false, if_false]
      cases hstep : info_step ioctl malloc_ok handles s with
      | stop o evs =>
        simp only
        rcases (info_step_stop ioctl malloc_ok handles s o evs hstep).1 with ho | ho <;>
          rw [ho] <;> simp
      | next s1 evs =>
        simp only
        have hr := hrep s.ncalls (handles.getD s.i 0) s.nrooms
        rcases info_step_next ioctl malloc_ok handles s s1 evs hstep with
          ⟨hi, hn, _⟩ | ⟨hi, hgt, hn, _⟩
        · exact ih s1 (by omega) (by omega)
        · rw [Nat.mod_eq_of_lt hr] at hn
          exact ih s1 (by omega) (by omega)
    · simp [hlt]

/-- C16: against a driver that keeps to the growable-buffer protocol and
reports sizes that leave room for the margin of 100, one body of the INFO loop
does exactly one of the following. After a success it prints the handle with
all `nitems` entries, `nitems <= nrooms`, and advances `i`. After a failure
with `ENOENT` it skips the handle and advances `i`. After a failure with
`ENOBUFS` it keeps `i` and queries the same handle again with capacity
`nitems + 100`, strictly above the capacity that was too small, or exits with
status 1 when `malloc` fails. After a failure with any other non-zero errno it
exits with status 1. The index `i` advances in no other case. Over a whole run
every printed page table follows a call for that handle whose capacity it does
not exceed, the final answers are given for consecutive indexes, each once,
they cover every listed handle when the loop ends normally, and the loop does
end. -/
theorem info_loop_progress (ioctl : Nat → Nat → Nat → InfoReply) (malloc_ok : Nat → Bool)
    (handles : List Nat) (list_nitems : Nat) (hdrv : info_respects_capacity ioctl)
    (hrep : ∀ n handle nrooms, (ioctl n handle nrooms).nitems + 100 < 2 ^ 32) :
    (∀ s : InfoState,
      ((ioctl s.ncalls (handles.getD s.i 0) s.nrooms).rv = 0 →
        info_step ioctl malloc_ok handles s
          = .next { ncalls := s.ncalls + 1, i := s.i + 1, nrooms := s.nrooms,
                    errno := (ioctl s.ncalls (handles.getD s.i 0) s.nrooms).set_errno.getD
                      s.errno }
              [.info_call s.i (handles.getD s.i 0) s.nrooms,
               .described s.i (handles.getD s.i 0)
                 (ioctl s.ncalls (handles.getD s.i 0) s.nrooms).nitems]
        ∧ (ioctl s.ncalls (handles.getD s.i 0) s.nrooms).nitems ≤ s.nrooms)
      ∧ ((ioctl s.ncalls (handles.getD s.i 0) s.nrooms).rv ≠ 0 →
          (ioctl s.ncalls (handles.getD s.i 0) s.nrooms).set_errno = some ENOENT →
          info_step ioctl malloc_ok handles s
            = .next { ncalls := s.ncalls + 1, i := s.i + 1, nrooms := s.nrooms,
                      errno := ENOENT }
                [.info_call s.i (handles.getD s.i 0) s.nrooms, .skipped s.i])
      ∧ ((ioctl s.ncalls (handles.getD s.i 0) s.nrooms).rv ≠ 0 →
          (ioctl s.ncalls (handles.getD s.i 0) s.nrooms).set_errno = some ENOBUFS →
          s.nrooms < (ioctl s.ncalls (handles.getD s.i 0) s.nrooms).nitems + 100
          ∧ (malloc_ok (s.ncalls + 1) = true →
              info_step ioctl malloc_ok handles s
                = .next { ncalls := s.ncalls + 1, i := s.i,
                          nrooms := (ioctl s.ncalls (handles.getD s.i 0) s.nrooms).nitems + 100,
                          errno := ENOBUFS }
                    [.info_call s.i (handles.getD s.i 0) s.nrooms,
                     .realloc ((ioctl s.ncalls (handles.getD s.i 0) s.nrooms).nitems + 100)])
          ∧ (malloc_ok (s.ncalls + 1) = false →
              info_step ioctl malloc_ok handles s
                = .stop (.exited 1) [.info_call s.i (handles.getD s.i 0) s.nrooms]))
      ∧ (∀ e, (ioctl s.ncalls (handles.getD s.i 0) s.nrooms).rv ≠ 0 →
          (ioctl s.ncalls (handles.getD s.i 0) s.nrooms).set_errno = some e →
          e ≠ ENOENT → e ≠ ENOBUFS → e ≠ 0 →
          info_step ioctl malloc_ok handles s
            = .stop (.exited 1) [.info_call s.i (handles.getD s.i 0) s.nrooms])
      ∧ (∀ s1 evs, info_step ioctl malloc_ok handles s = .next s1 evs → s1.i ≠ s.i →
          s1.i = s.i + 1
          ∧ ((ioctl s.ncalls (handles.getD s.i 0) s.nrooms).rv = 0
            ∨ ((ioctl s.ncalls (handles.getD s.i 0) s.nrooms).rv ≠ 0
              ∧ (ioctl s.ncalls (handles.getD s.i 0) s.nrooms).set_errno.getD s.errno
                  = ENOENT))))
    ∧ (∀ fuel s i handle nitems,
        InfoEvent.described i handle nitems
            ∈ (info_gpu_memory_loop ioctl malloc_ok handles list_nitems fuel s).1 →
          ∃ nrooms, InfoEvent.info_call i handle nrooms
              ∈ (info_gpu_memory_loop ioctl malloc_ok handles list_nitems fuel s).1
            ∧ nitems ≤ nrooms)
    ∧ (∀ fuel s, s.i ≤ list_nitems →
        ∃ k, s.i + k ≤ list_nitems
          ∧ (info_gpu_memory_loop ioctl malloc_ok handles list_nitems fuel s).1.filterMap
              InfoEvent.final_index = List.range' s.i k
          ∧ ((info_gpu_memory_loop ioctl malloc_ok handles list_nitems fuel s).2 = .done →
              s.i + k = list_nitems))
    ∧ (∀ fuel s, s.nrooms < 2 ^ 32 → (list_nitems - s.i) + (2 ^ 32 - s.nrooms) < fuel →
        (info_gpu_memory_loop ioctl malloc_ok handles list_nitems fuel s).2
          ≠ .out_of_fuel) := by
  have hne : ENOBUFS ≠ ENOENT := by decide
  have hne0 : ENOBUFS ≠ 0 := by decide
  refine ⟨fun s => ⟨?_, ?_, ?_, ?_, ?_⟩,
    fun fuel s i handle nitems h =>
      info_loop_described ioctl malloc_ok handles list_nitems hdrv fuel s i handle nitems h,
    fun fuel s hs => info_loop_final_answers ioctl malloc_ok handles list_nitems fuel s hs,
    fun fuel s hs hfuel =>
      info_loop_ends ioctl malloc_ok handles list_nitems hrep fuel s hs hfuel⟩
  · intro hrv
    refine ⟨?_, (hdrv _ _ _).1 hrv⟩
    unfold info_step
    simp only []
    generalize ioctl s.ncalls (handles.getD s.i 0) s.nrooms = r at hrv ⊢
    simp [hrv]
  · intro hrv he
    unfold info_step
    simp only []
    generalize ioctl s.ncalls (handles.getD s.i 0) s.nrooms = r at hrv he ⊢
    simp [hrv, he]
  · intro hrv he
    have hgt := (hdrv _ _ _).2 hrv he
    have hr := hrep s.ncalls (handles.getD s.i 0) s.nrooms
    have hr1 : (ioctl s.ncalls (handles.getD s.i 0) s.nrooms).nitems + 100 < 4294967296 := hr
    refine ⟨by omega, ?_, ?_⟩
    · intro hm
      unfold info_step
      simp only []
      generalize ioctl s.ncalls (handles.getD s.i 0) s.nrooms = r at hrv he hgt hr1 ⊢
      simp [hrv, he, hne, hne0, hgt, hm, Nat.mod_eq_of_lt hr1]
    · intro hm
      unfold info_step
      simp only []
      generalize ioctl s.ncalls (handles.getD s.i 0) s.nrooms = r at hrv he hgt hr1 ⊢
      simp [hrv, he, hne, hne0, hgt, hm]
  · intro e hrv he h1 h2 h3
    unfold info_step
    simp only []
    generalize ioctl s.ncalls (handles.getD s.i 0) s.nrooms = r at hrv he ⊢
    simp [hrv, he, h1, h2, h3]
  · intro s1 evs hstep hi
    rcases info_step_next ioctl malloc_ok handles s s1 evs hstep with
      ⟨h1, _, h3⟩ | ⟨h1, _⟩
    · exact ⟨h1, h3⟩
    · exact absurd h1 hi

/-- C16 at the driver `ioctl_info_three` with the listed handles 11, 12, 13
and first capacity 2000: handle 13 is queried a second time with capacity
3100, and the loop ends with one final answer for each of the indexes 0, 1, 2. -/
theorem info_loop_progress_witness :
    info_respects_capacity ioctl_info_three
    ∧ info_gpu_memory_loop ioctl_info_three (fun _ => true) [11, 12, 13] 3 10
        { ncalls := 0, i := 0, nrooms := 2000, errno := 0 }
      = ([.info_call 0 11 2000, .described 0 11 5, .info_call 1 12 2000, .skipped 1,
          .info_call 2 13 2000, .realloc 3100, .info_call 2 13 3100,
          .described 2 13 3000], .done)
    ∧ (∃ k, 0 + k ≤ 3
        ∧ (info_gpu_memory_loop ioctl_info_three (fun _ => true) [11, 12, 13] 3 10
            { ncalls := 0, i := 0, nrooms := 2000, errno := 0 }).1.filterMap
              InfoEvent.final_index = List.range' 0 k
        ∧ ((info_gpu_memory_loop ioctl_info_three (fun _ => true) [11, 12, 13] 3 10
            { ncalls := 0, i := 0, nrooms := 2000, errno := 0 }).2 = .done → 0 + k = 3)) :=
  ⟨ioctl_info_three_respects_capacity, by decide,
   (info_loop_progress ioctl_info_three (fun _ => true) [11, 12, 13] 3
      ioctl_info_three_respects_capacity ioctl_info_three_small).2.2.1 10
      { ncalls := 0, i := 0, nrooms := 2000, errno := 0 } (by decide)⟩

/-! ## Lemmas and theorems : main and the CHECK_FILE gate -/

theorem select_device_no_check (env : MainEnv) (n d : Nat) :
    ∀ e ∈ (select_device env n d).1, e.is_check_file = false := by
  induction n generalizing d with
  | zero => simp [select_device]
  | succ n ih =>
    unfold select_device
    split
    · simp [MEvent.is_check_file]
    · split
      · simp [MEvent.is_check_file]
      · split
        · simp [MEvent.is_check_file]
        · intro e he
          simp only [List.mem_cons] at he
          rcases he with he | he | he
          · rw [he]; rfl
          · rw [he]; rfl
          · exact ih (d + 1) e he

theorem find_device_no_check (opts : Options) (env : MainEnv) :
    ∀ e ∈ (find_device opts env).1, e.is_check_file = false := by
  unfold find_device
  split
  · split
    · simp [MEvent.is_check_file]
    · simp only []
      split <;> try split
      all_goals
        intro e he
        simp only [List.mem_cons] at he
        rcases he with he | he
        · rw [he]; rfl
        · exact select_device_no_check env env.count 0 e he
  · simp only []
    split
    · simp [MEvent.is_check_file]
    · split <;> simp [MEvent.is_check_file]

theorem main_after_check_no_check (opts : Options) (env : MainEnv) (fd : Int)
    (filesize : Nat) :
    ∀ e ∈ (main_after_check opts env fd filesize).trace, e.is_check_file = false := by
  have hd := find_device_no_check opts env
  unfold main_after_check
  simp only []
  split
  · simp [MEvent.is_check_file]
  · split
    · intro e he
      simp only [List.mem_cons] at he
      rcases he with he | he
      · rw [he]; rfl
      · exact hd e he
    · have h1 : ∀ e ∈ MEvent.cuda "cuInit" 0 :: (find_device opts env).1,
          e.is_check_file = false := by
        intro e he
        simp only [List.mem_cons] at he
        rcases he with he | he
        · rw [he]; rfl
        · exact hd e he
      repeat' split
      all_goals
        intro e he
        simp only [List.mem_append, List.mem_cons, List.mem_singleton,
          List.not_mem_nil, or_false] at he
        rcases he with he | he
        · exact h1 e (by simpa using he)
        · first
          | (rw [he]; rfl)
          | (rcases he with he | he | he | he | he <;> rw [he] <;> rfl)
          | (rcases he with he | he | he | he <;> rw [he] <;> rfl)
          | (rcases he with he | he | he <;> rw [he] <;> rfl)
          | (rcases he with he | he <;> rw [he] <;> rfl)

theorem strom_loop_submit_fd (g : TestGlobals) (w : WorkerContext)
    (fetched : List (Nat × IterEnv)) (ids : List Nat) (req : MemCopyRequest) (rv : Int)
    (id : Nat) (h : CEvent.memcpy_ssd2gpu req rv id ∈ (strom_loop g w fetched ids).1) :
    req.file_desc = g.file_desc := by
  induction fetched generalizing ids with
  | nil => simp [strom_loop] at h
  | cons q es ih =>
    obtain ⟨next_fpos, e⟩ := q
    unfold strom_loop at h
    simp only [] at h
    split at h
    · simp at h
    · split at h
      · simp only [List.mem_cons, reduceCtorEq, false_or] at h
        exact (strom_iteration_submit g w e _ ids req rv id (List.mem_of_mem_take h)).1
      · split at h
        · simp only [List.mem_cons, reduceCtorEq, false_or] at h
          exact (strom_iteration_submit g w e _ ids req rv id h).1
        · simp only [List.mem_cons, reduceCtorEq, false_or, List.mem_append] at h
          rcases h with h | h
          · exact (strom_iteration_submit g w e _ ids req rv id h).1
          · exact ih _ h

theorem vfs_iteration_no_command (g : TestGlobals) (w : WorkerContext) (e : IterEnv)
    (next : Nat) : ∀ ev ∈ (vfs_iteration g w e next).1, ev.is_strom_command = false := by
  unfold vfs_iteration
  simp only []
  repeat' split
  all_goals simp [CEvent.is_strom_command]

theorem vfs_loop_no_command (g : TestGlobals) (w : WorkerContext)
    (fetched : List (Nat × IterEnv)) :
    ∀ ev ∈ (vfs_loop g w fetched).1, ev.is_strom_command = false := by
  induction fetched with
  | nil => simp [vfs_loop]
  | cons q es ih =>
    obtain ⟨next_fpos, e⟩ := q
    have hit := vfs_iteration_no_command g w e next_fpos
    unfold vfs_loop
    simp only []
    split
    · simp [CEvent.is_strom_command]
    · split
      · intro ev hev
        simp only [List.mem_cons] at hev
        rcases hev with hev | hev
        · rw [hev]; rfl
        · exact hit ev (List.mem_of_mem_take hev)
      · split
        · intro ev hev
          simp only [List.mem_cons] at hev
          rcases hev with hev | hev
          · rw [hev]; rfl
          · exact hit ev hev
        · intro ev hev
          simp only [List.mem_cons, List.mem_append] at hev
          rcases hev with hev | hev | hev
          · rw [hev]; rfl
          · exact hit ev hev
          · exact ih ev hev

/-- Every MEMCPY_SSD2GPU command of a worker started by `main` names the file
descriptor that `main` passed on. -/
theorem run_worker_submit_fd (opts : Options) (env : MainEnv) (g : TestGlobals) (i : Nat)
    (fetched : List (Nat × IterEnv)) (req : MemCopyRequest) (rv : Int) (id : Nat)
    (h : CEvent.memcpy_ssd2gpu req rv id ∈ (run_worker opts env g i fetched).1) :
    req.file_desc = g.file_desc := by
  unfold run_worker at h
  split at h
  · simp at h
  · split at h
    · unfold exec_test_by_vfs at h
      split at h
      · simp at h
      · exact absurd (vfs_loop_no_command g _ _ _ h) (by simp [CEvent.is_strom_command])
    · unfold exec_test_by_strom at h
      split at h
      · simp at h
      · exact strom_loop_submit_fd g _ _ _ req rv id h

theorem mem_pool_workers (opts : Options) (env : MainEnv) (g : TestGlobals) (s : PoolState)
    (wt : List CEvent × WorkerOutcome) (h : wt ∈ pool_workers opts env g s) :
    ∃ i fetched, wt = run_worker opts env g i fetched := by
  unfold pool_workers at h
  simp only [List.mem_map, List.mem_range] at h
  obtain ⟨i, _, hi⟩ := h
  exact ⟨i, _, hi.symm⟩

/-- The workers of `main` are workers of a pool run with the file descriptor
and file size that `main` passed on. -/
theorem main_after_check_workers (opts : Options) (env : MainEnv) (fd : Int)
    (filesize : Nat) (h : (main_after_check opts env fd filesize).workers ≠ []) :
    (main_after_check opts env fd filesize).workers
        = pool_workers opts env
            { segment_sz := opts.segment_sz, filesize := filesize, file_desc := fd,
              enable_checks := opts.enable_checks, cmd_bits := env.cmd_bits }
            (pool_run opts env
              { segment_sz := opts.segment_sz, filesize := filesize, file_desc := fd,
                enable_checks := opts.enable_checks, cmd_bits := env.cmd_bits }
              (created_workers opts env))
      ∧ (main_after_check opts env fd filesize).outcome
          = (if setup_crashes opts env then .undefined
             else join_workers (main_after_check opts env fd filesize).workers)
      ∧ calloc_succeeds env env.calloc_ok (opts.nr_segments % 2 ^ 64).toNat 8 = true := by
  by_cases c1 : env.cuInit_rc ≠ 0
  · simp [main_after_check, c1] at h
  cases hdev : (find_device opts env).2 with
  | some o => simp [main_after_check, c1, hdev] at h
  | none =>
    by_cases c2 : env.ctx_rc ≠ 0
    · simp [main_after_check, c1, hdev, c2] at h
    by_cases c3 : env.alloc_rc ≠ 0
    · simp [main_after_check, c1, hdev, c2, c3] at h
    by_cases c4 : env.host_src_rc ≠ 0
    · simp [main_after_check, c1, hdev, c2, c3, c4] at h
    by_cases c5 : env.host_dst_rc ≠ 0
    · simp [main_after_check, c1, hdev, c2, c3, c4, c5] at h
    by_cases c6 : env.map_retval ≠ 0
    · simp [main_after_check, c1, hdev, c2, c3, c4, c5, c6] at h
    by_cases c7 : calloc_succeeds env env.calloc_ok (opts.nr_segments % 2 ^ 64).toNat 8 = false
    · have c7a : calloc_succeeds env env.calloc_ok
          (opts.nr_segments % 18446744073709551616).toNat 8 = false := c7
      simp [main_after_check, c1, hdev, c2, c3, c4, c5, c6, c7a] at h
    have c7a : calloc_succeeds env env.calloc_ok
        (opts.nr_segments % 18446744073709551616).toNat 8 = true := by
      simpa using c7
    refine ⟨?_, ?_, by simpa using c7⟩
    · simp [main_after_check, c1, hdev, c2, c3, c4, c5, c6, c7a]
    · simp [main_after_check, c1, hdev, c2, c3, c4, c5, c6, c7a]

theorem main_after_check_submit_fd (opts : Options) (env : MainEnv) (fd : Int)
    (filesize : Nat) (wt : List CEvent × WorkerOutcome)
    (hwt : wt ∈ (main_after_check opts env fd filesize).workers)
    (req : MemCopyRequest) (rv : Int) (id : Nat)
    (h : CEvent.memcpy_ssd2gpu req rv id ∈ wt.1) : req.file_desc = fd := by
  have hne : (main_after_check opts env fd filesize).workers ≠ [] :=
    List.ne_nil_of_mem hwt
  rw [(main_after_check_workers opts env fd filesize hne).1] at hwt
  obtain ⟨i, fetched, hi⟩ := mem_pool_workers opts env _ _ wt hwt
  rw [hi] at h
  exact run_worker_submit_fd opts env _ i fetched req rv id h

/-- C11: in every run of `main`, a CHECK_FILE command that returns a non-zero
result ends the program with `exit(1)` before any MAP_GPU_MEMORY command and
before any worker exists (so no MEMCPY_SSD2GPU or MEMCPY_WAIT is ever
issued); every MEMCPY_SSD2GPU command of a worker names a file descriptor for
which CHECK_FILE has returned 0; and whenever a MAP_GPU_MEMORY command is
issued or a worker exists, the trace of `main` starts with `open`, `fstat`
and a CHECK_FILE on the opened descriptor that returned 0. -/
theorem check_file_gates_transfers (opts : Options) (env : MainEnv) :
    (∀ fdesc rc, MEvent.check_file fdesc rc ∈ (main opts env).trace → rc ≠ 0 →
        (main opts env).outcome = .exited 1
        ∧ (main opts env).workers = []
        ∧ (∀ a l rv h, MEvent.map_gpu_memory a l rv h ∉ (main opts env).trace))
    ∧ (∀ wt ∈ (main opts env).workers, ∀ req rv id,
        CEvent.memcpy_ssd2gpu req rv id ∈ wt.1 →
          MEvent.check_file req.file_desc 0 ∈ (main opts env).trace)
    ∧ (((main opts env).workers ≠ []
          ∨ ∃ a l rv h, MEvent.map_gpu_memory a l rv h ∈ (main opts env).trace) →
        ∃ rest, (main opts env).trace
          = .open env.open_fd :: .fstat env.open_fd 0 :: .check_file env.open_fd 0 :: rest) := by
  have hno := main_after_check_no_check opts env env.open_fd
  by_cases h1 : opts.usage = true
  · simp [main, h1]
  by_cases h2 : opts.print_mapping = true
  · simp [main, h1, h2]
  by_cases h3 : opts.has_filename = false
  · simp [main, h1, h2, h3]
  by_cases h4 : opts.vfs_io_size ≠ 0 ∧ opts.segment_sz % opts.vfs_io_size ≠ 0
  · simp [main, h1, h2, h3, h4]
  by_cases h5 : env.open_fd < 0
  · simp [main, h1, h2, h3, h4, h5]
  by_cases h6 : env.fstat_rc ≠ 0
  · simp [main, h1, h2, h3, h4, h5, h6]
  by_cases h7 : opts.segment_sz = 0
  · simp [main, h1, h2, h3, h4, h5, h6, h7]
  by_cases h8 : ((env.st_size / opts.segment_sz) * opts.segment_sz) % 2 ^ 64 = 0
  · have h8a : env.st_size / opts.segment_sz * opts.segment_sz % 18446744073709551616 = 0 := h8
    simp [main, h1, h2, h3, h4, h5, h6, h7, h8a]
  by_cases h9 : env.check_rc ≠ 0
  · have hm : main opts env =
        { trace := [.open env.open_fd, .fstat env.open_fd 0,
            .check_file env.open_fd env.check_rc],
          workers := [], outcome := .exited 1 } := by
      have h8a : ¬ env.st_size / opts.segment_sz * opts.segment_sz % 18446744073709551616 = 0 :=
        h8
      simp [main, h1, h2, h3, h4, h5, h6, h7, h8a, h9]
    rw [hm]
    simp
  · have hm : main opts env =
        { trace := .open env.open_fd :: .fstat env.open_fd 0
            :: .check_file env.open_fd 0
            :: (main_after_check opts env env.open_fd
                (((env.st_size / opts.segment_sz) * opts.segment_sz) % 2 ^ 64)).trace,
          workers := (main_after_check opts env env.open_fd
                (((env.st_size / opts.segment_sz) * opts.segment_sz) % 2 ^ 64)).workers,
          outcome := (main_after_check opts env env.open_fd
                (((env.st_size / opts.segment_sz) * opts.segment_sz) % 2 ^ 64)).outcome } := by
      have h8a : ¬ env.st_size / opts.segment_sz * opts.segment_sz % 18446744073709551616 = 0 :=
        h8
      simp [main, h1, h2, h3, h4, h5, h6, h7, h8a, h9]
    rw [hm]
    refine ⟨?_, ?_, ?_⟩
    · intro fdesc rc hmem hrc
      simp only [List.mem_cons, reduceCtorEq, false_or, MEvent.check_file.injEq] at hmem
      rcases hmem with ⟨_, h0⟩ | hmem
      · exact absurd h0 hrc
      · exact absurd (hno _ _ hmem) (by simp [MEvent.is_check_file])
    · intro wt hwt req rv id hreq
      simp only at hwt
      rw [main_after_check_submit_fd opts env env.open_fd _ wt hwt req rv id hreq]
      simp
    · intro _
      exact ⟨_, rfl⟩

/-- C11 at two runs of `-n 2 -s 1` on a 3 MiB file: when CHECK_FILE returns
-1 the program exits with status 1 after `open`, `fstat` and CHECK_FILE, with
no worker; when it returns 0 two workers exist and the trace of `main` holds
the CHECK_FILE on descriptor 3 that returned 0. -/
theorem check_file_gates_transfers_witness :
    (main opts_two_workers env_check_fails).trace
        = [.open 3, .fstat 3 0, .check_file 3 (-1)]
    ∧ (main opts_two_workers env_check_fails).outcome = .exited 1
    ∧ (main opts_two_workers env_check_fails).workers = []
    ∧ (main opts_two_workers env_check_ok).workers.length = 2
    ∧ (∃ rest, (main opts_two_workers env_check_ok).trace
        = .open env_check_ok.open_fd :: .fstat env_check_ok.open_fd 0
            :: .check_file env_check_ok.open_fd 0 :: rest) :=
  ⟨by decide,
   ((check_file_gates_transfers opts_two_workers env_check_fails).1 3 (-1)
      (by decide) (by decide)).1,
   ((check_file_gates_transfers opts_two_workers env_check_fails).1 3 (-1)
      (by decide) (by decide)).2.1,
   by decide,
   (check_file_gates_transfers opts_two_workers env_check_ok).2.2 (Or.inl (by decide))⟩

/-! ## Theorems : the submit/wait protocol in the runs of main -/

/-- Where `main` has workers it has passed every test before the CUDA set-up,
and its workers and outcome are those of `main_after_check`. -/
theorem main_with_workers (opts : Options) (env : MainEnv)
    (h : (main opts env).workers ≠ []) :
    opts.segment_sz ≠ 0
      ∧ ((env.st_size / opts.segment_sz) * opts.segment_sz) % 2 ^ 64 ≠ 0
      ∧ (main opts env).workers
          = (main_after_check opts env env.open_fd
              (((env.st_size / opts.segment_sz) * opts.segment_sz) % 2 ^ 64)).workers
      ∧ (main opts env).outcome
          = (main_after_check opts env env.open_fd
              (((env.st_size / opts.segment_sz) * opts.segment_sz) % 2 ^ 64)).outcome := by
  by_cases h1 : opts.usage = true
  · simp [main, h1] at h
  by_cases h2 : opts.print_mapping = true
  · simp [main, h1, h2] at h
  by_cases h3 : opts.has_filename = false
  · simp [main, h1, h2, h3] at h
  by_cases h4 : opts.vfs_io_size ≠ 0 ∧ opts.segment_sz % opts.vfs_io_size ≠ 0
  · simp [main, h1, h2, h3, h4] at h
  by_cases h5 : env.open_fd < 0
  · simp [main, h1, h2, h3, h4, h5] at h
  by_cases h6 : env.fstat_rc ≠ 0
  · simp [main, h1, h2, h3, h4, h5, h6] at h
  by_cases h7 : opts.segment_sz = 0
  · simp [main, h1, h2, h3, h4, h5, h6, h7] at h
  by_cases h8 : ((env.st_size / opts.segment_sz) * opts.segment_sz) % 2 ^ 64 = 0
  · have h8a : env.st_size / opts.segment_sz * opts.segment_sz % 18446744073709551616 = 0 := h8
    simp [main, h1, h2, h3, h4, h5, h6, h7, h8a] at h
  have h8a : ¬ env.st_size / opts.segment_sz * opts.segment_sz % 18446744073709551616 = 0 := h8
  by_cases h9 : env.check_rc ≠ 0
  · simp [main, h1, h2, h3, h4, h5, h6, h7, h8a, h9] at h
  · refine ⟨h7, h8, ?_, ?_⟩
    · simp [main, h1, h2, h3, h4, h5, h6, h7, h8a, h9]
    · simp [main, h1, h2, h3, h4, h5, h6, h7, h8a, h9]

/-- The workers of `main` are runs of its thread function on the values their
fetch-adds returned. -/
theorem main_worker_is_run (opts : Options) (env : MainEnv)
    (wt : List CEvent × WorkerOutcome) (hwt : wt ∈ (main opts env).workers) :
    ∃ i fetched, wt = run_worker opts env
      { segment_sz := opts.segment_sz,
        filesize := ((env.st_size / opts.segment_sz) * opts.segment_sz) % 2 ^ 64,
        file_desc := env.open_fd, enable_checks := opts.enable_checks,
        cmd_bits := env.cmd_bits } i fetched := by
  have hne : (main opts env).workers ≠ [] := List.ne_nil_of_mem hwt
  obtain ⟨_, _, hw, _⟩ := main_with_workers opts env hne
  rw [hw] at hwt hne
  rw [(main_after_check_workers opts env _ _ hne).1] at hwt
  exact mem_pool_workers opts env _ _ wt hwt

/-- C10 (amended): in every run of `exec_test_by_strom` the trace obeys the
rule that each successful MEMCPY_SSD2GPU is followed, before the next submit,
by one MEMCPY_WAIT carrying the task id it returned, and no other wait is
issued. At the end either no task is pending, or exactly the last submitted
task is, and then the process has ended between that submit and its wait:
the worker has called `exit(1)` because `cuMemcpyHtoD` or
`cuStreamSynchronize` failed after a submit that reported fallback chunks, or
the process was ended from outside the worker (`exit(1)` or `abort()` in
another thread) inside that iteration. A worker that returns, or is between
two iterations, has waited for every task; and the same holds for every
worker of every run of `main`. -/
theorem worker_waits_once_per_task (g : TestGlobals) (w : WorkerContext) (ctx_rc : Nat)
    (fetched : List (Nat × IterEnv)) (chunk_ids : List Nat) :
    (wait_scan none (exec_test_by_strom g w ctx_rc fetched chunk_ids).1 = some none
      ∨ (∃ p ∈ fetched,
          wait_scan none (exec_test_by_strom g w ctx_rc fetched chunk_ids).1
            = some (some p.2.submit.dma_task_id)
          ∧ p.2.submit.rv = 0
          ∧ (((exec_test_by_strom g w ctx_rc fetched chunk_ids).2 = .exited 1
              ∧ p.2.submit.nr_ram2gpu % 2 ^ g.cmd_bits > 0
              ∧ (p.2.htod_rc ≠ 0 ∨ p.2.sync_rc ≠ 0))
            ∨ ((exec_test_by_strom g w ctx_rc fetched chunk_ids).2 = .killed
              ∧ ∃ k, p.2.cut = some k))))
    ∧ (((exec_test_by_strom g w ctx_rc fetched chunk_ids).2 = .returned
          ∨ (exec_test_by_strom g w ctx_rc fetched chunk_ids).2 = .running) →
        wait_scan none (exec_test_by_strom g w ctx_rc fetched chunk_ids).1 = some none)
    ∧ (∀ (opts : Options) (env : MainEnv), ∀ wt ∈ (main opts env).workers,
        wait_scan none wt.1 = some none
        ∨ (∃ id, wait_scan none wt.1 = some (some id)
            ∧ (wt.2 = .exited 1 ∨ wt.2 = .killed))) := by
  have hexec : ∀ (g : TestGlobals) (w : WorkerContext) (ctx_rc : Nat)
      (fetched : List (Nat × IterEnv)) (chunk_ids : List Nat),
      wait_scan none (exec_test_by_strom g w ctx_rc fetched chunk_ids).1 = some none
      ∨ (∃ p ∈ fetched,
          wait_scan none (exec_test_by_strom g w ctx_rc fetched chunk_ids).1
            = some (some p.2.submit.dma_task_id)
          ∧ p.2.submit.rv = 0
          ∧ (((exec_test_by_strom g w ctx_rc fetched chunk_ids).2 = .exited 1
              ∧ p.2.submit.nr_ram2gpu % 2 ^ g.cmd_bits > 0
              ∧ (p.2.htod_rc ≠ 0 ∨ p.2.sync_rc ≠ 0))
            ∨ ((exec_test_by_strom g w ctx_rc fetched chunk_ids).2 = .killed
              ∧ ∃ k, p.2.cut = some k))) := by
    intro g w ctx_rc fetched chunk_ids
    unfold exec_test_by_strom
    by_cases hc : ctx_rc = 0
    · simp only [hc, ne_eq, not_true_eq_false, if_false]
      exact strom_loop_scan g w fetched chunk_ids
    · left
      simp [hc, wait_scan]
  refine ⟨hexec g w ctx_rc fetched chunk_ids, ?_, ?_⟩
  · intro hout
    rcases hexec g w ctx_rc fetched chunk_ids with h | ⟨p, _, _, _, h | h⟩
    · exact h
    · rcases hout with ho | ho <;> rw [ho] at h <;> simp at h
    · rcases hout with ho | ho <;> rw [ho] at h <;> simp at h
  · intro opts env wt hwt
    obtain ⟨i, fetched2, hi⟩ := main_worker_is_run opts env wt hwt
    rw [hi]
    unfold run_worker
    split
    · left; simp [wait_scan]
    · split
      · left
        unfold exec_test_by_vfs
        split
        · simp [wait_scan]
        · exact wait_scan_neutral none _ (vfs_loop_no_command _ _ _)
      · rcases hexec _ (worker_context_of opts env i) (env.worker i).ctx_rc fetched2
          (List.replicate (opts.segment_sz / BLCKSZ) 0) with h | ⟨p, _, h1, _, h2 | h2⟩
        · exact Or.inl h
        · exact Or.inr ⟨_, h1, Or.inl h2.1⟩
        · exact Or.inr ⟨_, h1, Or.inr h2.1⟩

/-- C10 as stated fails in two runs. In the first the submit succeeds with
task id 7 and one fallback chunk and `cuMemcpyHtoD` then returns an error: the
worker exits with status 1 after one successful submit and no MEMCPY_WAIT at
all. In the second every call of the worker succeeds, but another thread ends
the process when the worker has made its submit and `cuMemcpyHtoD`: again task
7 is never waited for. -/
theorem wait_skipped_when_copy_fails :
    (exec_test_by_strom globals_2m worker_0 0 [(0, env_htod_fails)]
        (List.replicate 128 0)).2 = .exited 1
    ∧ (exec_test_by_strom globals_2m worker_0 0 [(0, env_htod_fails)]
        (List.replicate 128 0)).1.countP CEvent.is_submit_ok = 1
    ∧ (exec_test_by_strom globals_2m worker_0 0 [(0, env_htod_fails)]
        (List.replicate 128 0)).1.countP CEvent.is_wait = 0
    ∧ wait_scan none (exec_test_by_strom globals_2m worker_0 0 [(0, env_htod_fails)]
        (List.replicate 128 0)).1 = some (some 7)
    ∧ (exec_test_by_strom globals_2m worker_0 0 [(0, env_killed_before_wait)]
        (List.replicate 128 0)).2 = .killed
    ∧ (exec_test_by_strom globals_2m worker_0 0 [(0, env_killed_before_wait)]
        (List.replicate 128 0)).1.countP CEvent.is_submit_ok = 1
    ∧ (exec_test_by_strom globals_2m worker_0 0 [(0, env_killed_before_wait)]
        (List.replicate 128 0)).1.countP CEvent.is_wait = 0
    ∧ wait_scan none (exec_test_by_strom globals_2m worker_0 0 [(0, env_killed_before_wait)]
        (List.replicate 128 0)).1 = some (some 7) := by
  refine ⟨by decide, by decide, by decide, by decide, by decide, by decide, by decide,
    by decide⟩

/-! ## Lemmas : the offsets the workers obtain -/

end NvmeStrom
